import Mathlib

/-!
Verification of the perceptual color palette engine (brand-palette scripts).

Shallow embedding of `color_utils.py`, `palette.py` and `brandcolor.py` over ℝ.
Decimal literals denote the exact rational written in the source text.
Python `for`-loops with fixed iteration counts are embedded as fuelled
recursion; Python's in-place mutation is embedded as explicit state passing.
Python `%` on floats (sign of divisor) is embedded as `pymod`, and Python's
`round` (banker's rounding, half to even) as `pyround`.
-/

namespace Ripple

noncomputable section

open Real

/-- Python float modulo: `x % y = x - y * floor (x / y)` (for `y > 0`). -/
def pymod (x y : ℝ) : ℝ := x - y * ⌊x / y⌋

/-- Python `round` to an integer: nearest, halves to even (banker's rounding). -/
def pyround (x : ℝ) : ℤ :=
  if x - ⌊x⌋ < 1/2 then ⌊x⌋
  else if x - ⌊x⌋ > 1/2 then ⌊x⌋ + 1
  else if Even ⌊x⌋ then ⌊x⌋ else ⌊x⌋ + 1

/-- `clamp` from color_utils.py. -/
def clamp (x lo hi : ℝ) : ℝ := if x < lo then lo else if x > hi then hi else x

/-- `deg_to_rad` from color_utils.py. -/
def deg_to_rad (d : ℝ) : ℝ := d * π / 180

/-- `rad_to_deg` from color_utils.py. -/
def rad_to_deg (r : ℝ) : ℝ := r * 180 / π

/-- `mod360` from color_utils.py: `(h % 360.0 + 360.0) % 360.0`. -/
def mod360 (h : ℝ) : ℝ := pymod (pymod h 360 + 360) 360

/-- Target gamut (the `Gamut` Literal type). -/
inductive Gamut where
  | srgb
  | p3
deriving DecidableEq

-- ========== Gamma / Linear Conversion ==========

/-- `srgb_to_linear` from color_utils.py. -/
def srgb_to_linear (u : ℝ) : ℝ :=
  if u ≤ 0.04045 then u / 12.92 else ((u + 0.055) / 1.055) ^ (2.4 : ℝ)

/-- `linear_to_srgb` from color_utils.py. -/
def linear_to_srgb (u : ℝ) : ℝ :=
  if u ≤ 0.0031308 then 12.92 * u else 1.055 * u ^ ((1 : ℝ)/2.4) - 0.055

-- ========== Color Space Conversions ==========

/-- Signed cube root used in `srgb_to_oklab` (`l ** (1/3)` with negative guard). -/
def cbrt (x : ℝ) : ℝ := if 0 ≤ x then x ^ ((1:ℝ)/3) else -((-x) ^ ((1:ℝ)/3))

/-- `srgb_to_oklab` from color_utils.py. -/
def srgb_to_oklab (r g b : ℝ) : ℝ × ℝ × ℝ :=
  let R := srgb_to_linear (clamp r 0 1)
  let G := srgb_to_linear (clamp g 0 1)
  let B := srgb_to_linear (clamp b 0 1)
  let l := 0.4122214708 * R + 0.5363325363 * G + 0.0514459929 * B
  let m := 0.2119034982 * R + 0.6806995451 * G + 0.1073969566 * B
  let s := 0.0883024619 * R + 0.2817188376 * G + 0.6299797005 * B
  let l2 := cbrt l
  let m2 := cbrt m
  let s2 := cbrt s
  (0.2104542553 * l2 + 0.7936177850 * m2 - 0.0040720468 * s2,
   1.9779984951 * l2 - 2.4285922050 * m2 + 0.4505937099 * s2,
   0.0259040371 * l2 + 0.7827717662 * m2 - 0.8086757660 * s2)

/-- `oklch_to_oklab` from color_utils.py. -/
def oklch_to_oklab (L C h_deg : ℝ) : ℝ × ℝ × ℝ :=
  let h := deg_to_rad h_deg
  (L, C * Real.cos h, C * Real.sin h)

/-- `oklab_to_linear_srgb` from color_utils.py. -/
def oklab_to_linear_srgb (L a b : ℝ) : ℝ × ℝ × ℝ :=
  let l_ := L + 0.3963377774 * a + 0.2158037573 * b
  let m_ := L - 0.1055613458 * a - 0.0638541728 * b
  let s_ := L - 0.0894841775 * a - 1.2914855480 * b
  let l3 := l_ ^ (3:ℕ)
  let m3 := m_ ^ (3:ℕ)
  let s3 := s_ ^ (3:ℕ)
  (4.0767416621 * l3 - 3.3077115913 * m3 + 0.2309699292 * s3,
   -1.2684380046 * l3 + 2.6097574011 * m3 - 0.3413193965 * s3,
   -0.0041960863 * l3 - 0.7034186147 * m3 + 1.7076147010 * s3)

/-- `oklch_to_linear_srgb` from color_utils.py. -/
def oklch_to_linear_srgb (L C h_deg : ℝ) : ℝ × ℝ × ℝ :=
  let ab := oklch_to_oklab L C h_deg
  oklab_to_linear_srgb L ab.2.1 ab.2.2

/-- `oklab_to_xyz` from color_utils.py. -/
def oklab_to_xyz (L a b : ℝ) : ℝ × ℝ × ℝ :=
  let l_ := L + 0.3963377774 * a + 0.2158037573 * b
  let m_ := L - 0.1055613458 * a - 0.0638541728 * b
  let s_ := L - 0.0894841775 * a - 1.2914855480 * b
  let l := l_ ^ (3:ℕ)
  let m := m_ ^ (3:ℕ)
  let s := s_ ^ (3:ℕ)
  (1.2270138511 * l - 0.5577999807 * m + 0.2812561490 * s,
   -0.0405801784 * l + 1.1122568696 * m - 0.0716766787 * s,
   -0.0763812845 * l - 0.4214819784 * m + 1.5861632204 * s)

/-- `xyz_to_linear_p3` from color_utils.py (`_XYZ_TO_P3` matrix). -/
def xyz_to_linear_p3 (x y z : ℝ) : ℝ × ℝ × ℝ :=
  (2.4934969119 * x - 0.9313836179 * y - 0.4027107845 * z,
   -0.8294889696 * x + 1.7626640603 * y + 0.0236246858 * z,
   0.0358458302 * x - 0.0761723893 * y + 0.9568845240 * z)

/-- `linear_p3_to_xyz` from color_utils.py (`_P3_TO_XYZ` matrix). -/
def linear_p3_to_xyz (r g b : ℝ) : ℝ × ℝ × ℝ :=
  (0.4865709486 * r + 0.2656676932 * g + 0.1982172852 * b,
   0.2289745641 * r + 0.6917385218 * g + 0.0792869141 * b,
   0.0000000000 * r + 0.0451133819 * g + 1.0439443689 * b)

/-- `xyz_to_linear_srgb` from color_utils.py (`_XYZ_TO_SRGB` matrix). -/
def xyz_to_linear_srgb (x y z : ℝ) : ℝ × ℝ × ℝ :=
  (3.2404542 * x - 1.5371385 * y - 0.4985314 * z,
   -0.9692660 * x + 1.8760108 * y + 0.0415560 * z,
   0.0556434 * x - 0.2040259 * y + 1.0572252 * z)

/-- `oklch_to_linear_p3` from color_utils.py. -/
def oklch_to_linear_p3 (L C h_deg : ℝ) : ℝ × ℝ × ℝ :=
  let ab := oklch_to_oklab L C h_deg
  let xyz := oklab_to_xyz L ab.2.1 ab.2.2
  xyz_to_linear_p3 xyz.1 xyz.2.1 xyz.2.2

-- ========== Gamut Checking ==========

/-- `linear_rgb_in_gamut` from color_utils.py. -/
def linear_rgb_in_gamut (r g b : ℝ) (eps : ℝ := 1e-9) : Bool :=
  decide (-eps ≤ r ∧ r ≤ 1 + eps ∧ -eps ≤ g ∧ g ≤ 1 + eps ∧ -eps ≤ b ∧ b ≤ 1 + eps)

/-- `oklch_in_p3_gamut` from color_utils.py. -/
def oklch_in_p3_gamut (L C h_deg : ℝ) (eps : ℝ := 1e-6) : Bool :=
  let rgb := oklch_to_linear_p3 L C h_deg
  linear_rgb_in_gamut rgb.1 rgb.2.1 rgb.2.2 eps

/-- `oklch_to_p3` from color_utils.py: returns (r, g, b, in_gamut). -/
def oklch_to_p3 (L C h_deg : ℝ) : ℝ × ℝ × ℝ × Bool :=
  let lin := oklch_to_linear_p3 L C h_deg
  let in_gamut := linear_rgb_in_gamut lin.1 lin.2.1 lin.2.2 1e-6
  let r_lin := clamp lin.1 (-1e-6) (1 + 1e-6)
  let g_lin := clamp lin.2.1 (-1e-6) (1 + 1e-6)
  let b_lin := clamp lin.2.2 (-1e-6) (1 + 1e-6)
  (clamp (linear_to_srgb r_lin) 0 1, clamp (linear_to_srgb g_lin) 0 1,
   clamp (linear_to_srgb b_lin) 0 1, in_gamut)

/-- `oklch_to_srgb` from color_utils.py: returns (r, g, b, in_gamut). -/
def oklch_to_srgb (L C h_deg : ℝ) : ℝ × ℝ × ℝ × Bool :=
  let lin := oklch_to_linear_srgb L C h_deg
  let in_gamut := linear_rgb_in_gamut lin.1 lin.2.1 lin.2.2 1e-6
  let r_lin := clamp lin.1 (-1e-6) (1 + 1e-6)
  let g_lin := clamp lin.2.1 (-1e-6) (1 + 1e-6)
  let b_lin := clamp lin.2.2 (-1e-6) (1 + 1e-6)
  (clamp (linear_to_srgb r_lin) 0 1, clamp (linear_to_srgb g_lin) 0 1,
   clamp (linear_to_srgb b_lin) 0 1, in_gamut)

-- ========== Max Chroma Search ==========

/-- The gamut test `cmax_for_L_h` selects: p3 uses `oklch_in_p3_gamut`
(default eps 1e-6), srgb checks `oklch_to_linear_srgb` with default eps 1e-9. -/
def cmax_in_gamut (gamut : Gamut) (L C h : ℝ) : Bool :=
  match gamut with
  | Gamut.p3 => oklch_in_p3_gamut L C h
  | Gamut.srgb =>
      let lin := oklch_to_linear_srgb L C h
      linear_rgb_in_gamut lin.1 lin.2.1 lin.2.2

/-- The `hi`-growing loop of `cmax_for_L_h` (`for _ in range(8)`). -/
def cmax_grow (gamut : Gamut) (L h : ℝ) : ℕ → ℝ → ℝ
  | 0, hi => hi
  | n + 1, hi =>
      if cmax_in_gamut gamut L hi h then
        let hi2 := hi * 1.5
        if hi2 > 1.2 then 1.2 else cmax_grow gamut L h n hi2
      else hi

/-- The 28-step bisection loop of `cmax_for_L_h`. -/
def cmax_bisect (gamut : Gamut) (L h : ℝ) : ℕ → ℝ × ℝ → ℝ × ℝ
  | 0, s => s
  | n + 1, (lo, hi) =>
      let mid := 0.5 * (lo + hi)
      if cmax_in_gamut gamut L mid h then cmax_bisect gamut L h n (mid, hi)
      else cmax_bisect gamut L h n (lo, mid)

/-- `cmax_for_L_h` from color_utils.py. -/
def cmax_for_L_h (L h_deg : ℝ) (gamut : Gamut := Gamut.srgb)
    (hi_start : ℝ := 0.5) : ℝ :=
  (cmax_bisect gamut L h_deg 28 (0, cmax_grow gamut L h_deg 8 hi_start)).1

-- ========== Paletton RYB Color Wheel Algorithm ==========

/-- Keys of the `_RYB_ANCHORS` table. -/
inductive AnchorId where
  | r
  | rg
  | g
  | gb
  | b
  | br
deriving DecidableEq

/-- `_RYB_ANCHORS[· ]["ryb"]`. -/
def anchor_ryb : AnchorId → ℝ
  | AnchorId.r => 0
  | AnchorId.rg => 120
  | AnchorId.g => 180
  | AnchorId.gb => 210
  | AnchorId.b => 255
  | AnchorId.br => 315

/-- `_RYB_ANCHORS[· ]["rgb"]`. -/
def anchor_rgb : AnchorId → ℤ × ℤ × ℤ
  | AnchorId.r => (255, 0, 0)
  | AnchorId.rg => (255, 255, 0)
  | AnchorId.g => (0, 255, 0)
  | AnchorId.gb => (0, 255, 255)
  | AnchorId.b => (0, 0, 255)
  | AnchorId.br => (255, 0, 255)

/-- `_RYB_ANCHORS[· ]["s"]`. -/
def anchor_s : AnchorId → ℝ
  | AnchorId.b => 0.85
  | _ => 1.0

/-- `_RYB_ANCHORS[· ]["v"]`. -/
def anchor_v : AnchorId → ℝ
  | AnchorId.r => 1.0
  | AnchorId.rg => 1.0
  | AnchorId.g => 0.8
  | AnchorId.gb => 0.6
  | AnchorId.b => 0.7
  | AnchorId.br => 0.65

/-- Keys of the `_RYB_SEGMENTS` table. -/
inductive SegId where
  | h
  | c
  | a
  | o
  | n
  | r
deriving DecidableEq

/-- The `interp` direction of a segment. -/
inductive Interp where
  | s
  | i
deriving DecidableEq

/-- `_RYB_SEGMENTS[· ]["a"]`. -/
def seg_anchor_a : SegId → AnchorId
  | SegId.h => AnchorId.r
  | SegId.c => AnchorId.rg
  | SegId.a => AnchorId.g
  | SegId.o => AnchorId.gb
  | SegId.n => AnchorId.b
  | SegId.r => AnchorId.br

/-- `_RYB_SEGMENTS[· ]["b"]`. -/
def seg_anchor_b : SegId → AnchorId
  | SegId.h => AnchorId.rg
  | SegId.c => AnchorId.g
  | SegId.a => AnchorId.gb
  | SegId.o => AnchorId.b
  | SegId.n => AnchorId.br
  | SegId.r => AnchorId.r

/-- `_RYB_SEGMENTS[· ]["coef"]`. -/
def seg_coef : SegId → ℝ
  | SegId.h => 0.5
  | SegId.c => 0.5
  | SegId.a => 0.75
  | _ => 1.33

/-- `_RYB_SEGMENTS[· ]["interp"]`. -/
def seg_interp : SegId → Interp
  | SegId.h => Interp.s
  | SegId.c => Interp.i
  | SegId.a => Interp.s
  | SegId.o => Interp.i
  | SegId.n => Interp.s
  | SegId.r => Interp.i

/-- `_RYB_SEGMENTS[· ]["order"]`: channel ordering `(mx, md, mn) -> (r, g, b)`. -/
def seg_order (seg : SegId) (mx md mn : ℝ) : ℝ × ℝ × ℝ :=
  match seg with
  | SegId.h => (mx, md, mn)
  | SegId.c => (md, mx, mn)
  | SegId.a => (mn, mx, md)
  | SegId.o => (mn, md, mx)
  | SegId.n => (md, mn, mx)
  | SegId.r => (mx, mn, md)

/-- `_get_segment_for_ryb` from color_utils.py. -/
def get_segment_for_ryb (ryb_hue : ℝ) : SegId :=
  let h := mod360 ryb_hue
  if h < 120 then SegId.h
  else if h < 180 then SegId.c
  else if h < 210 then SegId.a
  else if h < 255 then SegId.o
  else if h < 315 then SegId.n
  else SegId.r

/-- `_segment_factor` from color_utils.py. -/
def segment_factor (seg : SegId) (ryb_hue : ℝ) : ℝ :=
  let h := mod360 ryb_hue
  let coef := seg_coef seg
  match seg with
  | SegId.h =>
      if h = 0 then -1 else Real.tan ((120 - h) / 120 * (π / 2)) * coef
  | SegId.c =>
      if h = 180 then -1 else Real.tan ((h - 120) / 60 * (π / 2)) * coef
  | SegId.a =>
      if h = 180 then -1 else Real.tan ((210 - h) / 30 * (π / 2)) * coef
  | SegId.o =>
      if h = 255 then -1 else Real.tan ((h - 210) / 45 * (π / 2)) * coef
  | SegId.n =>
      if h = 255 then -1 else Real.tan ((315 - h) / 60 * (π / 2)) * coef
  | SegId.r =>
      if h = 0 ∨ h = 360 then -1
      else if h ≥ 315 then Real.tan ((h - 315) / 45 * (π / 2)) * coef
      else Real.tan ((h + 45) / 45 * (π / 2)) * coef

/-- `_segment_factor_inverse` from color_utils.py. -/
def segment_factor_inverse (seg : SegId) (factor : ℝ) : ℝ :=
  if factor = -1 then
    match seg_interp seg with
    | Interp.s => anchor_ryb (seg_anchor_a seg)
    | Interp.i => anchor_ryb (seg_anchor_b seg)
  else
    let coef := seg_coef seg
    match seg with
    | SegId.h => 120 - Real.arctan (factor / coef) * 120 / (π / 2)
    | SegId.c => 120 + Real.arctan (factor / coef) * 60 / (π / 2)
    | SegId.a => 210 - Real.arctan (factor / coef) * 30 / (π / 2)
    | SegId.o => 210 + Real.arctan (factor / coef) * 45 / (π / 2)
    | SegId.n => 315 - Real.arctan (factor / coef) * 60 / (π / 2)
    | SegId.r => mod360 (315 + Real.arctan (factor / coef) * 45 / (π / 2))

/-- `_interp_s` from color_utils.py: factor=-1 → a, factor=0 → b. -/
def interp_s (a_val b_val factor : ℝ) : ℝ :=
  if factor = -1 then a_val else a_val + (b_val - a_val) / (1 + factor)

/-- `_interp_i` from color_utils.py: factor=-1 → b, factor=0 → a. -/
def interp_i (a_val b_val factor : ℝ) : ℝ :=
  if factor = -1 then b_val else b_val + (a_val - b_val) / (1 + factor)

/-- `get_base_color_for_ryb_hue` from color_utils.py. -/
def get_base_color_for_ryb_hue (ryb_hue : ℝ) : ℝ × ℝ :=
  let h := mod360 ryb_hue
  let seg := get_segment_for_ryb h
  let aa := seg_anchor_a seg
  let bb := seg_anchor_b seg
  let factor := segment_factor seg h
  match seg_interp seg with
  | Interp.s => (interp_s (anchor_s aa) (anchor_s bb) factor,
      interp_s (anchor_v aa) (anchor_v bb) factor)
  | Interp.i => (interp_i (anchor_s aa) (anchor_s bb) factor,
      interp_i (anchor_v aa) (anchor_v bb) factor)

/-- The `"s"`-direction middle-channel branch of `ryb_hsv_to_rgb`
(source lines 337-342). -/
def ryb_mid_forward (mx mn factor : ℝ) : ℝ :=
  if factor = -1 then mn else (mx + mn * factor) / (1 + factor)

/-- The `"i"`-direction middle-channel branch of `ryb_hsv_to_rgb`
(source lines 343-348). -/
def ryb_mid_inverse (mx mn factor : ℝ) : ℝ :=
  if factor = -1 then mn else (mx + mn * factor) / (1 + factor)

/-- `ryb_hsv_to_rgb` from color_utils.py (returns 0-255 integers). -/
def ryb_hsv_to_rgb (ryb_hue s0 v0 : ℝ) : ℤ × ℤ × ℤ :=
  let h := mod360 ryb_hue
  let s := clamp s0 0 1
  let v := clamp v0 0 1
  let seg := get_segment_for_ryb h
  let aa := seg_anchor_a seg
  let factor := segment_factor seg h
  let a_rgb := anchor_rgb aa
  let rgb_max : ℝ := (max a_rgb.1 (max a_rgb.2.1 a_rgb.2.2) : ℤ)
  let mx := rgb_max * v
  let mn := mx * (1 - s)
  let md :=
    match seg_interp seg with
    | Interp.s => ryb_mid_forward mx mn factor
    | Interp.i => ryb_mid_inverse mx mn factor
  let rgb := seg_order seg mx md mn
  (pyround (clamp rgb.1 0 255), pyround (clamp rgb.2.1 0 255),
    pyround (clamp rgb.2.2 0 255))

/-- `rgb_to_ryb_hsv` from color_utils.py (input RGB 0-255, any reals). -/
def rgb_to_ryb_hsv (r0 g0 b0 : ℝ) : ℝ × ℝ × ℝ :=
  let r := pyround (clamp r0 0 255)
  let g := pyround (clamp g0 0 255)
  let b := pyround (clamp b0 0 255)
  if r = g ∧ g = b then (0, 0, (r : ℝ) / 255)
  else
    let mx := max r (max g b)
    let mn := min r (min g b)
    let md_seg : ℤ × SegId :=
      if mx = r then
        if mn = b then (g, SegId.h) else (b, SegId.r)
      else if mx = g then
        if mn = r then (b, SegId.a) else (r, SegId.c)
      else
        if mn = r then (g, SegId.o) else (r, SegId.n)
    let md := md_seg.1
    let seg := md_seg.2
    let factor : ℝ :=
      if md = mn then -1 else ((mx : ℝ) - md) / ((md : ℝ) - mn)
    let ryb_hue := segment_factor_inverse seg factor
    let s := if mx > 0 then ((mx : ℝ) - mn) / mx else 0
    (ryb_hue, s, (mx : ℝ) / 255)

-- ========== HSV Conversion (for hue mapping) ==========

/-- `hsv_to_srgb` from color_utils.py. -/
def hsv_to_srgb (h_deg s0 v0 : ℝ) : ℝ × ℝ × ℝ :=
  let h := mod360 h_deg
  let s := clamp s0 0 1
  let v := clamp v0 0 1
  let c := v * s
  let hp := h / 60
  let x := c * (1 - |pymod hp 2 - 1|)
  let rgb1 : ℝ × ℝ × ℝ :=
    if 0 ≤ hp ∧ hp < 1 then (c, x, 0)
    else if 1 ≤ hp ∧ hp < 2 then (x, c, 0)
    else if 2 ≤ hp ∧ hp < 3 then (0, c, x)
    else if 3 ≤ hp ∧ hp < 4 then (0, x, c)
    else if 4 ≤ hp ∧ hp < 5 then (x, 0, c)
    else (c, 0, x)
  let m := v - c
  (rgb1.1 + m, rgb1.2.1 + m, rgb1.2.2 + m)

/-- `srgb_to_hsv` from color_utils.py. -/
def srgb_to_hsv (r0 g0 b0 : ℝ) : ℝ × ℝ × ℝ :=
  let r := clamp r0 0 1
  let g := clamp g0 0 1
  let b := clamp b0 0 1
  let cmax := max r (max g b)
  let cmin := min r (min g b)
  let delta := cmax - cmin
  let h :=
    if delta < 1e-9 then 0
    else if cmax = r then 60 * pymod ((g - b) / delta) 6
    else if cmax = g then 60 * ((b - r) / delta + 2)
    else 60 * ((r - g) / delta + 4)
  let s := if cmax < 1e-9 then 0 else delta / cmax
  (mod360 h, s, cmax)

/-- `ryb_hue_to_hsv_hue` from color_utils.py. -/
def ryb_hue_to_hsv_hue (ryb_deg : ℝ) : ℝ :=
  let rgb := ryb_hsv_to_rgb ryb_deg 1 1
  (srgb_to_hsv ((rgb.1 : ℝ) / 255) ((rgb.2.1 : ℝ) / 255) ((rgb.2.2 : ℝ) / 255)).1

/-- `hsv_hue_to_ryb_hue` from color_utils.py. -/
def hsv_hue_to_ryb_hue (hsv_deg : ℝ) : ℝ :=
  let rgb := hsv_to_srgb hsv_deg 1 1
  (rgb_to_ryb_hsv (pyround (rgb.1 * 255) : ℤ) (pyround (rgb.2.1 * 255) : ℤ)
    (pyround (rgb.2.2 * 255) : ℤ)).1

/-- `ryb_hue_to_rgb_hue` from color_utils.py (alias). -/
def ryb_hue_to_rgb_hue (ryb_deg : ℝ) : ℝ := ryb_hue_to_hsv_hue ryb_deg

/-- `rgb_hue_to_ryb_hue` from color_utils.py (alias). -/
def rgb_hue_to_ryb_hue (rgb_deg : ℝ) : ℝ := hsv_hue_to_ryb_hue rgb_deg

-- ========== APCA Contrast Calculation ==========

/-- APCA gamma `_APCA_MAIN_TRC`. -/
def APCA_MAIN_TRC : ℝ := 2.4

/-- `srgb_to_y_apca` from color_utils.py (channels 0-255). -/
def srgb_to_y_apca (r g b : ℤ) : ℝ :=
  0.2126729 * ((r : ℝ) / 255) ^ APCA_MAIN_TRC
    + 0.7151522 * ((g : ℝ) / 255) ^ APCA_MAIN_TRC
    + 0.0721750 * ((b : ℝ) / 255) ^ APCA_MAIN_TRC

/-- `p3_to_y_apca` from color_utils.py (channels 0.0-1.0). -/
def p3_to_y_apca (r g b : ℝ) : ℝ :=
  0.2289829594805780 * r ^ APCA_MAIN_TRC
    + 0.6917492625852380 * g ^ APCA_MAIN_TRC
    + 0.0792677779341829 * b ^ APCA_MAIN_TRC

/-- The black soft clamp step of `apca_contrast`. -/
def apca_black_clamp (y : ℝ) : ℝ :=
  if y < 0.022 then y + (0.022 - y) ^ (1.414 : ℝ) else y

/-- `apca_contrast` from color_utils.py (APCA-W3 0.98G-4g). -/
def apca_contrast (txt_y0 bg_y0 : ℝ) : ℝ :=
  let txt_y := apca_black_clamp txt_y0
  let bg_y := apca_black_clamp bg_y0
  if |bg_y - txt_y| < 0.0005 then 0
  else if bg_y > txt_y then
    let sapc := (bg_y ^ (0.56 : ℝ) - txt_y ^ (0.57 : ℝ)) * 1.14
    if sapc < 0.001 then 0
    else if sapc < 0.035991 then
      (sapc - sapc * 27.7847239587675 * 0.027) * 100
    else (sapc - 0.027) * 100
  else
    let sapc := (bg_y ^ (0.65 : ℝ) - txt_y ^ (0.62 : ℝ)) * 1.14
    if sapc > -0.001 then 0
    else if sapc > -0.035991 then
      (sapc - sapc * 27.7847239587675 * 0.027) * 100
    else (sapc + 0.027) * 100

/-- `calc_apca` from color_utils.py. -/
def calc_apca (text_rgb bg_rgb : ℤ × ℤ × ℤ) : ℝ :=
  apca_contrast (srgb_to_y_apca text_rgb.1 text_rgb.2.1 text_rgb.2.2)
    (srgb_to_y_apca bg_rgb.1 bg_rgb.2.1 bg_rgb.2.2)

/-- `calc_apca_from_rgb01` from color_utils.py. -/
def calc_apca_from_rgb01 (text_rgb bg_rgb : ℝ × ℝ × ℝ) : ℝ :=
  calc_apca
    (pyround (text_rgb.1 * 255), pyround (text_rgb.2.1 * 255),
      pyround (text_rgb.2.2 * 255))
    (pyround (bg_rgb.1 * 255), pyround (bg_rgb.2.1 * 255),
      pyround (bg_rgb.2.2 * 255))

/-- `calc_apca_p3` from color_utils.py. -/
def calc_apca_p3 (text_rgb bg_rgb : ℝ × ℝ × ℝ) : ℝ :=
  apca_contrast (p3_to_y_apca text_rgb.1 text_rgb.2.1 text_rgb.2.2)
    (p3_to_y_apca bg_rgb.1 bg_rgb.2.1 bg_rgb.2.2)

/-- `APCA_THRESHOLD_LARGE_TEXT` from color_utils.py. -/
def APCA_THRESHOLD_LARGE_TEXT : ℝ := 60.0

-- ========== Contrast auto-adjustment ==========

/-- The `direction` Literal of `auto_adjust_for_contrast`. -/
inductive Direction where
  | lighter
  | darker
deriving DecidableEq

/-- Binary-search state of `auto_adjust_for_contrast`:
`(L_low, L_high, best_L, best_C, best_lc)`. -/
structure AdjState where
  L_low : ℝ
  L_high : ℝ
  best_L : ℝ
  best_C : ℝ
  best_lc : ℝ

/-- The per-candidate chroma substitution of `auto_adjust_for_contrast`
(98% of the gamut boundary when the original chroma leaves gamut). -/
def adj_c_test (C H : ℝ) (gamut : Gamut) (L_mid : ℝ) : ℝ :=
  match gamut with
  | Gamut.p3 =>
      if oklch_in_p3_gamut L_mid C H then C
      else cmax_for_L_h L_mid H Gamut.p3 * 0.98
  | Gamut.srgb =>
      let lin := oklch_to_linear_srgb L_mid C H
      if linear_rgb_in_gamut lin.1 lin.2.1 lin.2.2 then C
      else cmax_for_L_h L_mid H Gamut.srgb * 0.98

/-- The absolute contrast measured for one candidate of
`auto_adjust_for_contrast`. -/
def adj_lc (C H : ℝ) (bg_rgb : ℝ × ℝ × ℝ) (gamut : Gamut) (L_mid : ℝ) : ℝ :=
  match gamut with
  | Gamut.p3 =>
      let rgb := oklch_to_p3 L_mid (adj_c_test C H gamut L_mid) H
      |calc_apca_p3 (rgb.1, rgb.2.1, rgb.2.2.1) bg_rgb|
  | Gamut.srgb =>
      let rgb := oklch_to_srgb L_mid (adj_c_test C H gamut L_mid) H
      |calc_apca_from_rgb01 (rgb.1, rgb.2.1, rgb.2.2.1) bg_rgb|

/-- One iteration of the 20-step loop of `auto_adjust_for_contrast`. -/
def adj_step (C H : ℝ) (bg_rgb : ℝ × ℝ × ℝ) (min_lc : ℝ) (direction : Direction)
    (gamut : Gamut) (s : AdjState) : AdjState :=
  let L_mid := (s.L_low + s.L_high) / 2
  let C_test := adj_c_test C H gamut L_mid
  let lc := adj_lc C H bg_rgb gamut L_mid
  if lc ≥ min_lc then
    match direction with
    | Direction.lighter => ⟨s.L_low, L_mid, L_mid, C_test, lc⟩
    | Direction.darker => ⟨L_mid, s.L_high, L_mid, C_test, lc⟩
  else
    match direction with
    | Direction.lighter => ⟨L_mid, s.L_high, s.best_L, s.best_C, s.best_lc⟩
    | Direction.darker => ⟨s.L_low, L_mid, s.best_L, s.best_C, s.best_lc⟩

/-- The fuelled 20-iteration loop of `auto_adjust_for_contrast`. -/
def adj_loop (C H : ℝ) (bg_rgb : ℝ × ℝ × ℝ) (min_lc : ℝ) (direction : Direction)
    (gamut : Gamut) : ℕ → AdjState → AdjState
  | 0, s => s
  | n + 1, s =>
      adj_loop C H bg_rgb min_lc direction gamut n
        (adj_step C H bg_rgb min_lc direction gamut s)

/-- Result tuple of `auto_adjust_for_contrast`: `(L_new, C_new, H, achieved_lc,
success)`. -/
structure AdjResult where
  L : ℝ
  C : ℝ
  H : ℝ
  lc : ℝ
  success : Bool

/-- `auto_adjust_for_contrast` from color_utils.py. -/
def auto_adjust_for_contrast (L C H : ℝ) (bg_rgb : ℝ × ℝ × ℝ) (min_lc : ℝ)
    (direction : Direction) (gamut : Gamut := Gamut.srgb)
    (max_delta_l : ℝ := 0.15) : AdjResult :=
  let bounds :=
    match direction with
    | Direction.lighter => (L, min (L + max_delta_l) 0.99)
    | Direction.darker => (max (L - max_delta_l) 0.01, L)
  let final := adj_loop C H bg_rgb min_lc direction gamut 20
    ⟨bounds.1, bounds.2, L, C, 0⟩
  ⟨final.best_L, final.best_C, H, final.best_lc,
    decide (final.best_lc ≥ min_lc)⟩

-- ========== palette.py: scale generation ==========

/-- `LEVELS` from palette.py. -/
def LEVELS : List ℤ := [50, 100, 200, 300, 400, 500, 600, 700, 800, 900, 950]

/-- `LEVEL_TO_T` from palette.py: level ↦ index / 10. -/
def LEVEL_TO_T (level : ℤ) : ℝ := (LEVELS.indexOf level : ℝ) / 10

/-- `ease_in_quad` from palette.py. -/
def ease_in_quad (t : ℝ) : ℝ := t * t

/-- `ease_out_quad` from palette.py. -/
def ease_out_quad (t : ℝ) : ℝ := t * (2 - t)

/-- `ease_in_out_quad` from palette.py. -/
def ease_in_out_quad (t : ℝ) : ℝ :=
  if t < 0.5 then 2 * t * t else -1 + (4 - 2 * t) * t

/-- `chroma_envelope` from palette.py. -/
def chroma_envelope (t : ℝ) (min_ratio : ℝ := 0.15) : ℝ :=
  min_ratio + (1 - min_ratio) * Real.sin (t * π)

/-- `generate_lightness` from palette.py (L: 0.96 → 0.25). -/
def generate_lightness (t : ℝ) : ℝ :=
  0.96 - (0.96 - 0.25) * ease_in_out_quad t

/-- `generate_lightness_anchored` from palette.py. -/
def generate_lightness_anchored (t anchor_L anchor_t : ℝ)
    (power : ℝ := 1.5) : ℝ :=
  if anchor_t < 1e-9 then
    if t < 1e-9 then anchor_L
    else
      let eased := 1 - (1 - t / 1) ^ power
      anchor_L + (0.25 - anchor_L) * eased
  else if anchor_t > 1 - 1e-9 then
    if t > 1 - 1e-9 then anchor_L
    else
      let eased := (t / 1) ^ power
      0.96 + (anchor_L - 0.96) * eased
  else if t ≤ anchor_t then
    let eased := (t / anchor_t) ^ power
    0.96 + (anchor_L - 0.96) * eased
  else
    let local_t := (t - anchor_t) / (1 - anchor_t)
    let eased := 1 - (1 - local_t) ^ power
    anchor_L + (0.25 - anchor_L) * eased

/-- `generate_chroma_anchored` from palette.py. -/
def generate_chroma_anchored (t anchor_C anchor_t : ℝ)
    (min_ratio : ℝ := 0.15) : ℝ :=
  if anchor_t < 1e-9 ∨ anchor_t > 1 - 1e-9 then
    if t ≤ anchor_t then anchor_C
    else
      let local_t := if anchor_t < 0.5 then (t - anchor_t) / (1 - anchor_t) else t
      anchor_C * (1 - (1 - min_ratio) * local_t)
  else if t ≤ anchor_t then
    let local_t := t / anchor_t
    anchor_C * (min_ratio + (1 - min_ratio) * Real.sin (local_t * π / 2))
  else
    let local_t := (t - anchor_t) / (1 - anchor_t)
    anchor_C * (min_ratio + (1 - min_ratio) * Real.cos (local_t * π / 2))

/-- `generate_hue_shifted` from palette.py. -/
def generate_hue_shifted (t anchor_H anchor_t : ℝ)
    (light_shift : ℝ := -16) (dark_shift : ℝ := 31) : ℝ :=
  let shift :=
    if t ≤ anchor_t then
      if anchor_t > 1e-9 then
        light_shift * (1 - t / anchor_t) ^ (2.2 : ℝ)
      else 0
    else
      if anchor_t < 1 - 1e-9 then
        dark_shift * ((t - anchor_t) / (1 - anchor_t)) ^ (0.9 : ℝ)
      else 0
  mod360 (anchor_H + shift)

/-- `generate_chroma_colorbox` from palette.py. -/
def generate_chroma_colorbox (t anchor_C anchor_t L H : ℝ)
    (gamut : Gamut := Gamut.p3) : ℝ :=
  if |t - anchor_t| < 1e-9 then anchor_C
  else
    let c_max := cmax_for_L_h L H gamut * 0.99
    let ratio :=
      if t ≤ 0.2 then 1 - (1 - 0.53) * (t / 0.2) ^ (1.2 : ℝ)
      else if t ≤ 0.7 then 0.53 + (1 - 0.53) * ((t - 0.2) / 0.5) ^ (0.8 : ℝ)
      else 1
    let anchor_curve_ratio :=
      if anchor_t ≤ 0.2 then 1 - (1 - 0.53) * ease_in_quad (anchor_t / 0.2)
      else if anchor_t ≤ 0.7 then
        0.53 + (1 - 0.53) * ease_out_quad ((anchor_t - 0.2) / 0.5)
      else 1
    let anchor_L_approx := generate_lightness anchor_t
    let anchor_c_max := cmax_for_L_h anchor_L_approx H gamut * 0.99
    let curve_c_at_anchor := anchor_curve_ratio * anchor_c_max
    let scale := if curve_c_at_anchor > 1e-9 then anchor_C / curve_c_at_anchor else 1
    min (ratio * c_max * scale) c_max

-- ========== palette.py: data structures ==========

/-- `ChromaMode` Literal from palette.py. -/
inductive ChromaMode where
  | even
  | maxc
  | both
  | anchored
deriving DecidableEq

/-- `ColorValue` dataclass from palette.py. -/
structure ColorValue where
  level : ℤ
  oklch_l : ℝ
  oklch_c : ℝ
  oklch_h : ℝ
  p3_r : ℝ := 0
  p3_g : ℝ := 0
  p3_b : ℝ := 0
  p3_in_gamut : Bool := true
  srgb_r : ℝ := 0
  srgb_g : ℝ := 0
  srgb_b : ℝ := 0
  srgb_in_gamut : Bool := true
  srgb_was_clipped : Bool := false
  apca_vs_light_bg : Option ℝ := none
  apca_vs_dark_bg : Option ℝ := none

/-- `ColorScale` dataclass from palette.py; the `colors` dict is embedded as an
association list in insertion order. -/
structure ColorScale where
  name : String
  oklch_hue : ℝ
  colors : List (ℤ × ColorValue) := []

/-- `Palette` dataclass from palette.py. The four neutral-background fields are
`Optional` in the source with default `None`; every palette the adjustment pass
runs on carries actual backgrounds (a `None` would crash the source), so they
are embedded as plain triples. -/
structure Palette where
  scales : List (String × ColorScale) := []
  chroma_mode : ChromaMode := ChromaMode.even
  gamut : Gamut := Gamut.p3
  neutral_light_bg : ℝ × ℝ × ℝ := (0, 0, 0)
  neutral_dark_bg : ℝ × ℝ × ℝ := (0, 0, 0)
  neutral_light_bg_p3 : ℝ × ℝ × ℝ := (0, 0, 0)
  neutral_dark_bg_p3 : ℝ × ℝ × ℝ := (0, 0, 0)

-- ========== palette.py: anchored / colorbox scale generation ==========

/-- Loop body of `compute_scale_anchored` for one `level`. -/
def compute_scale_anchored_stop (anchor_L anchor_C anchor_H : ℝ)
    (anchor_level : ℤ) (level : ℤ) : ColorValue :=
  let t := LEVEL_TO_T level
  let anchor_t := LEVEL_TO_T anchor_level
  let LC : ℝ × ℝ :=
    if level = anchor_level then (anchor_L, anchor_C)
    else (generate_lightness_anchored t anchor_L anchor_t,
      generate_chroma_anchored t anchor_C anchor_t)
  let L := LC.1
  let C := LC.2
  let H := anchor_H
  let p3 := oklch_to_p3 L C H
  let clipped : ℝ × (ℝ × ℝ × ℝ × Bool) :=
    if ¬p3.2.2.2 ∧ level ≠ anchor_level then
      let c_max := cmax_for_L_h L H Gamut.p3 * 0.98
      let C2 := min C c_max
      let p3b := oklch_to_p3 L C2 H
      (C2, (p3b.1, p3b.2.1, p3b.2.2.1, true))
    else (C, p3)
  let C3 := clipped.1
  let srgb := oklch_to_srgb L C3 H
  { level := level
    oklch_l := L
    oklch_c := C3
    oklch_h := H
    p3_r := clipped.2.1
    p3_g := clipped.2.2.1
    p3_b := clipped.2.2.2.1
    p3_in_gamut := clipped.2.2.2.2
    srgb_r := srgb.1
    srgb_g := srgb.2.1
    srgb_b := srgb.2.2.1
    srgb_in_gamut := srgb.2.2.2
    srgb_was_clipped := ¬srgb.2.2.2 }

/-- `compute_scale_anchored` from palette.py. -/
def compute_scale_anchored (name : String) (anchor_L anchor_C anchor_H : ℝ)
    (anchor_level : ℤ) (_gamut : Gamut) : ColorScale :=
  { name := name
    oklch_hue := anchor_H
    colors := LEVELS.map fun level =>
      (level, compute_scale_anchored_stop anchor_L anchor_C anchor_H
        anchor_level level) }

/-- Loop body of `compute_scale_colorbox` for one `level`. -/
def compute_scale_colorbox_stop (anchor_L anchor_C anchor_H : ℝ)
    (anchor_level : ℤ) (gamut : Gamut) (hue_shift : Bool)
    (light_hue_shift dark_hue_shift : ℝ) (level : ℤ) : ColorValue :=
  let t := LEVEL_TO_T level
  let anchor_t := LEVEL_TO_T anchor_level
  let LCH : ℝ × ℝ × ℝ :=
    if level = anchor_level then (anchor_L, anchor_C, anchor_H)
    else
      let L := generate_lightness_anchored t anchor_L anchor_t
      let H :=
        if hue_shift then
          generate_hue_shifted t anchor_H anchor_t light_hue_shift dark_hue_shift
        else anchor_H
      let C := generate_chroma_colorbox t anchor_C anchor_t L H gamut
      (L, C, H)
  let L := LCH.1
  let C := LCH.2.1
  let H := LCH.2.2
  let p3 := oklch_to_p3 L C H
  let clipped : ℝ × (ℝ × ℝ × ℝ × Bool) :=
    if ¬p3.2.2.2 ∧ level ≠ anchor_level then
      let c_max := cmax_for_L_h L H Gamut.p3 * 0.98
      let C2 := min C c_max
      let p3b := oklch_to_p3 L C2 H
      (C2, (p3b.1, p3b.2.1, p3b.2.2.1, true))
    else (C, p3)
  let C3 := clipped.1
  let srgb := oklch_to_srgb L C3 H
  { level := level
    oklch_l := L
    oklch_c := C3
    oklch_h := H
    p3_r := clipped.2.1
    p3_g := clipped.2.2.1
    p3_b := clipped.2.2.2.1
    p3_in_gamut := clipped.2.2.2.2
    srgb_r := srgb.1
    srgb_g := srgb.2.1
    srgb_b := srgb.2.2.1
    srgb_in_gamut := srgb.2.2.2
    srgb_was_clipped := ¬srgb.2.2.2 }

/-- `compute_scale_colorbox` from palette.py. -/
def compute_scale_colorbox (name : String) (anchor_L anchor_C anchor_H : ℝ)
    (anchor_level : ℤ) (gamut : Gamut) (hue_shift : Bool := true)
    (light_hue_shift : ℝ := -16) (dark_hue_shift : ℝ := 31) : ColorScale :=
  { name := name
    oklch_hue := anchor_H
    colors := LEVELS.map fun level =>
      (level, compute_scale_colorbox_stop anchor_L anchor_C anchor_H
        anchor_level gamut hue_shift light_hue_shift dark_hue_shift level) }

-- ========== palette.py: APCA validation and auto-adjustment ==========

/-- `ContrastIssue` dataclass from palette.py. -/
structure ContrastIssue where
  scale_name : String
  level : ℤ
  background : String
  actual_lc : ℝ
  required_lc : ℝ

/-- `ContrastAdjustment` dataclass from palette.py. -/
structure ContrastAdjustment where
  scale_name : String
  level : ℤ
  background : String
  L_old : ℝ
  L_new : ℝ
  C_old : ℝ
  C_new : ℝ
  lc_old : ℝ
  lc_new : ℝ
  success : Bool

/-- Issues recorded by `validate_palette_contrast` for one color. -/
def validate_color_issues (scale_name : String) (min_lc : ℝ) (level : ℤ)
    (color : ColorValue) : List ContrastIssue :=
  (if level ≤ 400 then
    match color.apca_vs_dark_bg with
    | some v => if |v| < min_lc then
        [⟨scale_name, level, "dark", |v|, min_lc⟩] else []
    | none => []
  else []) ++
  (if level ≥ 600 then
    match color.apca_vs_light_bg with
    | some v => if |v| < min_lc then
        [⟨scale_name, level, "light", |v|, min_lc⟩] else []
    | none => []
  else []) ++
  (if level = 500 then
    (match color.apca_vs_light_bg with
    | some v => if |v| < min_lc then
        [⟨scale_name, level, "light", |v|, min_lc⟩] else []
    | none => []) ++
    (match color.apca_vs_dark_bg with
    | some v => if |v| < min_lc then
        [⟨scale_name, level, "dark", |v|, min_lc⟩] else []
    | none => [])
  else [])

/-- `validate_palette_contrast` from palette.py. -/
def validate_palette_contrast (palette : Palette)
    (min_lc : ℝ := APCA_THRESHOLD_LARGE_TEXT) : List ContrastIssue :=
  palette.scales.flatMap fun sc =>
    if sc.1 = "neutral" then []
    else sc.2.colors.flatMap fun lc => validate_color_issues sc.1 min_lc lc.1 lc.2

/-- The `checks` list built by `auto_adjust_palette_contrast` for one color. -/
def adjust_checks (palette : Palette) (min_lc : ℝ) (level : ℤ)
    (color : ColorValue) : List (String × (ℝ × ℝ × ℝ) × Direction) :=
  let light_bg := match palette.gamut with
    | Gamut.p3 => palette.neutral_light_bg_p3
    | Gamut.srgb => palette.neutral_light_bg
  let dark_bg := match palette.gamut with
    | Gamut.p3 => palette.neutral_dark_bg_p3
    | Gamut.srgb => palette.neutral_dark_bg
  (if level ≤ 400 then
    match color.apca_vs_dark_bg with
    | some v => if |v| < min_lc then [("dark", dark_bg, Direction.lighter)] else []
    | none => []
  else []) ++
  (if level ≥ 600 then
    match color.apca_vs_light_bg with
    | some v => if |v| < min_lc then [("light", light_bg, Direction.darker)] else []
    | none => []
  else []) ++
  (if level = 500 then
    (match color.apca_vs_light_bg with
    | some v => if |v| < min_lc then [("light", light_bg, Direction.darker)] else []
    | none => []) ++
    (match color.apca_vs_dark_bg with
    | some v => if |v| < min_lc then [("dark", dark_bg, Direction.lighter)] else []
    | none => [])
  else [])

/-- Processing of one entry of `checks` inside `auto_adjust_palette_contrast`:
returns the (possibly mutated) color and the appended adjustment records. -/
def apply_one_check (palette : Palette) (scale_name : String) (min_lc : ℝ)
    (max_delta_l : ℝ) (level : ℤ)
    (state : ColorValue × List ContrastAdjustment)
    (check : String × (ℝ × ℝ × ℝ) × Direction) :
    ColorValue × List ContrastAdjustment :=
  let color := state.1
  let L_old := color.oklch_l
  let C_old := color.oklch_c
  let apca_value :=
    if check.1 = "dark" then color.apca_vs_dark_bg else color.apca_vs_light_bg
  let lc_old := match apca_value with
    | some v => |v|
    | none => 0
  let res := auto_adjust_for_contrast color.oklch_l color.oklch_c color.oklch_h
    check.2.1 min_lc check.2.2 palette.gamut max_delta_l
  if res.L ≠ L_old ∨ res.C ≠ C_old then
    let p3 := oklch_to_p3 res.L res.C color.oklch_h
    let srgb := oklch_to_srgb res.L res.C color.oklch_h
    let apca_light := match palette.gamut with
      | Gamut.p3 => calc_apca_p3 (p3.1, p3.2.1, p3.2.2.1) palette.neutral_light_bg_p3
      | Gamut.srgb =>
          calc_apca_from_rgb01 (srgb.1, srgb.2.1, srgb.2.2.1) palette.neutral_light_bg
    let apca_dark := match palette.gamut with
      | Gamut.p3 => calc_apca_p3 (p3.1, p3.2.1, p3.2.2.1) palette.neutral_dark_bg_p3
      | Gamut.srgb =>
          calc_apca_from_rgb01 (srgb.1, srgb.2.1, srgb.2.2.1) palette.neutral_dark_bg
    let color2 := { color with
      oklch_l := res.L
      oklch_c := res.C
      p3_r := p3.1, p3_g := p3.2.1, p3_b := p3.2.2.1, p3_in_gamut := p3.2.2.2
      srgb_r := srgb.1, srgb_g := srgb.2.1, srgb_b := srgb.2.2.1
      srgb_in_gamut := srgb.2.2.2
      apca_vs_light_bg := some apca_light
      apca_vs_dark_bg := some apca_dark }
    (color2, state.2 ++ [⟨scale_name, level, check.1, L_old, res.L, C_old, res.C,
      lc_old, res.lc, res.success⟩])
  else state

/-- `auto_adjust_palette_contrast` from palette.py: the in-place mutation is
embedded as state passing; this returns the list of adjustment records. -/
def auto_adjust_palette_contrast (palette : Palette)
    (min_lc : ℝ := APCA_THRESHOLD_LARGE_TEXT) (max_delta_l : ℝ := 0.15) :
    List ContrastAdjustment :=
  palette.scales.flatMap fun sc =>
    if sc.1 = "neutral" then []
    else
      sc.2.colors.flatMap fun lc =>
        let checks := adjust_checks palette min_lc lc.1 lc.2
        (checks.foldl (apply_one_check palette sc.1 min_lc max_delta_l lc.1)
          (lc.2, [])).2

-- ========== brandcolor.py ==========

/-- Two-argument arctangent, embedding Python's `math.atan2`. -/
def atan2 (y x : ℝ) : ℝ :=
  if x > 0 then Real.arctan (y / x)
  else if x < 0 then
    (if y ≥ 0 then Real.arctan (y / x) + π else Real.arctan (y / x) - π)
  else if y > 0 then π / 2
  else if y < 0 then -(π / 2)
  else 0

/-- `circular_mean_deg` from color_utils.py. -/
def circular_mean_deg (hues_deg weights : List ℝ) : ℝ :=
  let acc := (hues_deg.zip weights).foldl
    (fun (acc : ℝ × ℝ × ℝ) hw =>
      let t := deg_to_rad (pymod hw.1 360)
      (acc.1 + hw.2 * Real.cos t, acc.2.1 + hw.2 * Real.sin t, acc.2.2 + hw.2))
    (0, 0, 0)
  if acc.2.2 = 0 ∨ (|acc.1| < 1e-12 ∧ |acc.2.1| < 1e-12) then 0
  else pymod (rad_to_deg (atan2 acc.2.1 acc.1) + 360) 360

/-- `rgb_hue_to_oklch_hue_deg` from color_utils.py. -/
def rgb_hue_to_oklch_hue_deg (rgb_h_deg : ℝ) : ℝ :=
  let rgb := hsv_to_srgb rgb_h_deg 1 1
  let lab := srgb_to_oklab rgb.1 rgb.2.1 rgb.2.2
  pymod (rad_to_deg (atan2 lab.2.2 lab.2.1) + 360) 360

/-- Hex digit character for `"{:02X}"` formatting. -/
def hex_digit (k : ℤ) : Char :=
  if k = 0 then '0' else if k = 1 then '1' else if k = 2 then '2'
  else if k = 3 then '3' else if k = 4 then '4' else if k = 5 then '5'
  else if k = 6 then '6' else if k = 7 then '7' else if k = 8 then '8'
  else if k = 9 then '9' else if k = 10 then 'A' else if k = 11 then 'B'
  else if k = 12 then 'C' else if k = 13 then 'D' else if k = 14 then 'E'
  else 'F'

/-- `"{:02X}"` of a 0-255 integer. -/
def hex_byte (n : ℤ) : String :=
  String.mk [hex_digit (n / 16), hex_digit (n % 16)]

/-- `hex_from_rgb01` from color_utils.py. -/
def hex_from_rgb01 (r g b : ℝ) : String :=
  "#" ++ hex_byte (pyround (clamp r 0 1 * 255))
    ++ hex_byte (pyround (clamp g 0 1 * 255))
    ++ hex_byte (pyround (clamp b 0 1 * 255))

/-- `RYB_ANCHOR_DEG` from color_utils.py (dict as key list with values). -/
def RYB_ANCHOR_NAMES : List String :=
  ["Red", "Orange", "Yellow", "Green", "Blue", "Purple"]

/-- Value lookup of `RYB_ANCHOR_DEG` (total on the six canonical names). -/
def RYB_ANCHOR_DEG : String → ℝ
  | "Red" => 0
  | "Orange" => 60
  | "Yellow" => 120
  | "Green" => 180
  | "Blue" => 240
  | "Purple" => 300
  | _ => 0

/-- Python whitespace test used by `str.strip()`. -/
def is_py_space (c : Char) : Bool := c = ' ' ∨ c = '\t' ∨ c = '\n' ∨ c = '\r'

/-- Python `str.strip()` (whitespace trim on both ends). -/
def py_strip (s : String) : String :=
  ⟨((s.data.dropWhile is_py_space).reverse.dropWhile is_py_space).reverse⟩

/-- Python `str.lower()` on one ASCII character. -/
def py_char_lower (c : Char) : Char :=
  if c = 'A' then 'a' else if c = 'B' then 'b' else if c = 'C' then 'c'
  else if c = 'D' then 'd' else if c = 'E' then 'e' else if c = 'F' then 'f'
  else if c = 'G' then 'g' else if c = 'H' then 'h' else if c = 'I' then 'i'
  else if c = 'J' then 'j' else if c = 'K' then 'k' else if c = 'L' then 'l'
  else if c = 'M' then 'm' else if c = 'N' then 'n' else if c = 'O' then 'o'
  else if c = 'P' then 'p' else if c = 'Q' then 'q' else if c = 'R' then 'r'
  else if c = 'S' then 's' else if c = 'T' then 't' else if c = 'U' then 'u'
  else if c = 'V' then 'v' else if c = 'W' then 'w' else if c = 'X' then 'x'
  else if c = 'Y' then 'y' else if c = 'Z' then 'z' else c

/-- Python `str.lower()` on an ASCII string. -/
def py_lower (s : String) : String := ⟨s.data.map py_char_lower⟩

/-- `normalize_hue_name` from color_utils.py (`name.strip().lower()` compared
case-insensitively against the six canonical names). -/
def normalize_hue_name (name : String) : Option String :=
  let key := py_lower (py_strip name)
  RYB_ANCHOR_NAMES.find? fun k => py_lower k = key

/-- The hue-dedupe loop shared by `build_ryb_palette`
(`abs(((h - s + 540) % 360) - 180) < 1e-7`). -/
def dedupe_hues (parts : List (String × ℝ)) : List (String × ℝ) :=
  (parts.foldl
    (fun (acc : List (String × ℝ) × List ℝ) p =>
      if acc.2.any (fun s => |pymod (p.2 - s + 540) 360 - 180| < 1e-7) then acc
      else (acc.1 ++ [p], acc.2 ++ [p.2]))
    ([], [])).1

/-- `build_ryb_palette` from brandcolor.py. -/
def build_ryb_palette (H_base_ryb : ℝ) (mode : String) (x_deg : ℝ)
    (include_comp : Bool) : List (String × ℝ) :=
  let parts : List (String × ℝ) :=
    [("base", mod360 H_base_ryb)] ++
    (if mode = "adjacent" ∨ mode = "full" then
      [("adjacent_left", mod360 (H_base_ryb - x_deg)),
       ("adjacent_right", mod360 (H_base_ryb + x_deg))]
    else []) ++
    (if include_comp then [("complementary", mod360 (H_base_ryb + 180))] else []) ++
    (if mode = "triad" ∨ mode = "full" then
      [("triad_left", mod360 (H_base_ryb + 180 - x_deg)),
       ("triad_right", mod360 (H_base_ryb + 180 + x_deg))]
    else [])
  dedupe_hues parts

/-- `BrandColorResult` dataclass from brandcolor.py (dicts as assoc lists). -/
structure BrandColorResult where
  primary_ryb_hue : ℝ
  oklch_hues : List (String × ℝ) := []
  L : ℝ := 0
  C : ℝ := 0
  hex_codes : List (String × String) := []
  hex_codes_p3 : List (String × String) := []
  srgb_values : List (String × (ℝ × ℝ × ℝ)) := []
  p3_values : List (String × (ℝ × ℝ × ℝ)) := []
  labels : List String := []

/-- The name-resolution loop at the head of `compute_brand_colors`; a
`ValueError` raise is embedded as `Except.error`. -/
def resolve_hue_weights : List (String × ℝ) → Except String (List ℝ × List ℝ)
  | [] => Except.ok ([], [])
  | (name, w) :: rest =>
      match normalize_hue_name name with
      | none => Except.error ("Unknown hue name " ++ name)
      | some nm =>
          match resolve_hue_weights rest with
          | Except.error e => Except.error e
          | Except.ok p => Except.ok (RYB_ANCHOR_DEG nm :: p.1, w :: p.2)

/-- The `range(0, 360, step)` hue sampling of the `global` chroma scope. -/
def global_eval_hues (global_sample_deg : ℤ) : List ℝ :=
  let step := max 1 global_sample_deg
  (List.range ((360 + step - 1) / step).toNat).map fun k => ((k : ℤ) * step : ℝ)

/-- `compute_brand_colors` from brandcolor.py; `raise ValueError` is embedded
as `Except.error`. -/
def compute_brand_colors (hue_weights : List (String × ℝ))
    (chroma_intent : ℤ := 50) (tone_intent : ℤ := 50)
    (palette_set : String := "full") (x_deg : ℝ := 30)
    (include_complementary : Bool := false)
    (chroma_scope : String := "harmonics") (chroma_margin : ℝ := 0.98)
    (global_sample_deg : ℤ := 2) : Except String BrandColorResult :=
  match resolve_hue_weights hue_weights with
  | Except.error e => Except.error e
  | Except.ok hw =>
      let wsum := (hw.2.map fun w => max 0 w).sum
      if wsum ≤ 0 then Except.error "All weights are zero or negative."
      else
        let weights := hw.2.map fun w => w / wsum
        let H_ryb := circular_mean_deg hw.1 weights
        let ryb_palette := build_ryb_palette H_ryb palette_set x_deg
          include_complementary
        let oklch_hues_list := ryb_palette.map fun p =>
          rgb_hue_to_oklch_hue_deg (ryb_hue_to_rgb_hue p.2)
        let L := clamp ((tone_intent : ℝ) / 100) 0 1
        let C_user := clamp ((chroma_intent : ℝ) / 100) 0 1 * 0.37
        let eval_hues := if chroma_scope = "harmonics" then oklch_hues_list
          else global_eval_hues global_sample_deg
        let cmax_list := eval_hues.map fun h => (h, cmax_for_L_h L h)
        let min_cmax : ℝ := match cmax_list with
          | [] => 0
          | x :: xs => xs.foldl (fun acc y => min acc y.2) x.2
        let C_safe := chroma_margin * min_cmax
        let C_final0 := max 0 (min C_user C_safe)
        let srgb0 := oklch_hues_list.map fun h => oklch_to_srgb L C_final0 h
        let any_oog := srgb0.any fun q => ¬q.2.2.2
        let C_final := if any_oog then C_final0 * 0.9995 else C_final0
        let srgb_list : List (ℝ × ℝ × ℝ) :=
          if any_oog then
            oklch_hues_list.map fun h =>
              let q := oklch_to_srgb L C_final h
              (q.1, q.2.1, q.2.2.1)
          else srgb0.map fun q => (q.1, q.2.1, q.2.2.1)
        let p3_list := oklch_hues_list.map fun h =>
          let q := oklch_to_p3 L C_final h
          (q.1, q.2.1, q.2.2.1)
        let labels := ryb_palette.map Prod.fst
        Except.ok
          { primary_ryb_hue := H_ryb
            oklch_hues := List.zipWith (fun p h => (p.1, h)) ryb_palette
              oklch_hues_list
            L := L
            C := C_final
            hex_codes := List.zipWith
              (fun (p : String × ℝ) (rgb : ℝ × ℝ × ℝ) =>
                (p.1, hex_from_rgb01 rgb.1 rgb.2.1 rgb.2.2)) ryb_palette srgb_list
            hex_codes_p3 := List.zipWith
              (fun (p : String × ℝ) (rgb : ℝ × ℝ × ℝ) =>
                (p.1, hex_from_rgb01 rgb.1 rgb.2.1 rgb.2.2)) ryb_palette p3_list
            srgb_values := List.zipWith (fun (p : String × ℝ) rgb => (p.1, rgb))
              ryb_palette srgb_list
            p3_values := List.zipWith (fun (p : String × ℝ) rgb => (p.1, rgb))
              ryb_palette p3_list
            labels := labels }

-- ========== Helper lemmas ==========

/-- Looking up a key that occurs in the key list of a key-indexed map. -/
theorem lookup_map_self (f : ℤ → ColorValue) (ls : List ℤ) (l : ℤ)
    (h : l ∈ ls) : (ls.map fun x => (x, f x)).lookup l = some (f l) := by
  induction ls with
  | nil => cases h
  | cons a as ih =>
      rcases List.mem_cons.mp h with rfl | hmem
      · simp [List.lookup]
      · by_cases hla : l = a
        · subst hla; simp [List.lookup]
        · have hbeq : (l == a) = false := beq_eq_false_iff_ne.mpr hla
          simpa [List.lookup, hbeq] using ih hmem

-- ========== C4 ==========

/-- C4: in `ryb_hsv_to_rgb`, the middle-channel value computed by the
forward-direction branch and by the inverse-direction branch is the same
function of `(mx, mn, factor)`: the two branches of the source are written
identically, so the declared interpolation direction never changes `md`. -/
theorem c4_mid_channel_direction_independent :
    ∀ mx mn factor : ℝ, ryb_mid_forward mx mn factor = ryb_mid_inverse mx mn factor := by
  intro mx mn factor
  rfl

-- ========== C2 ==========

/-- The stop generated at the anchor level by `compute_scale_anchored_stop`
keeps the exact anchor values and skips the P3 clipping branch. -/
theorem compute_scale_anchored_stop_at_anchor (aL aC aH : ℝ) (lvl : ℤ) :
    compute_scale_anchored_stop aL aC aH lvl lvl =
      { level := lvl
        oklch_l := aL
        oklch_c := aC
        oklch_h := aH
        p3_r := (oklch_to_p3 aL aC aH).1
        p3_g := (oklch_to_p3 aL aC aH).2.1
        p3_b := (oklch_to_p3 aL aC aH).2.2.1
        p3_in_gamut := (oklch_to_p3 aL aC aH).2.2.2
        srgb_r := (oklch_to_srgb aL aC aH).1
        srgb_g := (oklch_to_srgb aL aC aH).2.1
        srgb_b := (oklch_to_srgb aL aC aH).2.2.1
        srgb_in_gamut := (oklch_to_srgb aL aC aH).2.2.2
        srgb_was_clipped := ¬(oklch_to_srgb aL aC aH).2.2.2 } := by
  simp [compute_scale_anchored_stop]

/-- Colorbox analogue of `compute_scale_anchored_stop_at_anchor`. -/
theorem compute_scale_colorbox_stop_at_anchor (aL aC aH : ℝ) (lvl : ℤ)
    (g : Gamut) (hs : Bool) (ls ds : ℝ) :
    compute_scale_colorbox_stop aL aC aH lvl g hs ls ds lvl =
      { level := lvl
        oklch_l := aL
        oklch_c := aC
        oklch_h := aH
        p3_r := (oklch_to_p3 aL aC aH).1
        p3_g := (oklch_to_p3 aL aC aH).2.1
        p3_b := (oklch_to_p3 aL aC aH).2.2.1
        p3_in_gamut := (oklch_to_p3 aL aC aH).2.2.2
        srgb_r := (oklch_to_srgb aL aC aH).1
        srgb_g := (oklch_to_srgb aL aC aH).2.1
        srgb_b := (oklch_to_srgb aL aC aH).2.2.1
        srgb_in_gamut := (oklch_to_srgb aL aC aH).2.2.2
        srgb_was_clipped := ¬(oklch_to_srgb aL aC aH).2.2.2 } := by
  simp [compute_scale_colorbox_stop]

/-- C2: an anchored-policy scale (either `compute_scale_anchored` or
`compute_scale_colorbox`) stores at the anchor level a stop carrying exactly
the anchor's (L, C, H) — in particular each component is within 1e-3 — and the
P3 gamut-clipping step is never applied to that stop: its chroma stays exactly
`anchor_C` and its `p3_in_gamut` flag keeps the raw conversion verdict even
when that verdict is out-of-gamut. -/
theorem c2_anchor_stop_exact (name : String) (aL aC aH : ℝ) (lvl : ℤ)
    (g : Gamut) (hs : Bool) (ls ds : ℝ) (hmem : lvl ∈ LEVELS) :
    (∃ st, (compute_scale_anchored name aL aC aH lvl g).colors.lookup lvl
        = some st ∧
      st.oklch_l = aL ∧ st.oklch_c = aC ∧ st.oklch_h = aH ∧
      |st.oklch_l - aL| < 1e-3 ∧ |st.oklch_c - aC| < 1e-3 ∧
      |st.oklch_h - aH| < 1e-3 ∧
      st.p3_in_gamut = (oklch_to_p3 aL aC aH).2.2.2) ∧
    (∃ st, (compute_scale_colorbox name aL aC aH lvl g hs ls ds).colors.lookup
        lvl = some st ∧
      st.oklch_l = aL ∧ st.oklch_c = aC ∧ st.oklch_h = aH ∧
      |st.oklch_l - aL| < 1e-3 ∧ |st.oklch_c - aC| < 1e-3 ∧
      |st.oklch_h - aH| < 1e-3 ∧
      st.p3_in_gamut = (oklch_to_p3 aL aC aH).2.2.2) := by
  constructor
  · refine ⟨_, lookup_map_self _ LEVELS lvl hmem, ?_⟩
    rw [compute_scale_anchored_stop_at_anchor]
    norm_num
  · refine ⟨_, lookup_map_self _ LEVELS lvl hmem, ?_⟩
    rw [compute_scale_colorbox_stop_at_anchor]
    norm_num

/-- Witness for C2 at anchor level 500 with a concrete anchor color. -/
theorem c2_anchor_stop_exact_witness :
    (500 : ℤ) ∈ LEVELS ∧
    ∃ st, (compute_scale_anchored "primary" 0.55 0.12 240 500
        Gamut.p3).colors.lookup 500 = some st ∧
      st.oklch_l = 0.55 ∧ st.oklch_c = 0.12 ∧ st.oklch_h = 240 ∧
      |st.oklch_l - 0.55| < 1e-3 ∧ |st.oklch_c - 0.12| < 1e-3 ∧
      |st.oklch_h - 240| < 1e-3 ∧
      st.p3_in_gamut = (oklch_to_p3 0.55 0.12 240).2.2.2 :=
  ⟨by decide,
    (c2_anchor_stop_exact "primary" 0.55 0.12 240 500 Gamut.p3 true (-16) 31
      (by decide)).1⟩

-- ========== auto_adjust_for_contrast invariants ==========

/-- The measured contrast in `adj_step` is an absolute value, hence ≥ 0. -/
theorem adj_lc_nonneg (C H : ℝ) (bg : ℝ × ℝ × ℝ) (g : Gamut) (L_mid : ℝ) :
    (0 : ℝ) ≤ adj_lc C H bg g L_mid := by
  cases g <;> exact abs_nonneg _

/-- One `adj_step` keeps the binary-search interval inside `[lb, ub]` and the
best candidate either untouched (`L0`) or inside `[lb, ub]`. -/
theorem adj_step_inv (C H : ℝ) (bg : ℝ × ℝ × ℝ) (min_lc : ℝ) (d : Direction)
    (g : Gamut) (lb ub L0 : ℝ) (s : AdjState)
    (h1 : lb ≤ s.L_low) (h2 : s.L_low ≤ s.L_high) (h3 : s.L_high ≤ ub)
    (h4 : s.best_L = L0 ∨ (lb ≤ s.best_L ∧ s.best_L ≤ ub)) :
    lb ≤ (adj_step C H bg min_lc d g s).L_low ∧
    (adj_step C H bg min_lc d g s).L_low ≤ (adj_step C H bg min_lc d g s).L_high ∧
    (adj_step C H bg min_lc d g s).L_high ≤ ub ∧
    ((adj_step C H bg min_lc d g s).best_L = L0 ∨
      (lb ≤ (adj_step C H bg min_lc d g s).best_L ∧
        (adj_step C H bg min_lc d g s).best_L ≤ ub)) := by
  unfold adj_step
  cases d <;> dsimp only <;> split <;> dsimp only
  · exact ⟨by linarith, by linarith, by linarith,
      Or.inr ⟨by linarith, by linarith⟩⟩
  · exact ⟨by linarith, by linarith, by linarith, h4⟩
  · exact ⟨by linarith, by linarith, by linarith,
      Or.inr ⟨by linarith, by linarith⟩⟩
  · exact ⟨by linarith, by linarith, by linarith, h4⟩

/-- `adj_loop` keeps the invariant of `adj_step_inv`. -/
theorem adj_loop_inv (C H : ℝ) (bg : ℝ × ℝ × ℝ) (min_lc : ℝ) (d : Direction)
    (g : Gamut) (lb ub L0 : ℝ) :
    ∀ (n : ℕ) (s : AdjState),
      lb ≤ s.L_low → s.L_low ≤ s.L_high → s.L_high ≤ ub →
      (s.best_L = L0 ∨ (lb ≤ s.best_L ∧ s.best_L ≤ ub)) →
      lb ≤ (adj_loop C H bg min_lc d g n s).L_low ∧
      (adj_loop C H bg min_lc d g n s).L_low ≤
        (adj_loop C H bg min_lc d g n s).L_high ∧
      (adj_loop C H bg min_lc d g n s).L_high ≤ ub ∧
      ((adj_loop C H bg min_lc d g n s).best_L = L0 ∨
        (lb ≤ (adj_loop C H bg min_lc d g n s).best_L ∧
          (adj_loop C H bg min_lc d g n s).best_L ≤ ub)) := by
  intro n
  induction n with
  | zero => intro s h1 h2 h3 h4; exact ⟨h1, h2, h3, h4⟩
  | succ k ih =>
      intro s h1 h2 h3 h4
      have step := adj_step_inv C H bg min_lc d g lb ub L0 s h1 h2 h3 h4
      exact ih _ step.1 step.2.1 step.2.2.1 step.2.2.2

/-- `adj_loop` never touches the third component of the returned tuple, and
`success` is by definition the comparison `best_lc ≥ min_lc`. -/
theorem auto_adjust_success_iff (L C H : ℝ) (bg : ℝ × ℝ × ℝ) (min_lc : ℝ)
    (d : Direction) (g : Gamut) (mdl : ℝ) :
    (auto_adjust_for_contrast L C H bg min_lc d g mdl).success = true ↔
      (auto_adjust_for_contrast L C H bg min_lc d g mdl).lc ≥ min_lc := by
  unfold auto_adjust_for_contrast
  simp

-- ========== C3 ==========

/-- C3 (amended): whenever the requested lightness delta is nonnegative and
the original `L` lies inside the band `[0.01, 0.99]` that the search clamps
its candidates to (for direction `lighter` only `L ≤ 0.99` matters, for
`darker` only `0.01 ≤ L`), `auto_adjust_for_contrast` returns `L'` with
`|L' - L| ≤ max_delta_l`; the returned hue always equals the input hue, and
whenever `success` is true the achieved contrast is ≥ `min_lc`. -/
theorem c3_auto_adjust_bounds (L C H : ℝ) (bg : ℝ × ℝ × ℝ) (min_lc : ℝ)
    (d : Direction) (g : Gamut) (mdl : ℝ) (hmdl : 0 ≤ mdl)
    (hlight : d = Direction.lighter → L ≤ 0.99)
    (hdark : d = Direction.darker → 0.01 ≤ L) :
    |(auto_adjust_for_contrast L C H bg min_lc d g mdl).L - L| ≤ mdl ∧
    (auto_adjust_for_contrast L C H bg min_lc d g mdl).H = H ∧
    ((auto_adjust_for_contrast L C H bg min_lc d g mdl).success = true →
      (auto_adjust_for_contrast L C H bg min_lc d g mdl).lc ≥ min_lc) := by
  refine ⟨?_, rfl, fun h => (auto_adjust_success_iff L C H bg min_lc d g mdl).mp h⟩
  unfold auto_adjust_for_contrast
  cases d with
  | lighter =>
      have hL : L ≤ 0.99 := hlight rfl
      have hub : L ≤ min (L + mdl) 0.99 := le_min (by linarith) hL
      have inv := adj_loop_inv C H bg min_lc Direction.lighter g
        L (min (L + mdl) 0.99) L 20 ⟨L, min (L + mdl) 0.99, L, C, 0⟩
        le_rfl hub le_rfl (Or.inl rfl)
      rcases inv.2.2.2 with hbl | ⟨hb1, hb2⟩
      · simp only [hbl]
        simpa using hmdl
      · have : min (L + mdl) 0.99 ≤ L + mdl := min_le_left _ _
        rw [abs_le]
        constructor <;> dsimp only at hb1 hb2 ⊢ <;> linarith
  | darker =>
      have hL : 0.01 ≤ L := hdark rfl
      have hlb : max (L - mdl) 0.01 ≤ L := max_le (by linarith) hL
      have inv := adj_loop_inv C H bg min_lc Direction.darker g
        (max (L - mdl) 0.01) L L 20 ⟨max (L - mdl) 0.01, L, L, C, 0⟩
        le_rfl hlb le_rfl (Or.inl rfl)
      rcases inv.2.2.2 with hbl | ⟨hb1, hb2⟩
      · simp only [hbl]
        simpa using hmdl
      · have : L - mdl ≤ max (L - mdl) 0.01 := le_max_left _ _
        rw [abs_le]
        constructor <;> dsimp only at hb1 hb2 ⊢ <;> linarith

/-- Witness for the amended C3 at a concrete in-band call. -/
theorem c3_auto_adjust_bounds_witness :
    (0 : ℝ) ≤ 0.15 ∧ (0.5 : ℝ) ≤ 0.99 ∧
    |(auto_adjust_for_contrast 0.5 0 0 (0, 0, 0) 60 Direction.lighter
        Gamut.srgb 0.15).L - 0.5| ≤ 0.15 :=
  ⟨by norm_num, by norm_num,
    (c3_auto_adjust_bounds 0.5 0 0 (0, 0, 0) 60 Direction.lighter Gamut.srgb
      0.15 (by norm_num) (fun _ => by norm_num) (fun _ => by norm_num)).1⟩

/-- When `min_lc ≤ 0` every probed candidate of a `darker` search satisfies
the contrast test, so the search walks `L_low` toward `L_high` and the best
candidate ends at the last midpoint. -/
theorem adj_loop_darker_all_success (C H : ℝ) (bg : ℝ × ℝ × ℝ) (min_lc : ℝ)
    (g : Gamut) (hmin : min_lc ≤ 0) :
    ∀ (n : ℕ) (lo hi bL bC blc : ℝ), ∃ bC2 blc2,
      adj_loop C H bg min_lc Direction.darker g (n + 1) ⟨lo, hi, bL, bC, blc⟩ =
        ⟨hi + (lo - hi) / 2 ^ (n + 1), hi, hi + (lo - hi) / 2 ^ (n + 1),
          bC2, blc2⟩ := by
  have hstep : ∀ lo hi bL bC blc : ℝ, ∃ c l,
      adj_step C H bg min_lc Direction.darker g ⟨lo, hi, bL, bC, blc⟩ =
        ⟨(lo + hi) / 2, hi, (lo + hi) / 2, c, l⟩ := by
    intro lo hi bL bC blc
    unfold adj_step
    dsimp only
    rw [if_pos (le_trans hmin (adj_lc_nonneg C H bg g ((lo + hi) / 2)))]
    exact ⟨_, _, rfl⟩
  intro n
  induction n with
  | zero =>
      intro lo hi bL bC blc
      obtain ⟨c, l, hc⟩ := hstep lo hi bL bC blc
      refine ⟨c, l, ?_⟩
      show adj_loop C H bg min_lc Direction.darker g 0
        (adj_step C H bg min_lc Direction.darker g ⟨lo, hi, bL, bC, blc⟩) = _
      rw [hc]
      show AdjState.mk _ _ _ _ _ = _
      simp only [AdjState.mk.injEq]
      exact ⟨by ring, trivial, by ring, trivial, trivial⟩
  | succ k ih =>
      intro lo hi bL bC blc
      obtain ⟨c, l, hc⟩ := hstep lo hi bL bC blc
      obtain ⟨c2, l2, hc2⟩ := ih ((lo + hi) / 2) hi ((lo + hi) / 2) c l
      refine ⟨c2, l2, ?_⟩
      show adj_loop C H bg min_lc Direction.darker g (k + 1)
        (adj_step C H bg min_lc Direction.darker g ⟨lo, hi, bL, bC, blc⟩) = _
      rw [hc, hc2]
      simp only [AdjState.mk.injEq]
      exact ⟨by ring, trivial, by ring, trivial, trivial⟩

/-- C3 (counterexample): the claim `|L' - L| ≤ max_delta_l` fails as stated.
With `L = 0`, direction `darker` and `max_delta_l = 1e-9` the clamp
`max(L - max_delta_l, 0.01)` inverts the search interval, and with
`min_lc = 0` every candidate succeeds, so the search returns
`L' = 0.01 / 2^20 ≈ 9.54e-9`, which exceeds `max_delta_l`. -/
theorem c3_counterexample :
    |(auto_adjust_for_contrast 0 0 0 (1, 1, 1) 0 Direction.darker
        Gamut.srgb 1e-9).L - 0| > 1e-9 := by
  obtain ⟨c2, l2, hres⟩ := adj_loop_darker_all_success 0 0 (1, 1, 1) 0
    Gamut.srgb le_rfl 19 (max (0 - 1e-9) 0.01) 0 0 0 0
  unfold auto_adjust_for_contrast
  dsimp only
  rw [hres]
  dsimp only
  have hmax : max (0 - 1e-9) (0.01 : ℝ) = 0.01 := by
    rw [max_eq_right]
    norm_num
  rw [hmax]
  rw [sub_zero, abs_of_pos (by norm_num)]
  norm_num

-- ========== C9 ==========

/-- Through `adj_loop` the best candidate is either still the initial one or
has satisfied the contrast test at some iteration. -/
theorem adj_loop_best_inv (C H : ℝ) (bg : ℝ × ℝ × ℝ) (min_lc : ℝ)
    (d : Direction) (g : Gamut) (L0 C0 lc0 : ℝ) :
    ∀ (n : ℕ) (s : AdjState),
      ((s.best_L = L0 ∧ s.best_C = C0 ∧ s.best_lc = lc0) ∨ s.best_lc ≥ min_lc) →
      (((adj_loop C H bg min_lc d g n s).best_L = L0 ∧
        (adj_loop C H bg min_lc d g n s).best_C = C0 ∧
        (adj_loop C H bg min_lc d g n s).best_lc = lc0) ∨
        (adj_loop C H bg min_lc d g n s).best_lc ≥ min_lc) := by
  intro n
  induction n with
  | zero => intro s h; exact h
  | succ k ih =>
      intro s h
      refine ih _ ?_
      unfold adj_step
      cases d <;> dsimp only <;> split <;> dsimp only
      · right; assumption
      · exact h
      · right; assumption
      · exact h

/-- If `auto_adjust_for_contrast` reports failure, the returned lightness and
chroma are the inputs and the achieved contrast is 0. -/
theorem auto_adjust_fail_unchanged (L C H : ℝ) (bg : ℝ × ℝ × ℝ) (min_lc : ℝ)
    (d : Direction) (g : Gamut) (mdl : ℝ)
    (hfail : (auto_adjust_for_contrast L C H bg min_lc d g mdl).success = false) :
    (auto_adjust_for_contrast L C H bg min_lc d g mdl).L = L ∧
    (auto_adjust_for_contrast L C H bg min_lc d g mdl).C = C ∧
    (auto_adjust_for_contrast L C H bg min_lc d g mdl).lc = 0 := by
  unfold auto_adjust_for_contrast at hfail ⊢
  cases d with
  | lighter =>
      dsimp only at hfail ⊢
      have hnot : ¬ ((adj_loop C H bg min_lc Direction.lighter g 20
          ⟨L, min (L + mdl) 0.99, L, C, 0⟩).best_lc ≥ min_lc) := by
        simpa using hfail
      rcases adj_loop_best_inv C H bg min_lc Direction.lighter g L C 0 20
        ⟨L, min (L + mdl) 0.99, L, C, 0⟩ (Or.inl ⟨rfl, rfl, rfl⟩) with h | h
      · exact h
      · exact absurd h hnot
  | darker =>
      dsimp only at hfail ⊢
      have hnot : ¬ ((adj_loop C H bg min_lc Direction.darker g 20
          ⟨max (L - mdl) 0.01, L, L, C, 0⟩).best_lc ≥ min_lc) := by
        simpa using hfail
      rcases adj_loop_best_inv C H bg min_lc Direction.darker g L C 0 20
        ⟨max (L - mdl) 0.01, L, L, C, 0⟩ (Or.inl ⟨rfl, rfl, rfl⟩) with h | h
      · exact h
      · exact absurd h hnot

/-- C9: for `min_lc > 0`, whenever `auto_adjust_for_contrast` returns
`success = false` it leaves the color exactly unchanged —
`L' = L`, `C' = C` — and reports `achieved_lc = 0`. -/
theorem c9_failed_adjustment_unchanged (L C H : ℝ) (bg : ℝ × ℝ × ℝ)
    (min_lc : ℝ) (d : Direction) (g : Gamut) (mdl : ℝ) (_hpos : min_lc > 0)
    (hfail : (auto_adjust_for_contrast L C H bg min_lc d g mdl).success = false) :
    (auto_adjust_for_contrast L C H bg min_lc d g mdl).L = L ∧
    (auto_adjust_for_contrast L C H bg min_lc d g mdl).C = C ∧
    (auto_adjust_for_contrast L C H bg min_lc d g mdl).lc = 0 :=
  auto_adjust_fail_unchanged L C H bg min_lc d g mdl hfail

-- ========== APCA output bound ==========

/-- `pyround` of a nonnegative real is nonnegative. -/
theorem pyround_nonneg (x : ℝ) (hx : 0 ≤ x) : 0 ≤ pyround x := by
  have hf : (0 : ℤ) ≤ ⌊x⌋ := Int.le_floor.mpr (by exact_mod_cast hx)
  unfold pyround
  split_ifs <;> omega

/-- `pyround x ≤ n` when `x ≤ n`. -/
theorem pyround_le (x : ℝ) (n : ℤ) (hx : x ≤ n) : pyround x ≤ n := by
  have hf : ⌊x⌋ ≤ n := by
    have := Int.floor_le_floor hx
    simpa using this
  have hfx : (⌊x⌋ : ℝ) ≤ x := Int.floor_le x
  unfold pyround
  split_ifs with h1 h2 h3
  · exact hf
  · have hcast : (⌊x⌋ : ℝ) < (n : ℝ) := by linarith
    have : ⌊x⌋ < n := by exact_mod_cast hcast
    omega
  · exact hf
  · have hhalf : x - ⌊x⌋ = 1 / 2 := le_antisymm (not_lt.mp h2) (not_lt.mp h1)
    have hcast : (⌊x⌋ : ℝ) < (n : ℝ) := by linarith
    have : ⌊x⌋ < n := by exact_mod_cast hcast
    omega

/-- `clamp` stays in the interval. -/
theorem clamp_mem (x lo hi : ℝ) (h : lo ≤ hi) :
    lo ≤ clamp x lo hi ∧ clamp x lo hi ≤ hi := by
  unfold clamp
  split_ifs <;> constructor <;> linarith

/-- APCA luminance of 0-255 integer channels lies in `[0, 1.0000001]`. -/
theorem srgb_to_y_apca_mem (r g b : ℤ) (hr0 : 0 ≤ r) (hr1 : r ≤ 255)
    (hg0 : 0 ≤ g) (hg1 : g ≤ 255) (hb0 : 0 ≤ b) (hb1 : b ≤ 255) :
    0 ≤ srgb_to_y_apca r g b ∧ srgb_to_y_apca r g b ≤ 1.0000001 := by
  have key : ∀ c : ℤ, 0 ≤ c → c ≤ 255 →
      0 ≤ ((c : ℝ) / 255) ^ APCA_MAIN_TRC ∧
        ((c : ℝ) / 255) ^ APCA_MAIN_TRC ≤ 1 := by
    intro c h0 h1
    have hc0 : (0 : ℝ) ≤ (c : ℝ) / 255 := by positivity
    have hc1 : (c : ℝ) / 255 ≤ 1 := by
      rw [div_le_one (by norm_num)]
      exact_mod_cast h1
    exact ⟨Real.rpow_nonneg hc0 _, Real.rpow_le_one hc0 hc1 (by norm_num [APCA_MAIN_TRC])⟩
  obtain ⟨hra, hrb⟩ := key r hr0 hr1
  obtain ⟨hga, hgb⟩ := key g hg0 hg1
  obtain ⟨hba, hbb⟩ := key b hb0 hb1
  unfold srgb_to_y_apca
  constructor <;> nlinarith

/-- The black soft clamp keeps luminance in `[0, 1.01]`. -/
theorem apca_black_clamp_mem (y : ℝ) (h0 : 0 ≤ y) (h1 : y ≤ 1.01) :
    0 ≤ apca_black_clamp y ∧ apca_black_clamp y ≤ 1.01 := by
  unfold apca_black_clamp
  split_ifs with hc
  · have ht0 : (0 : ℝ) < 0.022 - y := by linarith
    have ht1 : (0.022 : ℝ) - y ≤ 1 := by linarith
    have hpow : (0.022 - y) ^ (1.414 : ℝ) ≤ (0.022 - y) ^ (1 : ℝ) :=
      Real.rpow_le_rpow_of_exponent_ge ht0 ht1 (by norm_num)
    rw [Real.rpow_one] at hpow
    have hnn : 0 ≤ (0.022 - y) ^ (1.414 : ℝ) := Real.rpow_nonneg (le_of_lt ht0) _
    constructor <;> linarith
  · exact ⟨h0, h1⟩

/-- For `0 < e ≤ 1`, powers of luminances in `[0, 1.01]` stay in `[0, 1.01]`. -/
theorem rpow_mem_of_le (y e : ℝ) (h0 : 0 ≤ y) (h1 : y ≤ 1.01) (he0 : 0 ≤ e)
    (he1 : e ≤ 1) : 0 ≤ y ^ e ∧ y ^ e ≤ 1.01 := by
  refine ⟨Real.rpow_nonneg h0 _, ?_⟩
  have h2 : y ^ e ≤ (1.01 : ℝ) ^ e := Real.rpow_le_rpow h0 h1 he0
  have h3 : (1.01 : ℝ) ^ e ≤ (1.01 : ℝ) ^ (1 : ℝ) :=
    Real.rpow_le_rpow_of_exponent_le (by norm_num) he1
  rw [Real.rpow_one] at h3
  linarith

/-- The APCA contrast of luminances in `[0, 1.01]` is at most 130 in
absolute value. -/
theorem apca_contrast_abs_le (t b : ℝ) (ht0 : 0 ≤ t) (ht1 : t ≤ 1.01)
    (hb0 : 0 ≤ b) (hb1 : b ≤ 1.01) : |apca_contrast t b| ≤ 130 := by
  obtain ⟨ht0c, ht1c⟩ := apca_black_clamp_mem t ht0 ht1
  obtain ⟨hb0c, hb1c⟩ := apca_black_clamp_mem b hb0 hb1
  unfold apca_contrast
  dsimp only
  split_ifs with h1 h2 h3 h4 h5 h6
  · norm_num [abs_zero]
  · obtain ⟨p0, p1⟩ := rpow_mem_of_le (apca_black_clamp b) 0.56 hb0c hb1c
      (by norm_num) (by norm_num)
    obtain ⟨q0, q1⟩ := rpow_mem_of_le (apca_black_clamp t) 0.57 ht0c ht1c
      (by norm_num) (by norm_num)
    norm_num [abs_zero]
  · obtain ⟨p0, p1⟩ := rpow_mem_of_le (apca_black_clamp b) 0.56 hb0c hb1c
      (by norm_num) (by norm_num)
    obtain ⟨q0, q1⟩ := rpow_mem_of_le (apca_black_clamp t) 0.57 ht0c ht1c
      (by norm_num) (by norm_num)
    rw [abs_le]
    constructor <;> nlinarith
  · obtain ⟨p0, p1⟩ := rpow_mem_of_le (apca_black_clamp b) 0.56 hb0c hb1c
      (by norm_num) (by norm_num)
    obtain ⟨q0, q1⟩ := rpow_mem_of_le (apca_black_clamp t) 0.57 ht0c ht1c
      (by norm_num) (by norm_num)
    rw [abs_le]
    constructor <;> nlinarith
  · norm_num [abs_zero]
  · obtain ⟨p0, p1⟩ := rpow_mem_of_le (apca_black_clamp b) 0.65 hb0c hb1c
      (by norm_num) (by norm_num)
    obtain ⟨q0, q1⟩ := rpow_mem_of_le (apca_black_clamp t) 0.62 ht0c ht1c
      (by norm_num) (by norm_num)
    rw [abs_le]
    constructor <;> nlinarith
  · obtain ⟨p0, p1⟩ := rpow_mem_of_le (apca_black_clamp b) 0.65 hb0c hb1c
      (by norm_num) (by norm_num)
    obtain ⟨q0, q1⟩ := rpow_mem_of_le (apca_black_clamp t) 0.62 ht0c ht1c
      (by norm_num) (by norm_num)
    rw [abs_le]
    constructor <;> nlinarith

/-- `calc_apca_from_rgb01` on [0,1]-clamped colors is at most 130 in absolute
value. -/
theorem calc_apca_from_rgb01_abs_le (txt bg : ℝ × ℝ × ℝ)
    (h1 : 0 ≤ txt.1 ∧ txt.1 ≤ 1) (h2 : 0 ≤ txt.2.1 ∧ txt.2.1 ≤ 1)
    (h3 : 0 ≤ txt.2.2 ∧ txt.2.2 ≤ 1)
    (h4 : 0 ≤ bg.1 ∧ bg.1 ≤ 1) (h5 : 0 ≤ bg.2.1 ∧ bg.2.1 ≤ 1)
    (h6 : 0 ≤ bg.2.2 ∧ bg.2.2 ≤ 1) :
    |calc_apca_from_rgb01 txt bg| ≤ 130 := by
  have hR : ∀ x : ℝ, 0 ≤ x → x ≤ 1 →
      0 ≤ pyround (x * 255) ∧ pyround (x * 255) ≤ 255 := by
    intro x hx0 hx1
    refine ⟨pyround_nonneg _ (by nlinarith), pyround_le _ 255 (by push_cast; nlinarith)⟩
  obtain ⟨a1, a2⟩ := hR txt.1 h1.1 h1.2
  obtain ⟨b1, b2⟩ := hR txt.2.1 h2.1 h2.2
  obtain ⟨c1, c2⟩ := hR txt.2.2 h3.1 h3.2
  obtain ⟨d1, d2⟩ := hR bg.1 h4.1 h4.2
  obtain ⟨e1, e2⟩ := hR bg.2.1 h5.1 h5.2
  obtain ⟨f1, f2⟩ := hR bg.2.2 h6.1 h6.2
  unfold calc_apca_from_rgb01 calc_apca
  obtain ⟨y1, y2⟩ := srgb_to_y_apca_mem _ _ _ a1 a2 b1 b2 c1 c2
  obtain ⟨z1, z2⟩ := srgb_to_y_apca_mem _ _ _ d1 d2 e1 e2 f1 f2
  exact apca_contrast_abs_le _ _ y1 (by linarith) z1 (by linarith)

/-- The gamma-encoded sRGB components of `oklch_to_srgb` are clamped
to `[0, 1]`. -/
theorem oklch_to_srgb_mem (L C H : ℝ) :
    (0 ≤ (oklch_to_srgb L C H).1 ∧ (oklch_to_srgb L C H).1 ≤ 1) ∧
    (0 ≤ (oklch_to_srgb L C H).2.1 ∧ (oklch_to_srgb L C H).2.1 ≤ 1) ∧
    (0 ≤ (oklch_to_srgb L C H).2.2.1 ∧ (oklch_to_srgb L C H).2.2.1 ≤ 1) := by
  unfold oklch_to_srgb
  dsimp only
  exact ⟨clamp_mem _ _ _ (by norm_num), clamp_mem _ _ _ (by norm_num),
    clamp_mem _ _ _ (by norm_num)⟩

/-- Every candidate contrast measured by an sRGB search against an in-range
background is at most 130. -/
theorem adj_lc_srgb_le (C H : ℝ) (bg : ℝ × ℝ × ℝ) (L_mid : ℝ)
    (h4 : 0 ≤ bg.1 ∧ bg.1 ≤ 1) (h5 : 0 ≤ bg.2.1 ∧ bg.2.1 ≤ 1)
    (h6 : 0 ≤ bg.2.2 ∧ bg.2.2 ≤ 1) :
    adj_lc C H bg Gamut.srgb L_mid ≤ 130 := by
  unfold adj_lc
  dsimp only
  obtain ⟨m1, m2, m3⟩ := oklch_to_srgb_mem L_mid (adj_c_test C H Gamut.srgb L_mid) H
  exact calc_apca_from_rgb01_abs_le _ bg m1 m2 m3 h4 h5 h6

/-- With a threshold above the whole APCA output range, an sRGB search never
finds a satisfying candidate: the color is returned unchanged with
`achieved_lc = 0` and `success = false`. -/
theorem auto_adjust_high_threshold (L C H : ℝ) (bg : ℝ × ℝ × ℝ)
    (min_lc : ℝ) (d : Direction) (mdl : ℝ)
    (h4 : 0 ≤ bg.1 ∧ bg.1 ≤ 1) (h5 : 0 ≤ bg.2.1 ∧ bg.2.1 ≤ 1)
    (h6 : 0 ≤ bg.2.2 ∧ bg.2.2 ≤ 1) (hm : min_lc > 130) :
    auto_adjust_for_contrast L C H bg min_lc d Gamut.srgb mdl =
      ⟨L, C, H, 0, false⟩ := by
  have hstep : ∀ s : AdjState,
      (adj_step C H bg min_lc d Gamut.srgb s).best_L = s.best_L ∧
      (adj_step C H bg min_lc d Gamut.srgb s).best_C = s.best_C ∧
      (adj_step C H bg min_lc d Gamut.srgb s).best_lc = s.best_lc := by
    intro s
    have hlt : ¬ (adj_lc C H bg Gamut.srgb ((s.L_low + s.L_high) / 2) ≥ min_lc) :=
      not_le.mpr (lt_of_le_of_lt
        (adj_lc_srgb_le C H bg ((s.L_low + s.L_high) / 2) h4 h5 h6) hm)
    unfold adj_step
    cases d <;> dsimp only <;> rw [if_neg hlt] <;> exact ⟨rfl, rfl, rfl⟩
  have hloop : ∀ (n : ℕ) (s : AdjState),
      (adj_loop C H bg min_lc d Gamut.srgb n s).best_L = s.best_L ∧
      (adj_loop C H bg min_lc d Gamut.srgb n s).best_C = s.best_C ∧
      (adj_loop C H bg min_lc d Gamut.srgb n s).best_lc = s.best_lc := by
    intro n
    induction n with
    | zero => intro s; exact ⟨rfl, rfl, rfl⟩
    | succ k ih =>
        intro s
        obtain ⟨e1, e2, e3⟩ := ih (adj_step C H bg min_lc d Gamut.srgb s)
        obtain ⟨f1, f2, f3⟩ := hstep s
        exact ⟨e1.trans f1, e2.trans f2, e3.trans f3⟩
  have hdec : decide ((0 : ℝ) ≥ min_lc) = false :=
    decide_eq_false (by push_neg; linarith)
  unfold auto_adjust_for_contrast
  cases d with
  | lighter =>
      dsimp only
      obtain ⟨e1, e2, e3⟩ := hloop 20 ⟨L, min (L + mdl) 0.99, L, C, 0⟩
      rw [AdjResult.mk.injEq]
      rw [e1, e2, e3]
      exact ⟨rfl, rfl, rfl, rfl, hdec⟩
  | darker =>
      dsimp only
      obtain ⟨e1, e2, e3⟩ := hloop 20 ⟨max (L - mdl) 0.01, L, L, C, 0⟩
      rw [AdjResult.mk.injEq]
      rw [e1, e2, e3]
      exact ⟨rfl, rfl, rfl, rfl, hdec⟩

/-- Witness for C9: a concrete sRGB call with an unreachable threshold fails
and leaves the color unchanged. -/
theorem c9_failed_adjustment_unchanged_witness :
    (1000 : ℝ) > 0 ∧
    (auto_adjust_for_contrast 0.5 0.1 0 (0, 0, 0) 1000 Direction.lighter
      Gamut.srgb 0.15).success = false ∧
    ((auto_adjust_for_contrast 0.5 0.1 0 (0, 0, 0) 1000 Direction.lighter
        Gamut.srgb 0.15).L = 0.5 ∧
      (auto_adjust_for_contrast 0.5 0.1 0 (0, 0, 0) 1000 Direction.lighter
        Gamut.srgb 0.15).C = 0.1 ∧
      (auto_adjust_for_contrast 0.5 0.1 0 (0, 0, 0) 1000 Direction.lighter
        Gamut.srgb 0.15).lc = 0) := by
  have heq := auto_adjust_high_threshold 0.5 0.1 0 (0, 0, 0) 1000
    Direction.lighter 0.15 (by norm_num) (by norm_num) (by norm_num)
    (by norm_num)
  exact ⟨by norm_num, by rw [heq],
    c9_failed_adjustment_unchanged 0.5 0.1 0 (0, 0, 0) 1000 Direction.lighter
      Gamut.srgb 0.15 (by norm_num) (by rw [heq])⟩

-- ========== C1 ==========

/-- Records appended by `apply_one_check` always carry `success = true`:
a failed search leaves (L, C) unchanged, and unchanged values append
nothing. -/
theorem apply_one_check_success (p : Palette) (sn : String) (mlc mdl : ℝ)
    (lvl : ℤ) (st : ColorValue × List ContrastAdjustment)
    (chk : String × (ℝ × ℝ × ℝ) × Direction)
    (h : ∀ b ∈ st.2, b.success = true) :
    ∀ a ∈ (apply_one_check p sn mlc mdl lvl st chk).2, a.success = true := by
  intro a ha
  unfold apply_one_check at ha
  dsimp only at ha
  by_cases hchange :
      (auto_adjust_for_contrast st.1.oklch_l st.1.oklch_c st.1.oklch_h chk.2.1
        mlc chk.2.2 p.gamut mdl).L ≠ st.1.oklch_l ∨
      (auto_adjust_for_contrast st.1.oklch_l st.1.oklch_c st.1.oklch_h chk.2.1
        mlc chk.2.2 p.gamut mdl).C ≠ st.1.oklch_c
  · rw [if_pos hchange] at ha
    dsimp only at ha
    rw [List.mem_append] at ha
    rcases ha with ha | ha
    · exact h a ha
    · rw [List.mem_singleton] at ha
      subst ha
      dsimp only
      cases hs : (auto_adjust_for_contrast st.1.oklch_l st.1.oklch_c
          st.1.oklch_h chk.2.1 mlc chk.2.2 p.gamut mdl).success
      · obtain ⟨hL, hC, _⟩ := auto_adjust_fail_unchanged st.1.oklch_l
          st.1.oklch_c st.1.oklch_h chk.2.1 mlc chk.2.2 p.gamut mdl hs
        rcases hchange with hne | hne
        · exact absurd hL hne
        · exact absurd hC hne
      · rfl
  · rw [if_neg hchange] at ha
    exact h a ha

/-- The check-fold of `auto_adjust_palette_contrast` preserves the
all-successful property of the record list. -/
theorem checks_foldl_success (p : Palette) (sn : String) (mlc mdl : ℝ)
    (lvl : ℤ) :
    ∀ (checks : List (String × (ℝ × ℝ × ℝ) × Direction))
      (st : ColorValue × List ContrastAdjustment),
      (∀ b ∈ st.2, b.success = true) →
      ∀ a ∈ (checks.foldl (apply_one_check p sn mlc mdl lvl) st).2,
        a.success = true := by
  intro checks
  induction checks with
  | nil => intro st h a ha; exact h a ha
  | cons c cs ih =>
      intro st h a ha
      exact ih (apply_one_check p sn mlc mdl lvl st c)
        (apply_one_check_success p sn mlc mdl lvl st c h) a ha

/-- C1 (amended): every record in the change log returned by
`auto_adjust_palette_contrast` has `success = true` — an attempt that cannot
reach the target contrast leaves the color unchanged and is omitted from the
log, so failed attempts never appear in it (flagged or otherwise). -/
theorem c1_adjustment_log_all_success (p : Palette) (min_lc max_delta_l : ℝ) :
    (auto_adjust_palette_contrast p min_lc max_delta_l).all
      (fun a => a.success) = true := by
  rw [List.all_eq_true]
  intro a ha
  unfold auto_adjust_palette_contrast at ha
  rw [List.mem_flatMap] at ha
  obtain ⟨sc, _, ha⟩ := ha
  by_cases hn : sc.1 = "neutral"
  · rw [if_pos hn] at ha
    cases ha
  · rw [if_neg hn, List.mem_flatMap] at ha
    obtain ⟨lc, _, ha⟩ := ha
    dsimp only at ha
    exact checks_foldl_success p sc.1 min_lc max_delta_l lc.1 _ _
      (by intro b hb; cases hb) a ha

/-- A check whose adjustment search fails leaves the fold state unchanged. -/
theorem apply_one_check_unchanged (p : Palette) (sn : String) (mlc mdl : ℝ)
    (lvl : ℤ) (st : ColorValue × List ContrastAdjustment)
    (chk : String × (ℝ × ℝ × ℝ) × Direction)
    (hfail : (auto_adjust_for_contrast st.1.oklch_l st.1.oklch_c st.1.oklch_h
      chk.2.1 mlc chk.2.2 p.gamut mdl).success = false) :
    apply_one_check p sn mlc mdl lvl st chk = st := by
  obtain ⟨hL, hC, _⟩ := auto_adjust_fail_unchanged st.1.oklch_l st.1.oklch_c
    st.1.oklch_h chk.2.1 mlc chk.2.2 p.gamut mdl hfail
  unfold apply_one_check
  rw [if_neg]
  push_neg
  exact ⟨hL, hC⟩

/-- The single stop of the C1 counterexample palette: level 400 with a stored
dark-background APCA of 0. -/
def c1_color : ColorValue :=
  { level := 400, oklch_l := 0.5, oklch_c := 0, oklch_h := 0,
    apca_vs_dark_bg := some 0 }

/-- The single scale of the C1 counterexample palette. -/
def c1_scale : ColorScale :=
  { name := "brand", oklch_hue := 0, colors := [(400, c1_color)] }

/-- C1 counterexample palette: one non-neutral scale, one failing stop,
sRGB gamut, black dark background. -/
def c1_palette : Palette :=
  { scales := [("brand", c1_scale)]
    chroma_mode := ChromaMode.even
    gamut := Gamut.srgb
    neutral_light_bg := (1, 1, 1)
    neutral_dark_bg := (0, 0, 0)
    neutral_light_bg_p3 := (1, 1, 1)
    neutral_dark_bg_p3 := (0, 0, 0) }

/-- C1 (counterexample): with `min_lc = 1000` the validation pass reports one
contrast issue for `c1_palette`, yet `auto_adjust_palette_contrast` returns an
empty change log — the failed attempt is not recorded at all, contradicting
the claim that the log contains one record per issue with failures flagged
`success = false`. -/
theorem c1_counterexample :
    (validate_palette_contrast c1_palette 1000).length = 1 ∧
    auto_adjust_palette_contrast c1_palette 1000 0.15 = [] := by
  constructor
  · unfold validate_palette_contrast
    rw [show c1_palette.scales = [("brand", c1_scale)] from rfl]
    simp only [List.flatMap_cons, List.flatMap_nil, List.append_nil]
    rw [if_neg (by decide : ¬ ("brand" = "neutral"))]
    rw [show c1_scale.colors = [(400, c1_color)] from rfl]
    simp only [List.flatMap_cons, List.flatMap_nil, List.append_nil]
    unfold validate_color_issues
    rw [show c1_color.apca_vs_dark_bg = some 0 from rfl,
      show c1_color.apca_vs_light_bg = none from rfl]
    norm_num
  · unfold auto_adjust_palette_contrast
    rw [show c1_palette.scales = [("brand", c1_scale)] from rfl]
    simp only [List.flatMap_cons, List.flatMap_nil, List.append_nil]
    rw [if_neg (by decide : ¬ ("brand" = "neutral"))]
    rw [show c1_scale.colors = [(400, c1_color)] from rfl]
    simp only [List.flatMap_cons, List.flatMap_nil, List.append_nil]
    have hchecks : adjust_checks c1_palette 1000 400 c1_color =
        [("dark", (0, 0, 0), Direction.lighter)] := by
      unfold adjust_checks
      rw [show c1_palette.gamut = Gamut.srgb from rfl,
        show c1_color.apca_vs_dark_bg = some 0 from rfl,
        show c1_color.apca_vs_light_bg = none from rfl]
      norm_num
      rfl
    rw [hchecks]
    simp only [List.foldl]
    have hfail : (auto_adjust_for_contrast
        ((c1_color, ([] : List ContrastAdjustment)).1.oklch_l)
        ((c1_color, ([] : List ContrastAdjustment)).1.oklch_c)
        ((c1_color, ([] : List ContrastAdjustment)).1.oklch_h)
        ((("dark", ((0 : ℝ), (0 : ℝ), (0 : ℝ)), Direction.lighter) :
          String × (ℝ × ℝ × ℝ) × Direction)).2.1 1000
        ((("dark", ((0 : ℝ), (0 : ℝ), (0 : ℝ)), Direction.lighter) :
          String × (ℝ × ℝ × ℝ) × Direction)).2.2
        c1_palette.gamut 0.15).success = false := by
      have heq := auto_adjust_high_threshold 0.5 0 0 (0, 0, 0) 1000
        Direction.lighter 0.15 (by norm_num) (by norm_num) (by norm_num)
        (by norm_num)
      show (auto_adjust_for_contrast 0.5 0 0 (0, 0, 0) 1000 Direction.lighter
        Gamut.srgb 0.15).success = false
      rw [heq]
    rw [apply_one_check_unchanged c1_palette "brand" 1000 0.15 400
      (c1_color, []) ("dark", (0, 0, 0), Direction.lighter) hfail]

-- ========== C5 ==========

/-- Rational upper bound on a rational-exponent power via integer powers. -/
theorem rpow_div_lt (x c : ℝ) (p q : ℕ) (hx : 0 ≤ x) (hc : 0 ≤ c)
    (hq : q ≠ 0) (h : x ^ p < c ^ q) : x ^ ((p : ℝ) / (q : ℝ)) < c := by
  have ha : 0 ≤ x ^ ((p : ℝ) / (q : ℝ)) := Real.rpow_nonneg hx _
  have key : (x ^ ((p : ℝ) / (q : ℝ))) ^ q = x ^ p := by
    rw [← Real.rpow_natCast (x ^ ((p : ℝ) / (q : ℝ))) q, ← Real.rpow_mul hx]
    rw [div_mul_cancel₀]
    · rw [Real.rpow_natCast]
    · exact_mod_cast hq
  by_contra hcon
  push_neg at hcon
  have : c ^ q ≤ (x ^ ((p : ℝ) / (q : ℝ))) ^ q := pow_le_pow_left hc hcon q
  rw [key] at this
  linarith

/-- Rational lower bound on a rational-exponent power via integer powers. -/
theorem lt_rpow_div (x c : ℝ) (p q : ℕ) (hx : 0 ≤ x) (_hc : 0 ≤ c)
    (hq : q ≠ 0) (h : c ^ q < x ^ p) : c < x ^ ((p : ℝ) / (q : ℝ)) := by
  have ha : 0 ≤ x ^ ((p : ℝ) / (q : ℝ)) := Real.rpow_nonneg hx _
  have key : (x ^ ((p : ℝ) / (q : ℝ))) ^ q = x ^ p := by
    rw [← Real.rpow_natCast (x ^ ((p : ℝ) / (q : ℝ))) q, ← Real.rpow_mul hx]
    rw [div_mul_cancel₀]
    · rw [Real.rpow_natCast]
    · exact_mod_cast hq
  by_contra hcon
  push_neg at hcon
  have : (x ^ ((p : ℝ) / (q : ℝ))) ^ q ≤ c ^ q := pow_le_pow_left ha hcon q
  rw [key] at this
  linarith

/-- APCA luminance of white (255,255,255) is exactly the coefficient sum. -/
theorem srgb_to_y_apca_white : srgb_to_y_apca 255 255 255 = 1.0000001 := by
  unfold srgb_to_y_apca
  have h : ((255 : ℤ) : ℝ) / 255 = 1 := by norm_num
  rw [h, Real.one_rpow]
  norm_num

/-- APCA luminance of black (0,0,0) is exactly 0. -/
theorem srgb_to_y_apca_black : srgb_to_y_apca 0 0 0 = 0 := by
  unfold srgb_to_y_apca APCA_MAIN_TRC
  have h : ((0 : ℤ) : ℝ) / 255 = 0 := by norm_num
  rw [h, Real.zero_rpow (by norm_num : (2.4 : ℝ) ≠ 0)]
  norm_num

/-- The black soft clamp applied to 0 gives `0.022 ^ 1.414`. -/
theorem apca_black_clamp_zero : apca_black_clamp 0 = (0.022 : ℝ) ^ (1.414 : ℝ) := by
  unfold apca_black_clamp
  rw [if_pos (by norm_num : (0 : ℝ) < 0.022)]
  norm_num

/-- The black soft clamp leaves the white luminance unchanged. -/
theorem apca_black_clamp_white : apca_black_clamp 1.0000001 = 1.0000001 := by
  unfold apca_black_clamp
  rw [if_neg (by norm_num : ¬ ((1.0000001 : ℝ) < 0.022))]

/-- Bounds for the clamped black luminance `0.022 ^ 1.414`. -/
theorem clamped_black_bounds :
    (0.000484 : ℝ) ≤ (0.022 : ℝ) ^ (1.414 : ℝ) ∧
      (0.022 : ℝ) ^ (1.414 : ℝ) ≤ 0.022 := by
  constructor
  · have h := Real.rpow_le_rpow_of_exponent_ge (by norm_num : (0:ℝ) < 0.022)
      (by norm_num : (0.022:ℝ) ≤ 1) (by norm_num : (1.414 : ℝ) ≤ 2)
    calc (0.000484 : ℝ) = (0.022 : ℝ) ^ (2 : ℕ) := by norm_num
    _ = (0.022 : ℝ) ^ ((2 : ℕ) : ℝ) := (Real.rpow_natCast _ 2).symm
    _ = (0.022 : ℝ) ^ (2 : ℝ) := by norm_num
    _ ≤ (0.022 : ℝ) ^ (1.414 : ℝ) := h
  · have h := Real.rpow_le_rpow_of_exponent_ge (by norm_num : (0:ℝ) < 0.022)
      (by norm_num : (0.022:ℝ) ≤ 1) (by norm_num : (1 : ℝ) ≤ 1.414)
    rwa [Real.rpow_one] at h

set_option maxHeartbeats 1000000 in
/-- C5: APCA of black text on white background is within 1 of +106, of white
text on black background within 1 of -108, and of identical mid-gray text and
background exactly 0. -/
theorem c5_apca_endpoint_values :
    |apca_contrast (srgb_to_y_apca 0 0 0) (srgb_to_y_apca 255 255 255) - 106| ≤ 1 ∧
    |apca_contrast (srgb_to_y_apca 255 255 255) (srgb_to_y_apca 0 0 0) - (-108)| ≤ 1 ∧
    apca_contrast (srgb_to_y_apca 128 128 128) (srgb_to_y_apca 128 128 128) = 0 := by
  obtain ⟨hql, hqh⟩ := clamped_black_bounds
  have hq0 : (0 : ℝ) ≤ (0.022 : ℝ) ^ (1.414 : ℝ) := by linarith
  refine ⟨?_, ?_, ?_⟩
  · rw [srgb_to_y_apca_black, srgb_to_y_apca_white]
    unfold apca_contrast
    rw [apca_black_clamp_zero, apca_black_clamp_white]
    dsimp only
    have ht : ((0.022 : ℝ) ^ (1.414 : ℝ)) ^ (0.57 : ℝ) =
        (0.022 : ℝ) ^ (0.80598 : ℝ) := by
      rw [← Real.rpow_mul (by norm_num : (0:ℝ) ≤ 0.022)]
      norm_num
    have htlow : (0.0414 : ℝ) < (0.022 : ℝ) ^ (0.80598 : ℝ) := by
      have h1 : (0.0414 : ℝ) < (0.022 : ℝ) ^ (((5:ℕ) : ℝ) / ((6:ℕ) : ℝ)) :=
        lt_rpow_div 0.022 0.0414 5 6 (by norm_num) (by norm_num) (by norm_num)
          (by norm_num)
      have h2 : (0.022 : ℝ) ^ (((5:ℕ) : ℝ) / ((6:ℕ) : ℝ)) ≤
          (0.022 : ℝ) ^ (0.80598 : ℝ) :=
        Real.rpow_le_rpow_of_exponent_ge (by norm_num) (by norm_num)
          (by norm_num)
      linarith
    have hthigh : (0.022 : ℝ) ^ (0.80598 : ℝ) < 0.0473 := by
      have h1 : (0.022 : ℝ) ^ (((4:ℕ) : ℝ) / ((5:ℕ) : ℝ)) < 0.0473 :=
        rpow_div_lt 0.022 0.0473 4 5 (by norm_num) (by norm_num) (by norm_num)
          (by norm_num)
      have h2 : (0.022 : ℝ) ^ (0.80598 : ℝ) ≤
          (0.022 : ℝ) ^ (((4:ℕ) : ℝ) / ((5:ℕ) : ℝ)) :=
        Real.rpow_le_rpow_of_exponent_ge (by norm_num) (by norm_num)
          (by norm_num)
      linarith
    have hb1 : (1 : ℝ) ≤ (1.0000001 : ℝ) ^ (0.56 : ℝ) :=
      Real.one_le_rpow (by norm_num) (by norm_num)
    have hb2 : (1.0000001 : ℝ) ^ (0.56 : ℝ) ≤ 1.0000001 := by
      have h := Real.rpow_le_rpow_of_exponent_le
        (by norm_num : (1:ℝ) ≤ 1.0000001) (by norm_num : (0.56 : ℝ) ≤ 1)
      rwa [Real.rpow_one] at h
    rw [if_neg (show ¬ (|1.0000001 - (0.022 : ℝ) ^ (1.414 : ℝ)| < 0.0005) by
      rw [abs_of_nonneg (by linarith)]
      push_neg
      linarith)]
    rw [if_pos (show (1.0000001 : ℝ) > (0.022 : ℝ) ^ (1.414 : ℝ) by linarith)]
    rw [ht]
    rw [if_neg (show ¬ (((1.0000001 : ℝ) ^ (0.56 : ℝ) -
        (0.022 : ℝ) ^ (0.80598 : ℝ)) * 1.14 < 0.001) by push_neg; linarith)]
    rw [if_neg (show ¬ (((1.0000001 : ℝ) ^ (0.56 : ℝ) -
        (0.022 : ℝ) ^ (0.80598 : ℝ)) * 1.14 < 0.035991) by push_neg; linarith)]
    rw [abs_le]
    constructor <;> linarith
  · rw [srgb_to_y_apca_black, srgb_to_y_apca_white]
    unfold apca_contrast
    rw [apca_black_clamp_zero, apca_black_clamp_white]
    dsimp only
    have hbpow : ((0.022 : ℝ) ^ (1.414 : ℝ)) ^ (0.65 : ℝ) =
        (0.022 : ℝ) ^ (0.9191 : ℝ) := by
      rw [← Real.rpow_mul (by norm_num : (0:ℝ) ≤ 0.022)]
      norm_num
    have hblow : (0.0202 : ℝ) < (0.022 : ℝ) ^ (0.9191 : ℝ) := by
      have h1 : (0.0202 : ℝ) < (0.022 : ℝ) ^ (((14:ℕ) : ℝ) / ((15:ℕ) : ℝ)) :=
        lt_rpow_div 0.022 0.0202 14 15 (by norm_num) (by norm_num)
          (by norm_num) (by norm_num)
      have h2 : (0.022 : ℝ) ^ (((14:ℕ) : ℝ) / ((15:ℕ) : ℝ)) ≤
          (0.022 : ℝ) ^ (0.9191 : ℝ) :=
        Real.rpow_le_rpow_of_exponent_ge (by norm_num) (by norm_num)
          (by norm_num)
      linarith
    have hbhigh : (0.022 : ℝ) ^ (0.9191 : ℝ) < 0.0377 := by
      have h1 : (0.022 : ℝ) ^ (((9:ℕ) : ℝ) / ((10:ℕ) : ℝ)) < 0.0377 :=
        rpow_div_lt 0.022 0.0377 9 10 (by norm_num) (by norm_num)
          (by norm_num) (by norm_num)
      have h2 : (0.022 : ℝ) ^ (0.9191 : ℝ) ≤
          (0.022 : ℝ) ^ (((9:ℕ) : ℝ) / ((10:ℕ) : ℝ)) :=
        Real.rpow_le_rpow_of_exponent_ge (by norm_num) (by norm_num)
          (by norm_num)
      linarith
    have ht1 : (1 : ℝ) ≤ (1.0000001 : ℝ) ^ (0.62 : ℝ) :=
      Real.one_le_rpow (by norm_num) (by norm_num)
    have ht2 : (1.0000001 : ℝ) ^ (0.62 : ℝ) ≤ 1.0000001 := by
      have h := Real.rpow_le_rpow_of_exponent_le
        (by norm_num : (1:ℝ) ≤ 1.0000001) (by norm_num : (0.62 : ℝ) ≤ 1)
      rwa [Real.rpow_one] at h
    rw [if_neg (show ¬ (|(0.022 : ℝ) ^ (1.414 : ℝ) - (1.0000001 : ℝ)| < 0.0005)
        by
      rw [abs_of_nonpos (by linarith)]
      push_neg
      linarith)]
    rw [if_neg (show ¬ ((0.022 : ℝ) ^ (1.414 : ℝ) > (1.0000001 : ℝ)) by
      push_neg
      linarith)]
    rw [hbpow]
    rw [if_neg (show ¬ (((0.022 : ℝ) ^ (0.9191 : ℝ) -
        (1.0000001 : ℝ) ^ (0.62 : ℝ)) * 1.14 > -0.001) by push_neg; linarith)]
    rw [if_neg (show ¬ (((0.022 : ℝ) ^ (0.9191 : ℝ) -
        (1.0000001 : ℝ) ^ (0.62 : ℝ)) * 1.14 > -0.035991) by
      push_neg; nlinarith)]
    rw [abs_le]
    constructor <;> linarith
  · unfold apca_contrast
    dsimp only
    rw [sub_self, abs_zero]
    rw [if_pos (by norm_num : (0 : ℝ) < 0.0005)]

-- ========== C8 ==========

/-- An unresolvable hue name anywhere in the list makes the resolution loop
raise. -/
theorem resolve_hue_weights_error (l : List (String × ℝ)) (name : String)
    (w : ℝ) (hmem : (name, w) ∈ l) (hbad : normalize_hue_name name = none) :
    ∃ e, resolve_hue_weights l = Except.error e := by
  induction l with
  | nil => cases hmem
  | cons p rest ih =>
      obtain ⟨n0, w0⟩ := p
      rcases List.mem_cons.mp hmem with heq | hmem2
      · obtain ⟨rfl, rfl⟩ := Prod.mk.injEq .. ▸ heq
        refine ⟨"Unknown hue name " ++ name, ?_⟩
        unfold resolve_hue_weights
        rw [hbad]
      · obtain ⟨e, he⟩ := ih hmem2
        unfold resolve_hue_weights
        cases hn : normalize_hue_name n0 with
        | none => exact ⟨"Unknown hue name " ++ n0, rfl⟩
        | some nm =>
            rw [he]
            exact ⟨e, rfl⟩

/-- When every hue name resolves, the resolution loop succeeds and returns
the weights unchanged. -/
theorem resolve_hue_weights_ok (l : List (String × ℝ))
    (hval : ∀ p ∈ l, (normalize_hue_name p.1).isSome = true) :
    ∃ hs, resolve_hue_weights l = Except.ok (hs, l.map Prod.snd) := by
  induction l with
  | nil => exact ⟨[], rfl⟩
  | cons p rest ih =>
      obtain ⟨n0, w0⟩ := p
      have hv := hval (n0, w0) (List.mem_cons_self _ _)
      obtain ⟨nm, hn⟩ := Option.isSome_iff_exists.mp hv
      obtain ⟨hs, hres⟩ := ih fun q hq => hval q (List.mem_cons_of_mem _ hq)
      refine ⟨RYB_ANCHOR_DEG nm :: hs, ?_⟩
      unfold resolve_hue_weights
      rw [hn, hres]
      rfl

/-- `max 0 ∘ min 100` clamping of an integer intent changes nothing once the
intent is mapped through `clamp (· / 100) 0 1`. -/
theorem intent_unclamp (t : ℤ) :
    clamp (((max 0 (min t 100) : ℤ) : ℝ) / 100) 0 1 =
      clamp ((t : ℝ) / 100) 0 1 := by
  unfold clamp
  by_cases h1 : t < 0
  · have hm : max 0 (min t 100) = 0 := by omega
    rw [hm]
    have hr : ((t : ℝ)) < 0 := by exact_mod_cast h1
    rw [if_neg (by norm_num), if_neg (by norm_num), if_pos (by linarith)]
    norm_num
  · by_cases h2 : 100 < t
    · have hm : max 0 (min t 100) = 100 := by omega
      rw [hm]
      have hr : (100 : ℝ) < (t : ℝ) := by exact_mod_cast h2
      rw [if_neg (by norm_num), if_neg (by norm_num), if_neg (by
        push_neg
        positivity), if_pos (by
        rw [gt_iff_lt, lt_div_iff (by norm_num : (0:ℝ) < 100)]
        linarith)]
      norm_num
    · have hm : max 0 (min t 100) = t := by omega
      rw [hm]

/-- C8: `compute_brand_colors` reports an input error (and produces no
result) when a supplied hue name is not one of the six wheel names, or when
every supplied weight is ≤ 0; out-of-range chroma/tone intents are not
errors — the result is the same as with the intent clamped to [0, 100]. -/
theorem c8_brand_color_input_errors :
    (∀ (hw : List (String × ℝ)) (ci ti : ℤ) (ps : String) (xd : ℝ) (ic : Bool)
      (cs : String) (cm : ℝ) (gsd : ℤ) (name : String) (w : ℝ),
      (name, w) ∈ hw → normalize_hue_name name = none →
      ∃ e, compute_brand_colors hw ci ti ps xd ic cs cm gsd =
        Except.error e) ∧
    (∀ (hw : List (String × ℝ)) (ci ti : ℤ) (ps : String) (xd : ℝ) (ic : Bool)
      (cs : String) (cm : ℝ) (gsd : ℤ),
      (∀ p ∈ hw, (normalize_hue_name p.1).isSome = true) →
      (∀ p ∈ hw, p.2 ≤ 0) →
      ∃ e, compute_brand_colors hw ci ti ps xd ic cs cm gsd =
        Except.error e) ∧
    (∀ (hw : List (String × ℝ)) (ci ti : ℤ) (ps : String) (xd : ℝ) (ic : Bool)
      (cs : String) (cm : ℝ) (gsd : ℤ),
      compute_brand_colors hw ci ti ps xd ic cs cm gsd =
        compute_brand_colors hw (max 0 (min ci 100)) (max 0 (min ti 100)) ps
          xd ic cs cm gsd) := by
  refine ⟨?_, ?_, ?_⟩
  · intro hw ci ti ps xd ic cs cm gsd name w hmem hbad
    obtain ⟨e, he⟩ := resolve_hue_weights_error hw name w hmem hbad
    refine ⟨e, ?_⟩
    unfold compute_brand_colors
    rw [he]
  · intro hw ci ti ps xd ic cs cm gsd hval hyp
    obtain ⟨hs, hres⟩ := resolve_hue_weights_ok hw hval
    refine ⟨"All weights are zero or negative.", ?_⟩
    unfold compute_brand_colors
    rw [hres]
    dsimp only
    rw [if_pos]
    refine le_of_eq (List.sum_eq_zero ?_)
    intro x hx
    rw [List.mem_map] at hx
    obtain ⟨wv, hwv, rfl⟩ := hx
    rw [List.mem_map] at hwv
    obtain ⟨pp, hpp, rfl⟩ := hwv
    exact max_eq_left (hyp pp hpp)
  · intro hw ci ti ps xd ic cs cm gsd
    conv_rhs => unfold compute_brand_colors
    conv_lhs => unfold compute_brand_colors
    simp only [intent_unclamp]

/-- Witness for C8 at concrete inputs: the unknown name `"Teal"` errors, the
all-nonpositive weight list errors. -/
theorem c8_brand_color_input_errors_witness :
    (("Teal", (1 : ℝ)) ∈ [("Teal", (1 : ℝ))]) ∧
    normalize_hue_name "Teal" = none ∧
    (∃ e, compute_brand_colors [("Teal", 1)] 50 50 "full" 30 false
      "harmonics" 0.98 2 = Except.error e) ∧
    (∃ e, compute_brand_colors [("Blue", 0)] 50 50 "full" 30 false
      "harmonics" 0.98 2 = Except.error e) :=
  ⟨List.mem_singleton.mpr rfl, by decide,
    c8_brand_color_input_errors.1 [("Teal", 1)] 50 50 "full" 30 false
      "harmonics" 0.98 2 "Teal" 1 (List.mem_singleton.mpr rfl) (by decide),
    c8_brand_color_input_errors.2.1 [("Blue", 0)] 50 50 "full" 30 false
      "harmonics" 0.98 2
      (by
        intro p hp
        rw [List.mem_singleton] at hp
        subst hp
        decide)
      (by
        intro p hp
        rw [List.mem_singleton] at hp
        subst hp
        norm_num)⟩

-- ========== C7 helpers ==========

theorem floor_eq_of (x : ℝ) (n : ℤ) (h1 : (n : ℝ) ≤ x) (h2 : x < (n : ℝ) + 1) :
    ⌊x⌋ = n := by
  rw [Int.floor_eq_iff]
  · exact ⟨h1, by exact_mod_cast h2⟩

theorem pymod_eval (x y : ℝ) (n : ℤ) (hy : 0 < y) (h1 : (n : ℝ) * y ≤ x)
    (h2 : x < ((n : ℝ) + 1) * y) : pymod x y = x - y * n := by
  unfold pymod
  rw [floor_eq_of (x / y) n (by rw [le_div_iff hy]; linarith)
    (by rw [div_lt_iff hy]; linarith)]

theorem pymod_eq_self (x y : ℝ) (hy : 0 < y) (h0 : 0 ≤ x) (h1 : x < y) :
    pymod x y = x := by
  rw [pymod_eval x y 0 hy (by norm_num; exact h0) (by norm_num; exact h1)]
  norm_num

theorem mod360_eq_self (h : ℝ) (h0 : 0 ≤ h) (h1 : h < 360) : mod360 h = h := by
  unfold mod360
  rw [pymod_eq_self h 360 (by norm_num) h0 h1,
    pymod_eval (h + 360) 360 1 (by norm_num) (by norm_num; linarith)
      (by norm_num; linarith)]
  norm_num

theorem pyround_eq (x : ℝ) (n : ℤ) (h1 : (n : ℝ) - 1/2 < x)
    (h2 : x < (n : ℝ) + 1/2) : pyround x = n := by
  unfold pyround
  rcases le_or_lt (n : ℝ) x with h | h
  · rw [floor_eq_of x n h (by linarith), if_pos (by linarith)]
  · rw [floor_eq_of x (n - 1) (by push_cast; linarith) (by push_cast; linarith)]
    rw [if_neg (by push_cast; intro hc; linarith),
      if_pos (by push_cast; linarith)]
    omega

theorem sqrt_two_bounds : 1.414213 < Real.sqrt 2 ∧ Real.sqrt 2 < 1.414214 := by
  have h := Real.sq_sqrt (show (0:ℝ) ≤ 2 by norm_num)
  have h0 := Real.sqrt_nonneg 2
  constructor <;> nlinarith

theorem sqrt_three_bounds :
    1.732050 < Real.sqrt 3 ∧ Real.sqrt 3 < 1.732051 := by
  have h := Real.sq_sqrt (show (0:ℝ) ≤ 3 by norm_num)
  have h0 := Real.sqrt_nonneg 3
  constructor <;> nlinarith

theorem tan_pi_div_eight_eq : Real.tan (π/8) = Real.sqrt 2 - 1 := by
  have h8 : (0:ℝ) < π/8 := by positivity
  have h8' : π/8 < π/2 := by linarith [pi_pos]
  have ht : 0 < Real.tan (π/8) := Real.tan_pos_of_pos_of_lt_pi_div_two h8 h8'
  have h2 : Real.tan (2 * (π/8)) =
      2 * Real.tan (π/8) / (1 - Real.tan (π/8) ^ 2) := Real.tan_two_mul
  rw [show 2 * (π/8) = π/4 by ring, Real.tan_pi_div_four] at h2
  set t := Real.tan (π/8) with hts
  have hne : 1 - t ^ 2 ≠ 0 := by
    intro h0
    rw [h0, div_zero] at h2
    norm_num at h2
  have key : t ^ 2 + 2 * t - 1 = 0 := by
    field_simp at h2
    linarith
  have hsq : Real.sqrt 2 = t + 1 := by
    rw [show (2:ℝ) = (t + 1) ^ 2 by nlinarith]
    exact Real.sqrt_sq (by linarith)
  linarith

theorem sqrt_two_sub_one_inv : (Real.sqrt 2 - 1)⁻¹ = Real.sqrt 2 + 1 := by
  have h := Real.sq_sqrt (show (0:ℝ) ≤ 2 by norm_num)
  have hb := sqrt_two_bounds
  refine inv_eq_of_mul_eq_one_right ?_
  nlinarith

theorem arctan_lt_self (t : ℝ) (ht : 0 < t) : Real.arctan t < t := by
  have h1 : 0 < Real.arctan t := by
    rw [← Real.arctan_zero]
    exact Real.arctan_strictMono ht
  have h2 := Real.lt_tan h1 (Real.arctan_lt_pi_div_two t)
  rwa [Real.tan_arctan] at h2

theorem arctan_gt_of_sq (t c : ℝ) (ht : 0 < t) (hc : 0 ≤ c)
    (h : c ^ 2 * (1 + t ^ 2) ≤ t ^ 2) : c < Real.arctan t := by
  have hx0 : 0 < Real.arctan t := by
    rw [← Real.arctan_zero]
    exact Real.arctan_strictMono ht
  have hsin := Real.sin_lt hx0
  rw [Real.sin_arctan] at hsin
  have hs0 : (0:ℝ) < Real.sqrt (1 + t ^ 2) := Real.sqrt_pos.mpr (by positivity)
  have hs2 : Real.sqrt (1 + t ^ 2) ^ 2 = 1 + t ^ 2 :=
    Real.sq_sqrt (by positivity)
  have hcs : c * Real.sqrt (1 + t ^ 2) ≤ t := by
    have h1 : (c * Real.sqrt (1 + t ^ 2)) ^ 2 ≤ t ^ 2 := by nlinarith
    have h2 := Real.sqrt_le_sqrt h1
    rwa [Real.sqrt_sq (by positivity), Real.sqrt_sq ht.le] at h2
  have : c ≤ t / Real.sqrt (1 + t ^ 2) := by
    rw [le_div_iff hs0]
    exact hcs
  linarith

theorem arctan_lt_of_sq (t b c : ℝ) (ht : 0 < t) (ht1 : t ≤ 1) (hb0 : 0 ≤ b)
    (hb1 : b ≤ 1) (hc : 0 ≤ c) (h : t ^ 2 ≤ c ^ 2 * (1 + t ^ 2))
    (hcb : c < b - b ^ 3 / 4) :
    Real.arctan t < b := by
  have hx0 : 0 < Real.arctan t := by
    rw [← Real.arctan_zero]
    exact Real.arctan_strictMono ht
  have hxt : Real.arctan t < t := arctan_lt_self t ht
  have hx1 : Real.arctan t ≤ 1 := by linarith
  have hsin := Real.sin_gt_sub_cube hx0 hx1
  rw [Real.sin_arctan] at hsin
  have hs0 : (0:ℝ) < Real.sqrt (1 + t ^ 2) := Real.sqrt_pos.mpr (by positivity)
  have hs2 : Real.sqrt (1 + t ^ 2) ^ 2 = 1 + t ^ 2 :=
    Real.sq_sqrt (by positivity)
  have htc : t / Real.sqrt (1 + t ^ 2) ≤ c := by
    rw [div_le_iff hs0]
    have h1 : t ^ 2 ≤ (c * Real.sqrt (1 + t ^ 2)) ^ 2 := by nlinarith
    have h2 := Real.sqrt_le_sqrt h1
    rwa [Real.sqrt_sq ht.le, Real.sqrt_sq (by positivity)] at h2
  by_contra hcon
  push_neg at hcon
  set x := Real.arctan t
  have hmono : b - b ^ 3 / 4 ≤ x - x ^ 3 / 4 := by
    have hfac : 0 ≤ (x - b) * (4 - (x ^ 2 + x * b + b ^ 2)) :=
      mul_nonneg (by linarith)
        (by nlinarith [mul_nonneg hb0 hx0.le, sq_nonneg x, sq_nonneg b])
    nlinarith [hfac]
  linarith

theorem sqrt2_factor_ne (k : ℝ) (hk : 0 ≤ k) :
    ¬ (Real.sqrt 2 + 1) * k = -1 := by
  intro hcon
  nlinarith [Real.sqrt_nonneg 2]

theorem rt30_rgb : ryb_hsv_to_rgb 30 1 1 = (255, 116, 0) := by
  have hm : mod360 (30:ℝ) = 30 := mod360_eq_self 30 (by norm_num) (by norm_num)
  have hseg : get_segment_for_ryb (30:ℝ) = SegId.h := by
    unfold get_segment_for_ryb
    rw [hm]
    dsimp only
    rw [if_pos (by norm_num)]
  have hfac : segment_factor SegId.h (30:ℝ) = (Real.sqrt 2 + 1) * 0.5 := by
    unfold segment_factor
    rw [hm]
    dsimp only [seg_coef]
    rw [if_neg (by norm_num)]
    rw [show (120 - (30:ℝ)) / 120 * (π/2) = π/2 - π/8 by ring,
      Real.tan_pi_div_two_sub, tan_pi_div_eight_eq, sqrt_two_sub_one_inv]
  have hb := sqrt_two_bounds
  have hden : (0:ℝ) < 1 + (Real.sqrt 2 + 1) * 0.5 := by
    nlinarith [Real.sqrt_nonneg 2]
  unfold ryb_hsv_to_rgb
  rw [hm]
  dsimp only
  rw [hseg]
  dsimp only [seg_interp, seg_anchor_a, anchor_rgb, seg_order]
  rw [hfac]
  have hclamp1 : clamp (1:ℝ) 0 1 = 1 := by norm_num [clamp]
  rw [hclamp1]
  have hmax : ((max 255 (max 0 0) : ℤ) : ℝ) = 255 := by norm_num
  rw [hmax]
  unfold ryb_mid_forward
  rw [if_neg (sqrt2_factor_ne 0.5 (by norm_num))]
  simp only [Prod.mk.injEq]
  refine ⟨?_, ?_, ?_⟩
  · rw [show clamp ((255:ℝ) * 1) 0 255 = 255 by norm_num [clamp]]
    exact pyround_eq _ 255 (by norm_num) (by norm_num)
  · have hmd : ((255:ℝ) * 1 + 255 * 1 * (1 - 1) * ((Real.sqrt 2 + 1) * 0.5)) /
        (1 + (Real.sqrt 2 + 1) * 0.5) = 255 / (1 + (Real.sqrt 2 + 1) * 0.5) := by
      ring_nf
    rw [hmd]
    have hmdlo : (115.5:ℝ) < 255 / (1 + (Real.sqrt 2 + 1) * 0.5) := by
      rw [lt_div_iff hden]
      nlinarith
    have hmdhi : (255:ℝ) / (1 + (Real.sqrt 2 + 1) * 0.5) < 116.5 := by
      rw [div_lt_iff hden]
      nlinarith
    rw [show clamp ((255:ℝ) / (1 + (Real.sqrt 2 + 1) * 0.5)) 0 255 =
        255 / (1 + (Real.sqrt 2 + 1) * 0.5) by
      unfold clamp
      rw [if_neg (by push_neg; positivity), if_neg (by push_neg; linarith)]]
    exact pyround_eq _ 116 (by push_cast; linarith) (by push_cast; linarith)
  · rw [show clamp ((255:ℝ) * 1 * (1 - 1)) 0 255 = 0 by norm_num [clamp]]
    exact pyround_eq _ 0 (by norm_num) (by norm_num)

theorem rt30_fwd : ryb_hue_to_hsv_hue 30 = 60 * (116 / 255) := by
  unfold ryb_hue_to_hsv_hue
  rw [rt30_rgb]
  dsimp only
  unfold srgb_to_hsv
  dsimp only
  rw [show (((255:ℤ):ℝ) / 255) = 1 by norm_num,
    show (((116:ℤ):ℝ) / 255) = 116 / 255 by norm_num,
    show (((0:ℤ):ℝ) / 255) = 0 by norm_num]
  rw [show clamp (1:ℝ) 0 1 = 1 by norm_num [clamp],
    show clamp ((116:ℝ)/255) 0 1 = 116/255 by norm_num [clamp],
    show clamp (0:ℝ) 0 1 = 0 by norm_num [clamp]]
  rw [show max (1:ℝ) (max (116/255) 0) = 1 by
      rw [max_eq_left (by norm_num : (0:ℝ) ≤ 116/255),
        max_eq_left (by norm_num : (116:ℝ)/255 ≤ 1)],
    show min (1:ℝ) (min (116/255) 0) = 0 by
      rw [min_eq_right (by norm_num : (0:ℝ) ≤ 116/255),
        min_eq_right (by norm_num : (0:ℝ) ≤ 1)]]
  rw [if_neg (by norm_num), if_pos rfl]
  rw [show ((116:ℝ)/255 - 0) / (1 - 0) = 116/255 by norm_num]
  rw [pymod_eq_self (116/255) 6 (by norm_num) (by norm_num) (by norm_num)]
  exact mod360_eq_self _ (by norm_num) (by norm_num)

theorem rt30_hsv : hsv_to_srgb (60 * (116/255)) 1 1 = (1, 116/255, 0) := by
  unfold hsv_to_srgb
  dsimp only
  rw [mod360_eq_self _ (by norm_num) (by norm_num)]
  rw [show clamp (1:ℝ) 0 1 = 1 by norm_num [clamp]]
  rw [show (60 * ((116:ℝ)/255)) / 60 = 116/255 by norm_num]
  rw [pymod_eq_self (116/255) 2 (by norm_num) (by norm_num) (by norm_num)]
  rw [if_pos (show (0:ℝ) ≤ 116/255 ∧ (116:ℝ)/255 < 1 by constructor <;> norm_num)]
  rw [show |((116:ℝ)/255) - 1| = 1 - 116/255 by
    rw [abs_of_nonpos (by norm_num)]; ring]
  norm_num

theorem rt30_bwd : hsv_hue_to_ryb_hue (60 * (116/255)) =
    120 - Real.arctan (139/58) * 120 / (π/2) := by
  unfold hsv_hue_to_ryb_hue
  rw [rt30_hsv]
  dsimp only
  rw [show (1:ℝ) * 255 = 255 by norm_num,
    show ((116:ℝ)/255) * 255 = 116 by norm_num,
    show (0:ℝ) * 255 = 0 by norm_num]
  rw [pyround_eq 255 255 (by norm_num) (by norm_num),
    pyround_eq 116 116 (by norm_num) (by norm_num),
    pyround_eq 0 0 (by norm_num) (by norm_num)]
  unfold rgb_to_ryb_hsv
  dsimp only
  rw [show clamp ((255:ℤ):ℝ) 0 255 = 255 by push_cast; norm_num [clamp],
    show clamp ((116:ℤ):ℝ) 0 255 = 116 by push_cast; norm_num [clamp],
    show clamp ((0:ℤ):ℝ) 0 255 = 0 by push_cast; norm_num [clamp]]
  rw [pyround_eq 255 255 (by norm_num) (by norm_num),
    pyround_eq 116 116 (by norm_num) (by norm_num),
    pyround_eq 0 0 (by norm_num) (by norm_num)]
  rw [if_neg (by decide)]
  rw [show (max 255 (max 116 0) : ℤ) = 255 by decide,
    show (min 255 (min 116 0) : ℤ) = 0 by decide]
  rw [if_pos rfl, if_pos rfl]
  dsimp only
  rw [if_neg (by decide)]
  rw [show (((255:ℤ):ℝ) - ((116:ℤ):ℝ)) / (((116:ℤ):ℝ) - ((0:ℤ):ℝ)) = 139/116
    by push_cast; norm_num]
  unfold segment_factor_inverse
  rw [if_neg (by norm_num)]
  dsimp only [seg_coef]
  rw [show ((139:ℝ)/116) / 0.5 = 139/58 by norm_num]

theorem rt30 : |hsv_hue_to_ryb_hue (ryb_hue_to_hsv_hue 30) - 30| ≤ 1 := by
  rw [rt30_fwd, rt30_bwd]
  rw [show (139:ℝ)/58 = ((58:ℝ)/139)⁻¹ by norm_num,
    Real.arctan_inv_of_pos (by norm_num)]
  have hpi := Real.pi_gt_d6
  have hpi' := Real.pi_lt_d6
  have hpi0 : (0:ℝ) < π := by linarith
  have ha1 : (0.3797:ℝ) < Real.arctan (58/139) :=
    arctan_gt_of_sq _ _ (by norm_num) (by norm_num) (by norm_num)
  have ha2 : Real.arctan (58/139) < 0.4057 :=
    arctan_lt_of_sq _ _ 0.3851 (by norm_num) (by norm_num) (by norm_num)
      (by norm_num) (by norm_num) (by norm_num) (by norm_num)
  set a := Real.arctan (58/139) with ha
  have key : 120 - (π/2 - a) * 120 / (π/2) - 30 = 240 * a / π - 30 := by
    field_simp
    ring
  rw [abs_le, key]
  constructor
  · have h1 : (29:ℝ) ≤ 240 * a / π := by
      rw [le_div_iff hpi0]
      nlinarith
    linarith
  · have h2 : 240 * a / π ≤ (31:ℝ) := by
      rw [div_le_iff hpi0]
      nlinarith
    linarith

-- ===== hue 0 =====

theorem rt0_rgb : ryb_hsv_to_rgb 0 1 1 = (255, 0, 0) := by
  have hm : mod360 (0:ℝ) = 0 := mod360_eq_self 0 (by norm_num) (by norm_num)
  have hseg : get_segment_for_ryb (0:ℝ) = SegId.h := by
    unfold get_segment_for_ryb
    rw [hm]
    dsimp only
    rw [if_pos (by norm_num)]
  have hfac : segment_factor SegId.h (0:ℝ) = -1 := by
    unfold segment_factor
    rw [hm]
    dsimp only [seg_coef]
    rw [if_pos rfl]
  unfold ryb_hsv_to_rgb
  rw [hm]
  dsimp only
  rw [hseg]
  dsimp only [seg_interp, seg_anchor_a, anchor_rgb, seg_order]
  rw [hfac]
  unfold ryb_mid_forward
  rw [if_pos rfl]
  rw [show clamp (1:ℝ) 0 1 = 1 by norm_num [clamp],
    show ((max 255 (max 0 0) : ℤ) : ℝ) = 255 by norm_num]
  simp only [Prod.mk.injEq]
  refine ⟨?_, ?_, ?_⟩
  · rw [show clamp ((255:ℝ) * 1) 0 255 = 255 by norm_num [clamp]]
    exact pyround_eq _ 255 (by norm_num) (by norm_num)
  · rw [show clamp ((255:ℝ) * 1 * (1 - 1)) 0 255 = 0 by norm_num [clamp]]
    exact pyround_eq _ 0 (by norm_num) (by norm_num)
  · rw [show clamp ((255:ℝ) * 1 * (1 - 1)) 0 255 = 0 by norm_num [clamp]]
    exact pyround_eq _ 0 (by norm_num) (by norm_num)

theorem rt0_fwd : ryb_hue_to_hsv_hue 0 = 0 := by
  unfold ryb_hue_to_hsv_hue
  rw [rt0_rgb]
  dsimp only
  unfold srgb_to_hsv
  dsimp only
  rw [show (((255:ℤ):ℝ) / 255) = 1 by norm_num,
    show (((0:ℤ):ℝ) / 255) = 0 by norm_num]
  rw [show clamp (1:ℝ) 0 1 = 1 by norm_num [clamp],
    show clamp (0:ℝ) 0 1 = 0 by norm_num [clamp]]
  rw [show max (1:ℝ) (max 0 0) = 1 by
      rw [max_eq_left (by norm_num : (0:ℝ) ≤ 0),
        max_eq_left (by norm_num : (0:ℝ) ≤ 1)],
    show min (1:ℝ) (min 0 0) = 0 by
      rw [min_eq_right (by norm_num : (0:ℝ) ≤ 0),
        min_eq_right (by norm_num : (0:ℝ) ≤ 1)]]
  rw [if_neg (by norm_num), if_pos rfl]
  rw [show ((0:ℝ) - 0) / (1 - 0) = 0 by norm_num]
  rw [pymod_eq_self 0 6 (by norm_num) (by norm_num) (by norm_num)]
  rw [show (60:ℝ) * 0 = 0 by norm_num]
  exact mod360_eq_self 0 (by norm_num) (by norm_num)

theorem rt0_hsv : hsv_to_srgb 0 1 1 = (1, 0, 0) := by
  unfold hsv_to_srgb
  dsimp only
  rw [mod360_eq_self 0 (by norm_num) (by norm_num)]
  rw [show clamp (1:ℝ) 0 1 = 1 by norm_num [clamp]]
  rw [show (0:ℝ) / 60 = 0 by norm_num]
  rw [pymod_eq_self 0 2 (by norm_num) (by norm_num) (by norm_num)]
  rw [if_pos (show (0:ℝ) ≤ 0 ∧ (0:ℝ) < 1 by constructor <;> norm_num)]
  norm_num

theorem rt0_bwd : hsv_hue_to_ryb_hue 0 = 0 := by
  unfold hsv_hue_to_ryb_hue
  rw [rt0_hsv]
  dsimp only
  rw [show (1:ℝ) * 255 = 255 by norm_num, show (0:ℝ) * 255 = 0 by norm_num]
  rw [pyround_eq 255 255 (by norm_num) (by norm_num),
    pyround_eq 0 0 (by norm_num) (by norm_num)]
  unfold rgb_to_ryb_hsv
  dsimp only
  rw [show clamp ((255:ℤ):ℝ) 0 255 = 255 by push_cast; norm_num [clamp],
    show clamp ((0:ℤ):ℝ) 0 255 = 0 by push_cast; norm_num [clamp]]
  rw [pyround_eq 255 255 (by norm_num) (by norm_num),
    pyround_eq 0 0 (by norm_num) (by norm_num)]
  rw [if_neg (by decide)]
  rw [show (max 255 (max 0 0) : ℤ) = 255 by decide,
    show (min 255 (min 0 0) : ℤ) = 0 by decide]
  rw [if_pos rfl, if_pos rfl]
  dsimp only
  rw [if_pos rfl]
  unfold segment_factor_inverse
  rw [if_pos rfl]
  dsimp only [seg_interp, seg_anchor_a, anchor_ryb]

theorem rt0 : |hsv_hue_to_ryb_hue (ryb_hue_to_hsv_hue 0) - 0| ≤ 1 := by
  rw [rt0_fwd, rt0_bwd]
  norm_num

-- ===== hue 60 =====

theorem rt60_rgb : ryb_hsv_to_rgb 60 1 1 = (255, 170, 0) := by
  have hm : mod360 (60:ℝ) = 60 := mod360_eq_self 60 (by norm_num) (by norm_num)
  have hseg : get_segment_for_ryb (60:ℝ) = SegId.h := by
    unfold get_segment_for_ryb
    rw [hm]
    dsimp only
    rw [if_pos (by norm_num)]
  have hfac : segment_factor SegId.h (60:ℝ) = 0.5 := by
    unfold segment_factor
    rw [hm]
    dsimp only [seg_coef]
    rw [if_neg (by norm_num)]
    rw [show (120 - (60:ℝ)) / 120 * (π/2) = π/4 by ring, Real.tan_pi_div_four]
    norm_num
  unfold ryb_hsv_to_rgb
  rw [hm]
  dsimp only
  rw [hseg]
  dsimp only [seg_interp, seg_anchor_a, anchor_rgb, seg_order]
  rw [hfac]
  rw [show clamp (1:ℝ) 0 1 = 1 by norm_num [clamp],
    show ((max 255 (max 0 0) : ℤ) : ℝ) = 255 by norm_num]
  unfold ryb_mid_forward
  rw [if_neg (by norm_num)]
  simp only [Prod.mk.injEq]
  refine ⟨?_, ?_, ?_⟩
  · rw [show clamp ((255:ℝ) * 1) 0 255 = 255 by norm_num [clamp]]
    exact pyround_eq _ 255 (by norm_num) (by norm_num)
  · rw [show ((255:ℝ) * 1 + 255 * 1 * (1 - 1) * 0.5) / (1 + 0.5) = 170 by
      norm_num]
    rw [show clamp (170:ℝ) 0 255 = 170 by norm_num [clamp]]
    exact pyround_eq _ 170 (by norm_num) (by norm_num)
  · rw [show clamp ((255:ℝ) * 1 * (1 - 1)) 0 255 = 0 by norm_num [clamp]]
    exact pyround_eq _ 0 (by norm_num) (by norm_num)

theorem rt60_fwd : ryb_hue_to_hsv_hue 60 = 60 * (170 / 255) := by
  unfold ryb_hue_to_hsv_hue
  rw [rt60_rgb]
  dsimp only
  unfold srgb_to_hsv
  dsimp only
  rw [show (((255:ℤ):ℝ) / 255) = 1 by norm_num,
    show (((170:ℤ):ℝ) / 255) = 170 / 255 by norm_num,
    show (((0:ℤ):ℝ) / 255) = 0 by norm_num]
  rw [show clamp (1:ℝ) 0 1 = 1 by norm_num [clamp],
    show clamp ((170:ℝ)/255) 0 1 = 170/255 by norm_num [clamp],
    show clamp (0:ℝ) 0 1 = 0 by norm_num [clamp]]
  rw [show max (1:ℝ) (max (170/255) 0) = 1 by
      rw [max_eq_left (by norm_num : (0:ℝ) ≤ 170/255),
        max_eq_left (by norm_num : (170:ℝ)/255 ≤ 1)],
    show min (1:ℝ) (min (170/255) 0) = 0 by
      rw [min_eq_right (by norm_num : (0:ℝ) ≤ 170/255),
        min_eq_right (by norm_num : (0:ℝ) ≤ 1)]]
  rw [if_neg (by norm_num), if_pos rfl]
  rw [show ((170:ℝ)/255 - 0) / (1 - 0) = 170/255 by norm_num]
  rw [pymod_eq_self (170/255) 6 (by norm_num) (by norm_num) (by norm_num)]
  exact mod360_eq_self _ (by norm_num) (by norm_num)

theorem rt60_hsv : hsv_to_srgb (60 * (170/255)) 1 1 = (1, 170/255, 0) := by
  unfold hsv_to_srgb
  dsimp only
  rw [mod360_eq_self _ (by norm_num) (by norm_num)]
  rw [show clamp (1:ℝ) 0 1 = 1 by norm_num [clamp]]
  rw [show (60 * ((170:ℝ)/255)) / 60 = 170/255 by norm_num]
  rw [pymod_eq_self (170/255) 2 (by norm_num) (by norm_num) (by norm_num)]
  rw [if_pos (show (0:ℝ) ≤ 170/255 ∧ (170:ℝ)/255 < 1 by
    constructor <;> norm_num)]
  rw [show |((170:ℝ)/255) - 1| = 1 - 170/255 by
    rw [abs_of_nonpos (by norm_num)]; ring]
  norm_num

theorem rt60_bwd : hsv_hue_to_ryb_hue (60 * (170/255)) =
    120 - Real.arctan 1 * 120 / (π/2) := by
  unfold hsv_hue_to_ryb_hue
  rw [rt60_hsv]
  dsimp only
  rw [show (1:ℝ) * 255 = 255 by norm_num,
    show ((170:ℝ)/255) * 255 = 170 by norm_num,
    show (0:ℝ) * 255 = 0 by norm_num]
  rw [pyround_eq 255 255 (by norm_num) (by norm_num),
    pyround_eq 170 170 (by norm_num) (by norm_num),
    pyround_eq 0 0 (by norm_num) (by norm_num)]
  unfold rgb_to_ryb_hsv
  dsimp only
  rw [show clamp ((255:ℤ):ℝ) 0 255 = 255 by push_cast; norm_num [clamp],
    show clamp ((170:ℤ):ℝ) 0 255 = 170 by push_cast; norm_num [clamp],
    show clamp ((0:ℤ):ℝ) 0 255 = 0 by push_cast; norm_num [clamp]]
  rw [pyround_eq 255 255 (by norm_num) (by norm_num),
    pyround_eq 170 170 (by norm_num) (by norm_num),
    pyround_eq 0 0 (by norm_num) (by norm_num)]
  rw [if_neg (by decide)]
  rw [show (max 255 (max 170 0) : ℤ) = 255 by decide,
    show (min 255 (min 170 0) : ℤ) = 0 by decide]
  rw [if_pos rfl, if_pos rfl]
  dsimp only
  rw [if_neg (by decide)]
  rw [show (((255:ℤ):ℝ) - ((170:ℤ):ℝ)) / (((170:ℤ):ℝ) - ((0:ℤ):ℝ)) = 1/2
    by push_cast; norm_num]
  unfold segment_factor_inverse
  rw [if_neg (by norm_num)]
  dsimp only [seg_coef]
  rw [show ((1:ℝ)/2) / 0.5 = 1 by norm_num]

theorem rt60 : |hsv_hue_to_ryb_hue (ryb_hue_to_hsv_hue 60) - 60| ≤ 1 := by
  rw [rt60_fwd, rt60_bwd, Real.arctan_one]
  have hpi : π ≠ 0 := Real.pi_ne_zero
  rw [show π/4 * 120 / (π/2) = 60 by field_simp; ring]
  norm_num

-- ===== hue 90 =====

theorem rt90_rgb : ryb_hsv_to_rgb 90 1 1 = (255, 211, 0) := by
  have hm : mod360 (90:ℝ) = 90 := mod360_eq_self 90 (by norm_num) (by norm_num)
  have hseg : get_segment_for_ryb (90:ℝ) = SegId.h := by
    unfold get_segment_for_ryb
    rw [hm]
    dsimp only
    rw [if_pos (by norm_num)]
  have hfac : segment_factor SegId.h (90:ℝ) = (Real.sqrt 2 - 1) * 0.5 := by
    unfold segment_factor
    rw [hm]
    dsimp only [seg_coef]
    rw [if_neg (by norm_num)]
    rw [show (120 - (90:ℝ)) / 120 * (π/2) = π/8 by ring, tan_pi_div_eight_eq]
  have hb := sqrt_two_bounds
  have hden : (0:ℝ) < 1 + (Real.sqrt 2 - 1) * 0.5 := by nlinarith
  unfold ryb_hsv_to_rgb
  rw [hm]
  dsimp only
  rw [hseg]
  dsimp only [seg_interp, seg_anchor_a, anchor_rgb, seg_order]
  rw [hfac]
  rw [show clamp (1:ℝ) 0 1 = 1 by norm_num [clamp],
    show ((max 255 (max 0 0) : ℤ) : ℝ) = 255 by norm_num]
  unfold ryb_mid_forward
  rw [if_neg (by intro hcon; nlinarith)]
  simp only [Prod.mk.injEq]
  refine ⟨?_, ?_, ?_⟩
  · rw [show clamp ((255:ℝ) * 1) 0 255 = 255 by norm_num [clamp]]
    exact pyround_eq _ 255 (by norm_num) (by norm_num)
  · rw [show ((255:ℝ) * 1 + 255 * 1 * (1 - 1) * ((Real.sqrt 2 - 1) * 0.5)) /
        (1 + (Real.sqrt 2 - 1) * 0.5) = 255 / (1 + (Real.sqrt 2 - 1) * 0.5) by
      ring_nf]
    have hmdlo : (210.5:ℝ) < 255 / (1 + (Real.sqrt 2 - 1) * 0.5) := by
      rw [lt_div_iff hden]
      nlinarith
    have hmdhi : (255:ℝ) / (1 + (Real.sqrt 2 - 1) * 0.5) < 211.5 := by
      rw [div_lt_iff hden]
      nlinarith
    rw [show clamp ((255:ℝ) / (1 + (Real.sqrt 2 - 1) * 0.5)) 0 255 =
        255 / (1 + (Real.sqrt 2 - 1) * 0.5) by
      unfold clamp
      rw [if_neg (by push_neg; positivity), if_neg (by push_neg; linarith)]]
    exact pyround_eq _ 211 (by push_cast; linarith) (by push_cast; linarith)
  · rw [show clamp ((255:ℝ) * 1 * (1 - 1)) 0 255 = 0 by norm_num [clamp]]
    exact pyround_eq _ 0 (by norm_num) (by norm_num)

theorem rt90_fwd : ryb_hue_to_hsv_hue 90 = 60 * (211 / 255) := by
  unfold ryb_hue_to_hsv_hue
  rw [rt90_rgb]
  dsimp only
  unfold srgb_to_hsv
  dsimp only
  rw [show (((255:ℤ):ℝ) / 255) = 1 by norm_num,
    show (((211:ℤ):ℝ) / 255) = 211 / 255 by norm_num,
    show (((0:ℤ):ℝ) / 255) = 0 by norm_num]
  rw [show clamp (1:ℝ) 0 1 = 1 by norm_num [clamp],
    show clamp ((211:ℝ)/255) 0 1 = 211/255 by norm_num [clamp],
    show clamp (0:ℝ) 0 1 = 0 by norm_num [clamp]]
  rw [show max (1:ℝ) (max (211/255) 0) = 1 by
      rw [max_eq_left (by norm_num : (0:ℝ) ≤ 211/255),
        max_eq_left (by norm_num : (211:ℝ)/255 ≤ 1)],
    show min (1:ℝ) (min (211/255) 0) = 0 by
      rw [min_eq_right (by norm_num : (0:ℝ) ≤ 211/255),
        min_eq_right (by norm_num : (0:ℝ) ≤ 1)]]
  rw [if_neg (by norm_num), if_pos rfl]
  rw [show ((211:ℝ)/255 - 0) / (1 - 0) = 211/255 by norm_num]
  rw [pymod_eq_self (211/255) 6 (by norm_num) (by norm_num) (by norm_num)]
  exact mod360_eq_self _ (by norm_num) (by norm_num)

theorem rt90_hsv : hsv_to_srgb (60 * (211/255)) 1 1 = (1, 211/255, 0) := by
  unfold hsv_to_srgb
  dsimp only
  rw [mod360_eq_self _ (by norm_num) (by norm_num)]
  rw [show clamp (1:ℝ) 0 1 = 1 by norm_num [clamp]]
  rw [show (60 * ((211:ℝ)/255)) / 60 = 211/255 by norm_num]
  rw [pymod_eq_self (211/255) 2 (by norm_num) (by norm_num) (by norm_num)]
  rw [if_pos (show (0:ℝ) ≤ 211/255 ∧ (211:ℝ)/255 < 1 by
    constructor <;> norm_num)]
  rw [show |((211:ℝ)/255) - 1| = 1 - 211/255 by
    rw [abs_of_nonpos (by norm_num)]; ring]
  norm_num

theorem rt90_bwd : hsv_hue_to_ryb_hue (60 * (211/255)) =
    120 - Real.arctan (88/211) * 120 / (π/2) := by
  unfold hsv_hue_to_ryb_hue
  rw [rt90_hsv]
  dsimp only
  rw [show (1:ℝ) * 255 = 255 by norm_num,
    show ((211:ℝ)/255) * 255 = 211 by norm_num,
    show (0:ℝ) * 255 = 0 by norm_num]
  rw [pyround_eq 255 255 (by norm_num) (by norm_num),
    pyround_eq 211 211 (by norm_num) (by norm_num),
    pyround_eq 0 0 (by norm_num) (by norm_num)]
  unfold rgb_to_ryb_hsv
  dsimp only
  rw [show clamp ((255:ℤ):ℝ) 0 255 = 255 by push_cast; norm_num [clamp],
    show clamp ((211:ℤ):ℝ) 0 255 = 211 by push_cast; norm_num [clamp],
    show clamp ((0:ℤ):ℝ) 0 255 = 0 by push_cast; norm_num [clamp]]
  rw [pyround_eq 255 255 (by norm_num) (by norm_num),
    pyround_eq 211 211 (by norm_num) (by norm_num),
    pyround_eq 0 0 (by norm_num) (by norm_num)]
  rw [if_neg (by decide)]
  rw [show (max 255 (max 211 0) : ℤ) = 255 by decide,
    show (min 255 (min 211 0) : ℤ) = 0 by decide]
  rw [if_pos rfl, if_pos rfl]
  dsimp only
  rw [if_neg (by decide)]
  rw [show (((255:ℤ):ℝ) - ((211:ℤ):ℝ)) / (((211:ℤ):ℝ) - ((0:ℤ):ℝ)) = 44/211
    by push_cast; norm_num]
  unfold segment_factor_inverse
  rw [if_neg (by norm_num)]
  dsimp only [seg_coef]
  rw [show ((44:ℝ)/211) / 0.5 = 88/211 by norm_num]

theorem rt90 : |hsv_hue_to_ryb_hue (ryb_hue_to_hsv_hue 90) - 90| ≤ 1 := by
  rw [rt90_fwd, rt90_bwd]
  have hpi := Real.pi_gt_d6
  have hpi' := Real.pi_lt_d6
  have hpi0 : (0:ℝ) < π := by linarith
  have ha1 : (0.3797:ℝ) < Real.arctan (88/211) :=
    arctan_gt_of_sq _ _ (by norm_num) (by norm_num) (by norm_num)
  have ha2 : Real.arctan (88/211) < 0.4057 :=
    arctan_lt_of_sq _ _ 0.3850 (by norm_num) (by norm_num) (by norm_num)
      (by norm_num) (by norm_num) (by norm_num) (by norm_num)
  set a := Real.arctan (88/211) with ha
  have key : 120 - a * 120 / (π/2) - 90 = 30 - 240 * a / π := by
    field_simp
    ring
  rw [abs_le, key]
  constructor
  · have h2 : 240 * a / π ≤ (31:ℝ) := by
      rw [div_le_iff hpi0]
      nlinarith
    linarith
  · have h1 : (29:ℝ) ≤ 240 * a / π := by
      rw [le_div_iff hpi0]
      nlinarith
    linarith

-- ===== hue 120 =====

theorem rt120_rgb : ryb_hsv_to_rgb 120 1 1 = (255, 255, 0) := by
  have hm : mod360 (120:ℝ) = 120 :=
    mod360_eq_self 120 (by norm_num) (by norm_num)
  have hseg : get_segment_for_ryb (120:ℝ) = SegId.c := by
    unfold get_segment_for_ryb
    rw [hm]
    dsimp only
    rw [if_neg (by norm_num), if_pos (by norm_num)]
  have hfac : segment_factor SegId.c (120:ℝ) = 0 := by
    unfold segment_factor
    rw [hm]
    dsimp only [seg_coef]
    rw [if_neg (by norm_num)]
    rw [show ((120:ℝ) - 120) / 60 * (π/2) = 0 by ring, Real.tan_zero]
    norm_num
  unfold ryb_hsv_to_rgb
  rw [hm]
  dsimp only
  rw [hseg]
  dsimp only [seg_interp, seg_anchor_a, anchor_rgb, seg_order]
  rw [hfac]
  rw [show clamp (1:ℝ) 0 1 = 1 by norm_num [clamp],
    show ((max 255 (max 255 0) : ℤ) : ℝ) = 255 by norm_num]
  unfold ryb_mid_inverse
  rw [if_neg (by norm_num)]
  simp only [Prod.mk.injEq]
  refine ⟨?_, ?_, ?_⟩
  · rw [show ((255:ℝ) * 1 + 255 * 1 * (1 - 1) * 0) / (1 + 0) = 255 by
      norm_num]
    rw [show clamp (255:ℝ) 0 255 = 255 by norm_num [clamp]]
    exact pyround_eq _ 255 (by norm_num) (by norm_num)
  · rw [show clamp ((255:ℝ) * 1) 0 255 = 255 by norm_num [clamp]]
    exact pyround_eq _ 255 (by norm_num) (by norm_num)
  · rw [show clamp ((255:ℝ) * 1 * (1 - 1)) 0 255 = 0 by norm_num [clamp]]
    exact pyround_eq _ 0 (by norm_num) (by norm_num)

theorem rt120_fwd : ryb_hue_to_hsv_hue 120 = 60 * 1 := by
  unfold ryb_hue_to_hsv_hue
  rw [rt120_rgb]
  dsimp only
  unfold srgb_to_hsv
  dsimp only
  rw [show (((255:ℤ):ℝ) / 255) = 1 by norm_num,
    show (((0:ℤ):ℝ) / 255) = 0 by norm_num]
  rw [show clamp (1:ℝ) 0 1 = 1 by norm_num [clamp],
    show clamp (0:ℝ) 0 1 = 0 by norm_num [clamp]]
  rw [show max (1:ℝ) (max 1 0) = 1 by
      rw [max_eq_left (by norm_num : (0:ℝ) ≤ 1),
        max_eq_left (by norm_num : (1:ℝ) ≤ 1)],
    show min (1:ℝ) (min 1 0) = 0 by
      rw [min_eq_right (by norm_num : (0:ℝ) ≤ 1),
        min_eq_right (by norm_num : (0:ℝ) ≤ 1)]]
  rw [if_neg (by norm_num), if_pos rfl]
  rw [show ((1:ℝ) - 0) / (1 - 0) = 1 by norm_num]
  rw [pymod_eq_self 1 6 (by norm_num) (by norm_num) (by norm_num)]
  exact mod360_eq_self _ (by norm_num) (by norm_num)

theorem rt120_hsv : hsv_to_srgb (60 * 1) 1 1 = (1, 1, 0) := by
  unfold hsv_to_srgb
  dsimp only
  rw [mod360_eq_self _ (by norm_num) (by norm_num)]
  rw [show clamp (1:ℝ) 0 1 = 1 by norm_num [clamp]]
  rw [show (60 * (1:ℝ)) / 60 = 1 by norm_num]
  rw [pymod_eq_self 1 2 (by norm_num) (by norm_num) (by norm_num)]
  rw [if_neg (by norm_num), if_pos (show (1:ℝ) ≤ 1 ∧ (1:ℝ) < 2 by
    constructor <;> norm_num)]
  norm_num

theorem rt120_bwd : hsv_hue_to_ryb_hue (60 * 1) = 120 := by
  unfold hsv_hue_to_ryb_hue
  rw [rt120_hsv]
  dsimp only
  rw [show (1:ℝ) * 255 = 255 by norm_num, show (0:ℝ) * 255 = 0 by norm_num]
  rw [pyround_eq 255 255 (by norm_num) (by norm_num),
    pyround_eq 0 0 (by norm_num) (by norm_num)]
  unfold rgb_to_ryb_hsv
  dsimp only
  rw [show clamp ((255:ℤ):ℝ) 0 255 = 255 by push_cast; norm_num [clamp],
    show clamp ((0:ℤ):ℝ) 0 255 = 0 by push_cast; norm_num [clamp]]
  rw [pyround_eq 255 255 (by norm_num) (by norm_num),
    pyround_eq 0 0 (by norm_num) (by norm_num)]
  rw [if_neg (by decide)]
  rw [show (max 255 (max 255 0) : ℤ) = 255 by decide,
    show (min 255 (min 255 0) : ℤ) = 0 by decide]
  rw [if_pos rfl, if_pos rfl]
  dsimp only
  rw [if_neg (by decide)]
  rw [show (((255:ℤ):ℝ) - ((255:ℤ):ℝ)) / (((255:ℤ):ℝ) - ((0:ℤ):ℝ)) = 0
    by push_cast; norm_num]
  unfold segment_factor_inverse
  rw [if_neg (by norm_num)]
  dsimp only [seg_coef]
  rw [show (0:ℝ) / 0.5 = 0 by norm_num, Real.arctan_zero]
  norm_num

theorem rt120 : |hsv_hue_to_ryb_hue (ryb_hue_to_hsv_hue 120) - 120| ≤ 1 := by
  rw [rt120_fwd, rt120_bwd]
  norm_num

-- ===== hue 180 =====

theorem rt180_rgb : ryb_hsv_to_rgb 180 1 1 = (0, 255, 0) := by
  have hm : mod360 (180:ℝ) = 180 :=
    mod360_eq_self 180 (by norm_num) (by norm_num)
  have hseg : get_segment_for_ryb (180:ℝ) = SegId.a := by
    unfold get_segment_for_ryb
    rw [hm]
    dsimp only
    rw [if_neg (by norm_num), if_neg (by norm_num), if_pos (by norm_num)]
  have hfac : segment_factor SegId.a (180:ℝ) = -1 := by
    unfold segment_factor
    rw [hm]
    dsimp only [seg_coef]
    rw [if_pos rfl]
  unfold ryb_hsv_to_rgb
  rw [hm]
  dsimp only
  rw [hseg]
  dsimp only [seg_interp, seg_anchor_a, anchor_rgb, seg_order]
  rw [hfac]
  unfold ryb_mid_forward
  rw [if_pos rfl]
  rw [show clamp (1:ℝ) 0 1 = 1 by norm_num [clamp],
    show ((max 0 (max 255 0) : ℤ) : ℝ) = 255 by norm_num]
  simp only [Prod.mk.injEq]
  refine ⟨?_, ?_, ?_⟩
  · rw [show clamp ((255:ℝ) * 1 * (1 - 1)) 0 255 = 0 by norm_num [clamp]]
    exact pyround_eq _ 0 (by norm_num) (by norm_num)
  · rw [show clamp ((255:ℝ) * 1) 0 255 = 255 by norm_num [clamp]]
    exact pyround_eq _ 255 (by norm_num) (by norm_num)
  · rw [show clamp ((255:ℝ) * 1 * (1 - 1)) 0 255 = 0 by norm_num [clamp]]
    exact pyround_eq _ 0 (by norm_num) (by norm_num)

theorem rt180_fwd : ryb_hue_to_hsv_hue 180 = 60 * 2 := by
  unfold ryb_hue_to_hsv_hue
  rw [rt180_rgb]
  dsimp only
  unfold srgb_to_hsv
  dsimp only
  rw [show (((255:ℤ):ℝ) / 255) = 1 by norm_num,
    show (((0:ℤ):ℝ) / 255) = 0 by norm_num]
  rw [show clamp (1:ℝ) 0 1 = 1 by norm_num [clamp],
    show clamp (0:ℝ) 0 1 = 0 by norm_num [clamp]]
  rw [show max (0:ℝ) (max 1 0) = 1 by
      rw [max_eq_left (by norm_num : (0:ℝ) ≤ 1),
        max_eq_right (by norm_num : (0:ℝ) ≤ 1)],
    show min (0:ℝ) (min 1 0) = 0 by
      rw [min_eq_right (by norm_num : (0:ℝ) ≤ 1),
        min_eq_left (by norm_num : (0:ℝ) ≤ 0)]]
  rw [if_neg (by norm_num), if_neg (by norm_num), if_pos rfl]
  rw [show ((0:ℝ) - 0) / (1 - 0) + 2 = 2 by norm_num]
  exact mod360_eq_self _ (by norm_num) (by norm_num)

theorem rt180_hsv : hsv_to_srgb (60 * 2) 1 1 = (0, 1, 0) := by
  unfold hsv_to_srgb
  dsimp only
  rw [mod360_eq_self _ (by norm_num) (by norm_num)]
  rw [show clamp (1:ℝ) 0 1 = 1 by norm_num [clamp]]
  rw [show (60 * (2:ℝ)) / 60 = 2 by norm_num]
  rw [pymod_eval 2 2 1 (by norm_num) (by norm_num) (by norm_num)]
  rw [show (2:ℝ) - 2 * ((1:ℤ):ℝ) = 0 by push_cast; ring]
  rw [if_neg (by norm_num), if_neg (by norm_num),
    if_pos (show (2:ℝ) ≤ 2 ∧ (2:ℝ) < 3 by constructor <;> norm_num)]
  norm_num

theorem rt180_bwd : hsv_hue_to_ryb_hue (60 * 2) = 180 := by
  unfold hsv_hue_to_ryb_hue
  rw [rt180_hsv]
  dsimp only
  rw [show (1:ℝ) * 255 = 255 by norm_num, show (0:ℝ) * 255 = 0 by norm_num]
  rw [pyround_eq 255 255 (by norm_num) (by norm_num),
    pyround_eq 0 0 (by norm_num) (by norm_num)]
  unfold rgb_to_ryb_hsv
  dsimp only
  rw [show clamp ((255:ℤ):ℝ) 0 255 = 255 by push_cast; norm_num [clamp],
    show clamp ((0:ℤ):ℝ) 0 255 = 0 by push_cast; norm_num [clamp]]
  rw [pyround_eq 255 255 (by norm_num) (by norm_num),
    pyround_eq 0 0 (by norm_num) (by norm_num)]
  rw [if_neg (by decide)]
  rw [show (max 0 (max 255 0) : ℤ) = 255 by decide,
    show (min 0 (min 255 0) : ℤ) = 0 by decide]
  rw [if_neg (by decide), if_pos rfl, if_pos rfl]
  dsimp only
  rw [if_pos rfl]
  unfold segment_factor_inverse
  rw [if_pos rfl]
  dsimp only [seg_interp, seg_anchor_a, anchor_ryb]

theorem rt180 : |hsv_hue_to_ryb_hue (ryb_hue_to_hsv_hue 180) - 180| ≤ 1 := by
  rw [rt180_fwd, rt180_bwd]
  norm_num

-- ===== hue 240 =====

theorem rt240_rgb : ryb_hsv_to_rgb 240 1 1 = (0, 77, 255) := by
  have hm : mod360 (240:ℝ) = 240 :=
    mod360_eq_self 240 (by norm_num) (by norm_num)
  have hseg : get_segment_for_ryb (240:ℝ) = SegId.o := by
    unfold get_segment_for_ryb
    rw [hm]
    dsimp only
    rw [if_neg (by norm_num), if_neg (by norm_num), if_neg (by norm_num),
      if_pos (by norm_num)]
  have hfac : segment_factor SegId.o (240:ℝ) = Real.sqrt 3 * 1.33 := by
    unfold segment_factor
    rw [hm]
    dsimp only [seg_coef]
    rw [if_neg (by norm_num)]
    rw [show ((240:ℝ) - 210) / 45 * (π/2) = π/3 by ring,
      Real.tan_pi_div_three]
  have hb := sqrt_three_bounds
  have hden : (0:ℝ) < 1 + Real.sqrt 3 * 1.33 := by nlinarith
  unfold ryb_hsv_to_rgb
  rw [hm]
  dsimp only
  rw [hseg]
  dsimp only [seg_interp, seg_anchor_a, anchor_rgb, seg_order]
  rw [hfac]
  rw [show clamp (1:ℝ) 0 1 = 1 by norm_num [clamp],
    show ((max 0 (max 255 255) : ℤ) : ℝ) = 255 by norm_num]
  unfold ryb_mid_inverse
  rw [if_neg (by intro hcon; nlinarith)]
  simp only [Prod.mk.injEq]
  refine ⟨?_, ?_, ?_⟩
  · rw [show clamp ((255:ℝ) * 1 * (1 - 1)) 0 255 = 0 by norm_num [clamp]]
    exact pyround_eq _ 0 (by norm_num) (by norm_num)
  · rw [show ((255:ℝ) * 1 + 255 * 1 * (1 - 1) * (Real.sqrt 3 * 1.33)) /
        (1 + Real.sqrt 3 * 1.33) = 255 / (1 + Real.sqrt 3 * 1.33) by
      ring_nf]
    have hmdlo : (76.5:ℝ) < 255 / (1 + Real.sqrt 3 * 1.33) := by
      rw [lt_div_iff hden]
      nlinarith
    have hmdhi : (255:ℝ) / (1 + Real.sqrt 3 * 1.33) < 77.5 := by
      rw [div_lt_iff hden]
      nlinarith
    rw [show clamp ((255:ℝ) / (1 + Real.sqrt 3 * 1.33)) 0 255 =
        255 / (1 + Real.sqrt 3 * 1.33) by
      unfold clamp
      rw [if_neg (by push_neg; positivity), if_neg (by push_neg; linarith)]]
    exact pyround_eq _ 77 (by push_cast; linarith) (by push_cast; linarith)
  · rw [show clamp ((255:ℝ) * 1) 0 255 = 255 by norm_num [clamp]]
    exact pyround_eq _ 255 (by norm_num) (by norm_num)

theorem rt240_fwd : ryb_hue_to_hsv_hue 240 = 60 * (943 / 255) := by
  unfold ryb_hue_to_hsv_hue
  rw [rt240_rgb]
  dsimp only
  unfold srgb_to_hsv
  dsimp only
  rw [show (((0:ℤ):ℝ) / 255) = 0 by norm_num,
    show (((77:ℤ):ℝ) / 255) = 77 / 255 by norm_num,
    show (((255:ℤ):ℝ) / 255) = 1 by norm_num]
  rw [show clamp (0:ℝ) 0 1 = 0 by norm_num [clamp],
    show clamp ((77:ℝ)/255) 0 1 = 77/255 by norm_num [clamp],
    show clamp (1:ℝ) 0 1 = 1 by norm_num [clamp]]
  rw [show max (0:ℝ) (max (77/255) 1) = 1 by
      rw [max_eq_right (by norm_num : (77:ℝ)/255 ≤ 1),
        max_eq_right (by norm_num : (0:ℝ) ≤ 1)],
    show min (0:ℝ) (min (77/255) 1) = 0 by
      rw [min_eq_left (by norm_num : (77:ℝ)/255 ≤ 1),
        min_eq_left (by norm_num : (0:ℝ) ≤ 77/255)]]
  rw [if_neg (by norm_num), if_neg (by norm_num), if_neg (by norm_num)]
  rw [show ((0:ℝ) - 77/255) / (1 - 0) + 4 = 943/255 by norm_num]
  exact mod360_eq_self _ (by norm_num) (by norm_num)

theorem rt240_hsv : hsv_to_srgb (60 * (943/255)) 1 1 = (0, 77/255, 1) := by
  unfold hsv_to_srgb
  dsimp only
  rw [mod360_eq_self _ (by norm_num) (by norm_num)]
  rw [show clamp (1:ℝ) 0 1 = 1 by norm_num [clamp]]
  rw [show (60 * ((943:ℝ)/255)) / 60 = 943/255 by norm_num]
  rw [pymod_eval (943/255) 2 1 (by norm_num) (by norm_num) (by norm_num)]
  rw [show (943:ℝ)/255 - 2 * ((1:ℤ):ℝ) = 433/255 by push_cast; norm_num]
  rw [if_neg (by norm_num), if_neg (by norm_num), if_neg (by norm_num),
    if_pos (show (3:ℝ) ≤ 943/255 ∧ (943:ℝ)/255 < 4 by
      constructor <;> norm_num)]
  rw [show |((433:ℝ)/255) - 1| = 433/255 - 1 by
    rw [abs_of_nonneg (by norm_num)]]
  norm_num

theorem rt240_bwd : hsv_hue_to_ryb_hue (60 * (943/255)) =
    210 + Real.arctan (17800/10241) * 45 / (π/2) := by
  unfold hsv_hue_to_ryb_hue
  rw [rt240_hsv]
  dsimp only
  rw [show (0:ℝ) * 255 = 0 by norm_num,
    show ((77:ℝ)/255) * 255 = 77 by norm_num,
    show (1:ℝ) * 255 = 255 by norm_num]
  rw [pyround_eq 0 0 (by norm_num) (by norm_num),
    pyround_eq 77 77 (by norm_num) (by norm_num),
    pyround_eq 255 255 (by norm_num) (by norm_num)]
  unfold rgb_to_ryb_hsv
  dsimp only
  rw [show clamp ((0:ℤ):ℝ) 0 255 = 0 by push_cast; norm_num [clamp],
    show clamp ((77:ℤ):ℝ) 0 255 = 77 by push_cast; norm_num [clamp],
    show clamp ((255:ℤ):ℝ) 0 255 = 255 by push_cast; norm_num [clamp]]
  rw [pyround_eq 0 0 (by norm_num) (by norm_num),
    pyround_eq 77 77 (by norm_num) (by norm_num),
    pyround_eq 255 255 (by norm_num) (by norm_num)]
  rw [if_neg (by decide)]
  rw [show (max 0 (max 77 255) : ℤ) = 255 by decide,
    show (min 0 (min 77 255) : ℤ) = 0 by decide]
  rw [if_neg (by decide), if_neg (by decide), if_pos rfl]
  dsimp only
  rw [if_neg (by decide)]
  rw [show (((255:ℤ):ℝ) - ((77:ℤ):ℝ)) / (((77:ℤ):ℝ) - ((0:ℤ):ℝ)) = 178/77
    by push_cast; norm_num]
  unfold segment_factor_inverse
  rw [if_neg (by norm_num)]
  dsimp only [seg_coef]
  rw [show ((178:ℝ)/77) / 1.33 = 17800/10241 by norm_num]

theorem rt240 : |hsv_hue_to_ryb_hue (ryb_hue_to_hsv_hue 240) - 240| ≤ 1 := by
  rw [rt240_fwd, rt240_bwd]
  rw [show (17800:ℝ)/10241 = ((10241:ℝ)/17800)⁻¹ by norm_num,
    Real.arctan_inv_of_pos (by norm_num)]
  have hpi := Real.pi_gt_d6
  have hpi' := Real.pi_lt_d6
  have hpi0 : (0:ℝ) < π := by linarith
  have ha1 : (0.4986:ℝ) < Real.arctan (10241/17800) :=
    arctan_gt_of_sq _ _ (by norm_num) (by norm_num) (by norm_num)
  have ha2 : Real.arctan (10241/17800) < 0.5585 :=
    arctan_lt_of_sq _ _ 0.4988 (by norm_num) (by norm_num) (by norm_num)
      (by norm_num) (by norm_num) (by norm_num) (by norm_num)
  set a := Real.arctan (10241/17800) with ha
  have key : 210 + (π/2 - a) * 45 / (π/2) - 240 = 15 - 90 * a / π := by
    field_simp
    ring
  rw [abs_le, key]
  constructor
  · have h2 : 90 * a / π ≤ (16:ℝ) := by
      rw [div_le_iff hpi0]
      nlinarith
    linarith
  · have h1 : (14:ℝ) ≤ 90 * a / π := by
      rw [le_div_iff hpi0]
      nlinarith
    linarith

-- ===== hue 300 =====

theorem rt300_rgb : ryb_hsv_to_rgb 300 1 1 = (164, 0, 255) := by
  have hm : mod360 (300:ℝ) = 300 :=
    mod360_eq_self 300 (by norm_num) (by norm_num)
  have hseg : get_segment_for_ryb (300:ℝ) = SegId.n := by
    unfold get_segment_for_ryb
    rw [hm]
    dsimp only
    rw [if_neg (by norm_num), if_neg (by norm_num), if_neg (by norm_num),
      if_neg (by norm_num), if_pos (by norm_num)]
  have hfac : segment_factor SegId.n (300:ℝ) = (Real.sqrt 2 - 1) * 1.33 := by
    unfold segment_factor
    rw [hm]
    dsimp only [seg_coef]
    rw [if_neg (by norm_num)]
    rw [show (315 - (300:ℝ)) / 60 * (π/2) = π/8 by ring, tan_pi_div_eight_eq]
  have hb := sqrt_two_bounds
  have hden : (0:ℝ) < 1 + (Real.sqrt 2 - 1) * 1.33 := by nlinarith
  unfold ryb_hsv_to_rgb
  rw [hm]
  dsimp only
  rw [hseg]
  dsimp only [seg_interp, seg_anchor_a, anchor_rgb, seg_order]
  rw [hfac]
  rw [show clamp (1:ℝ) 0 1 = 1 by norm_num [clamp],
    show ((max 0 (max 0 255) : ℤ) : ℝ) = 255 by norm_num]
  unfold ryb_mid_forward
  rw [if_neg (by intro hcon; nlinarith)]
  simp only [Prod.mk.injEq]
  refine ⟨?_, ?_, ?_⟩
  · rw [show ((255:ℝ) * 1 + 255 * 1 * (1 - 1) * ((Real.sqrt 2 - 1) * 1.33)) /
        (1 + (Real.sqrt 2 - 1) * 1.33) =
        255 / (1 + (Real.sqrt 2 - 1) * 1.33) by ring_nf]
    have hmdlo : (163.5:ℝ) < 255 / (1 + (Real.sqrt 2 - 1) * 1.33) := by
      rw [lt_div_iff hden]
      nlinarith
    have hmdhi : (255:ℝ) / (1 + (Real.sqrt 2 - 1) * 1.33) < 164.5 := by
      rw [div_lt_iff hden]
      nlinarith
    rw [show clamp ((255:ℝ) / (1 + (Real.sqrt 2 - 1) * 1.33)) 0 255 =
        255 / (1 + (Real.sqrt 2 - 1) * 1.33) by
      unfold clamp
      rw [if_neg (by push_neg; positivity), if_neg (by push_neg; linarith)]]
    exact pyround_eq _ 164 (by push_cast; linarith) (by push_cast; linarith)
  · rw [show clamp ((255:ℝ) * 1 * (1 - 1)) 0 255 = 0 by norm_num [clamp]]
    exact pyround_eq _ 0 (by norm_num) (by norm_num)
  · rw [show clamp ((255:ℝ) * 1) 0 255 = 255 by norm_num [clamp]]
    exact pyround_eq _ 255 (by norm_num) (by norm_num)

theorem rt300_fwd : ryb_hue_to_hsv_hue 300 = 60 * (1184 / 255) := by
  unfold ryb_hue_to_hsv_hue
  rw [rt300_rgb]
  dsimp only
  unfold srgb_to_hsv
  dsimp only
  rw [show (((164:ℤ):ℝ) / 255) = 164 / 255 by norm_num,
    show (((0:ℤ):ℝ) / 255) = 0 by norm_num,
    show (((255:ℤ):ℝ) / 255) = 1 by norm_num]
  rw [show clamp ((164:ℝ)/255) 0 1 = 164/255 by norm_num [clamp],
    show clamp (0:ℝ) 0 1 = 0 by norm_num [clamp],
    show clamp (1:ℝ) 0 1 = 1 by norm_num [clamp]]
  rw [show max ((164:ℝ)/255) (max 0 1) = 1 by
      rw [max_eq_right (by norm_num : (0:ℝ) ≤ 1),
        max_eq_right (by norm_num : (164:ℝ)/255 ≤ 1)],
    show min ((164:ℝ)/255) (min 0 1) = 0 by
      rw [min_eq_left (by norm_num : (0:ℝ) ≤ 1),
        min_eq_right (by norm_num : (0:ℝ) ≤ 164/255)]]
  rw [if_neg (by norm_num), if_neg (by norm_num), if_neg (by norm_num)]
  rw [show ((164:ℝ)/255 - 0) / (1 - 0) + 4 = 1184/255 by norm_num]
  exact mod360_eq_self _ (by norm_num) (by norm_num)

theorem rt300_hsv : hsv_to_srgb (60 * (1184/255)) 1 1 = (164/255, 0, 1) := by
  unfold hsv_to_srgb
  dsimp only
  rw [mod360_eq_self _ (by norm_num) (by norm_num)]
  rw [show clamp (1:ℝ) 0 1 = 1 by norm_num [clamp]]
  rw [show (60 * ((1184:ℝ)/255)) / 60 = 1184/255 by norm_num]
  rw [pymod_eval (1184/255) 2 2 (by norm_num) (by norm_num) (by norm_num)]
  rw [show (1184:ℝ)/255 - 2 * ((2:ℤ):ℝ) = 164/255 by push_cast; norm_num]
  rw [if_neg (by norm_num), if_neg (by norm_num), if_neg (by norm_num),
    if_neg (by norm_num),
    if_pos (show (4:ℝ) ≤ 1184/255 ∧ (1184:ℝ)/255 < 5 by
      constructor <;> norm_num)]
  rw [show |((164:ℝ)/255) - 1| = 1 - 164/255 by
    rw [abs_of_nonpos (by norm_num)]; ring]
  norm_num

theorem rt300_bwd : hsv_hue_to_ryb_hue (60 * (1184/255)) =
    315 - Real.arctan (2275/5453) * 60 / (π/2) := by
  unfold hsv_hue_to_ryb_hue
  rw [rt300_hsv]
  dsimp only
  rw [show ((164:ℝ)/255) * 255 = 164 by norm_num,
    show (0:ℝ) * 255 = 0 by norm_num,
    show (1:ℝ) * 255 = 255 by norm_num]
  rw [pyround_eq 164 164 (by norm_num) (by norm_num),
    pyround_eq 0 0 (by norm_num) (by norm_num),
    pyround_eq 255 255 (by norm_num) (by norm_num)]
  unfold rgb_to_ryb_hsv
  dsimp only
  rw [show clamp ((164:ℤ):ℝ) 0 255 = 164 by push_cast; norm_num [clamp],
    show clamp ((0:ℤ):ℝ) 0 255 = 0 by push_cast; norm_num [clamp],
    show clamp ((255:ℤ):ℝ) 0 255 = 255 by push_cast; norm_num [clamp]]
  rw [pyround_eq 164 164 (by norm_num) (by norm_num),
    pyround_eq 0 0 (by norm_num) (by norm_num),
    pyround_eq 255 255 (by norm_num) (by norm_num)]
  rw [if_neg (by decide)]
  rw [show (max 164 (max 0 255) : ℤ) = 255 by decide,
    show (min 164 (min 0 255) : ℤ) = 0 by decide]
  rw [if_neg (by decide), if_neg (by decide), if_neg (by decide)]
  dsimp only
  rw [if_neg (by decide)]
  rw [show (((255:ℤ):ℝ) - ((164:ℤ):ℝ)) / (((164:ℤ):ℝ) - ((0:ℤ):ℝ)) = 91/164
    by push_cast; norm_num]
  unfold segment_factor_inverse
  rw [if_neg (by norm_num)]
  dsimp only [seg_coef]
  rw [show ((91:ℝ)/164) / 1.33 = 2275/5453 by norm_num]

theorem rt300 : |hsv_hue_to_ryb_hue (ryb_hue_to_hsv_hue 300) - 300| ≤ 1 := by
  rw [rt300_fwd, rt300_bwd]
  have hpi := Real.pi_gt_d6
  have hpi' := Real.pi_lt_d6
  have hpi0 : (0:ℝ) < π := by linarith
  have ha1 : (0.3666:ℝ) < Real.arctan (2275/5453) :=
    arctan_gt_of_sq _ _ (by norm_num) (by norm_num) (by norm_num)
  have ha2 : Real.arctan (2275/5453) < 0.4188 :=
    arctan_lt_of_sq _ _ 0.3851 (by norm_num) (by norm_num) (by norm_num)
      (by norm_num) (by norm_num) (by norm_num) (by norm_num)
  set a := Real.arctan (2275/5453) with ha
  have key : 315 - a * 60 / (π/2) - 300 = 15 - 120 * a / π := by
    field_simp
    ring
  rw [abs_le, key]
  constructor
  · have h2 : 120 * a / π ≤ (16:ℝ) := by
      rw [div_le_iff hpi0]
      nlinarith
    linarith
  · have h1 : (14:ℝ) ≤ 120 * a / π := by
      rw [le_div_iff hpi0]
      nlinarith
    linarith

/-- C7: for each RYB hue h in {0, 30, 60, 90, 120, 180, 240, 300}, the hue
round trip `hsv_hue_to_ryb_hue (ryb_hue_to_hsv_hue h)` lands within 1 degree
of h. -/
theorem c7_ryb_hue_roundtrip :
    |hsv_hue_to_ryb_hue (ryb_hue_to_hsv_hue 0) - 0| ≤ 1 ∧
    |hsv_hue_to_ryb_hue (ryb_hue_to_hsv_hue 30) - 30| ≤ 1 ∧
    |hsv_hue_to_ryb_hue (ryb_hue_to_hsv_hue 60) - 60| ≤ 1 ∧
    |hsv_hue_to_ryb_hue (ryb_hue_to_hsv_hue 90) - 90| ≤ 1 ∧
    |hsv_hue_to_ryb_hue (ryb_hue_to_hsv_hue 120) - 120| ≤ 1 ∧
    |hsv_hue_to_ryb_hue (ryb_hue_to_hsv_hue 180) - 180| ≤ 1 ∧
    |hsv_hue_to_ryb_hue (ryb_hue_to_hsv_hue 240) - 240| ≤ 1 ∧
    |hsv_hue_to_ryb_hue (ryb_hue_to_hsv_hue 300) - 300| ≤ 1 :=
  ⟨rt0, rt30, rt60, rt90, rt120, rt180, rt240, rt300⟩

-- ========== C10 ==========

/-- At C = 0 the linear sRGB conversion is exactly (L³, L³, L³): the
`oklab_to_linear_srgb` rows each sum to exactly 1. -/
theorem srgb_achromatic_in_gamut (L H : ℝ) (h0 : 0 ≤ L) (h1 : L ≤ 1) :
    cmax_in_gamut Gamut.srgb L 0 H = true := by
  unfold cmax_in_gamut oklch_to_linear_srgb oklch_to_oklab oklab_to_linear_srgb
    linear_rgb_in_gamut
  dsimp only
  rw [decide_eq_true_eq]
  have hcube0 : (0:ℝ) ≤ L ^ 3 := by positivity
  have hcube1 : L ^ 3 ≤ 1 := pow_le_one₀ h0 h1
  refine ⟨?_, ?_, ?_, ?_, ?_, ?_⟩ <;>
    [skip; skip; skip; skip; skip; skip] <;>
    nlinarith [sq_nonneg (Real.cos (deg_to_rad H)), hcube0, hcube1,
      sq_nonneg (Real.sin (deg_to_rad H))]

/-- The bisection loop keeps an in-gamut lower bound in gamut. -/
theorem cmax_bisect_in_gamut (g : Gamut) (L h : ℝ) :
    ∀ (n : ℕ) (lo hi : ℝ), cmax_in_gamut g L lo h = true →
      cmax_in_gamut g L (cmax_bisect g L h n (lo, hi)).1 h = true := by
  intro n
  induction n with
  | zero => intro lo hi hlo; exact hlo
  | succ m ih =>
      intro lo hi hlo
      unfold cmax_bisect
      dsimp only
      cases htest : cmax_in_gamut g L (0.5 * (lo + hi)) h with
      | true => rw [if_pos rfl]; exact ih _ _ htest
      | false => rw [if_neg Bool.false_ne_true]; exact ih _ _ hlo

/-- If every nonnegative chroma fails the gamut test, bisection from lo = 0
never moves the lower bound. -/
theorem cmax_bisect_zero (g : Gamut) (L h : ℝ)
    (hfail : ∀ C, 0 ≤ C → cmax_in_gamut g L C h = false) :
    ∀ (n : ℕ) (hi : ℝ), 0 ≤ hi → (cmax_bisect g L h n (0, hi)).1 = 0 := by
  intro n
  induction n with
  | zero => intro hi _; rfl
  | succ m ih =>
      intro hi hhi
      unfold cmax_bisect
      dsimp only
      rw [hfail (0.5 * (0 + hi)) (by linarith), if_neg Bool.false_ne_true]
      exact ih _ (by linarith)

/-- The growing loop stops immediately on an out-of-gamut start. -/
theorem cmax_grow_stop (g : Gamut) (L h : ℝ) (n : ℕ) (hi : ℝ)
    (hf : cmax_in_gamut g L hi h = false) : cmax_grow g L h (n + 1) hi = hi := by
  unfold cmax_grow
  rw [hf, if_neg Bool.false_ne_true]

/-- At L = 1, hue 0, every nonnegative chroma is outside the P3 gamut check:
the red channel is ≥ 1.00034 > 1 + 1e-6. -/
theorem p3_L1_h0_fail (C : ℝ) (hC : 0 ≤ C) :
    cmax_in_gamut Gamut.p3 1 C 0 = false := by
  unfold cmax_in_gamut oklch_in_p3_gamut oklch_to_linear_p3 oklch_to_oklab
    oklab_to_xyz xyz_to_linear_p3 linear_rgb_in_gamut
  dsimp only
  rw [show deg_to_rad 0 = 0 by unfold deg_to_rad; ring, Real.cos_zero,
    Real.sin_zero]
  rw [decide_eq_false_iff_not]
  intro hmem
  obtain ⟨_, hr, _⟩ := hmem
  nlinarith [hC, mul_nonneg hC hC, mul_nonneg (mul_nonneg hC hC) hC]

theorem c10_counterexample :
    oklch_in_p3_gamut 1 (cmax_for_L_h 1 0 Gamut.p3) 0 = false := by
  have hres : cmax_for_L_h 1 0 Gamut.p3 = 0 := by
    unfold cmax_for_L_h
    rw [show (8:ℕ) = 7 + 1 by norm_num,
      cmax_grow_stop Gamut.p3 1 0 7 0.5 (p3_L1_h0_fail 0.5 (by norm_num))]
    exact cmax_bisect_zero Gamut.p3 1 0 p3_L1_h0_fail 28 0.5 (by norm_num)
  rw [hres]
  have := p3_L1_h0_fail 0 le_rfl
  unfold cmax_in_gamut at this
  exact this

/-- C10: the chroma returned by `cmax_for_L_h` passes the gamut check it was
searched against whenever the achromatic color (L, 0, H) does; for the sRGB
gamut this holds unconditionally for every L in [0, 1] and every hue. (For P3
the unconditional claim fails, see the counterexample at L = 1.) -/
theorem c10_cmax_in_gamut :
    (∀ (L H : ℝ), 0 ≤ L → L ≤ 1 →
      cmax_in_gamut Gamut.srgb L (cmax_for_L_h L H Gamut.srgb) H = true) ∧
    (∀ (L H : ℝ) (g : Gamut), cmax_in_gamut g L 0 H = true →
      cmax_in_gamut g L (cmax_for_L_h L H g) H = true) := by
  constructor
  · intro L H h0 h1
    unfold cmax_for_L_h
    exact cmax_bisect_in_gamut Gamut.srgb L H 28 0 _
      (srgb_achromatic_in_gamut L H h0 h1)
  · intro L H g hin
    unfold cmax_for_L_h
    exact cmax_bisect_in_gamut g L H 28 0 _ hin

theorem c10_cmax_in_gamut_witness :
    ((0:ℝ) ≤ 1/2 ∧ (1/2:ℝ) ≤ 1 ∧
      cmax_in_gamut Gamut.srgb (1/2) (cmax_for_L_h (1/2) 0 Gamut.srgb) 0 =
        true) ∧
    cmax_in_gamut Gamut.srgb (1/2)
      (cmax_for_L_h (1/2) 90 Gamut.srgb) 90 = true :=
  ⟨⟨by norm_num, by norm_num,
    c10_cmax_in_gamut.1 (1/2) 0 (by norm_num) (by norm_num)⟩,
   c10_cmax_in_gamut.2 (1/2) 90 Gamut.srgb
     (srgb_achromatic_in_gamut (1/2) 90 (by norm_num) (by norm_num))⟩


-- ========== C6 ==========

/-- Cubing preserves order on all of ℝ. -/
theorem cube_le_cube (x y : ℝ) (h : x ≤ y) : x ^ 3 ≤ y ^ 3 := by
  nlinarith [sq_nonneg (x + y), sq_nonneg x, sq_nonneg y]

theorem c6ax0 (x y : ℝ) (h1 : (-((1:ℝ))) ≤ x) (h2 : x ≤ (-((3/4:ℝ))))
    (h3 : (-((1:ℝ))) ≤ y) (h4 : y ≤ (-((3/4:ℝ)))) (h5 : x ^ 2 + y ^ 2 ≤ (1:ℝ)) : False := by
  nlinarith [h5, mul_nonneg (sub_nonneg.2 h1) (sub_nonneg.2 h2),
    mul_nonneg (sub_nonneg.2 h3) (sub_nonneg.2 h4),
    sq_nonneg (x - (-((1:ℝ)))), sq_nonneg (x - (-((3/4:ℝ)))),
    sq_nonneg (y - (-((1:ℝ)))), sq_nonneg (y - (-((3/4:ℝ))))]

theorem c6ax1 (x y : ℝ) (h1 : (-((1:ℝ))) ≤ x) (h2 : x ≤ (-((7/8:ℝ))))
    (h3 : (-((3/4:ℝ))) ≤ y) (h4 : y ≤ (-((1/2:ℝ)))) (h5 : x ^ 2 + y ^ 2 ≤ (1:ℝ)) : False := by
  nlinarith [h5, mul_nonneg (sub_nonneg.2 h1) (sub_nonneg.2 h2),
    mul_nonneg (sub_nonneg.2 h3) (sub_nonneg.2 h4),
    sq_nonneg (x - (-((1:ℝ)))), sq_nonneg (x - (-((7/8:ℝ)))),
    sq_nonneg (y - (-((3/4:ℝ)))), sq_nonneg (y - (-((1/2:ℝ))))]

theorem c6ac2 (A B C : ℝ) (e0 : A ≤ (-(0.4051:ℝ)) ^ 3) (e1 : (0.1110:ℝ) ^ 3 ≤ B)
    (e2 : C ≤ (1.0470:ℝ) ^ 3) :
    (4.0767416621 * A - 3.3077115913 * B + 0.2309699292 * C) ≤ -(0.002) := by
  linarith

theorem c6ac3 (A B C : ℝ) (e0 : (-(0.5131:ℝ)) ^ 3 ≤ A) (e1 : B ≤ (0.1431:ℝ) ^ 3)
    (e2 : (1.0133:ℝ) ^ 3 ≤ C) :
    (-(1.2684380046 * A) + 2.6097574011 * B - 0.3413193965 * C) ≤ -(0.002) := by
  linarith

theorem c6ac4 (A B C : ℝ) (e0 : (-(0.4592:ℝ)) ^ 3 ≤ A) (e1 : B ≤ (0.1271:ℝ) ^ 3)
    (e2 : (0.8631:ℝ) ^ 3 ≤ C) :
    (-(1.2684380046 * A) + 2.6097574011 * B - 0.3413193965 * C) ≤ -(0.002) := by
  linarith

theorem c6ax5 (x y : ℝ) (h1 : (-((3/4:ℝ))) ≤ x) (h2 : x ≤ (-((5/8:ℝ))))
    (h3 : (-((5/8:ℝ))) ≤ y) (h4 : y ≤ (-((1/2:ℝ)))) (h5 : (1:ℝ) ≤ x ^ 2 + y ^ 2) : False := by
  nlinarith [h5, mul_nonneg (sub_nonneg.2 h1) (sub_nonneg.2 h2),
    mul_nonneg (sub_nonneg.2 h3) (sub_nonneg.2 h4),
    sq_nonneg (x - (-((3/4:ℝ)))), sq_nonneg (x - (-((5/8:ℝ)))),
    sq_nonneg (y - (-((5/8:ℝ)))), sq_nonneg (y - (-((1/2:ℝ))))]

theorem c6ax6 (x y : ℝ) (h1 : (-((5/8:ℝ))) ≤ x) (h2 : x ≤ (-((1/2:ℝ))))
    (h3 : (-((3/4:ℝ))) ≤ y) (h4 : y ≤ (-((1/2:ℝ)))) (h5 : (1:ℝ) ≤ x ^ 2 + y ^ 2) : False := by
  nlinarith [h5, mul_nonneg (sub_nonneg.2 h1) (sub_nonneg.2 h2),
    mul_nonneg (sub_nonneg.2 h3) (sub_nonneg.2 h4),
    sq_nonneg (x - (-((5/8:ℝ)))), sq_nonneg (x - (-((1/2:ℝ)))),
    sq_nonneg (y - (-((3/4:ℝ)))), sq_nonneg (y - (-((1/2:ℝ))))]

theorem c6ac7 (A B C : ℝ) (e0 : A ≤ (-(0.2972:ℝ)) ^ 3) (e1 : (0.0791:ℝ) ^ 3 ≤ B)
    (e2 : C ≤ (0.7353:ℝ) ^ 3) :
    (4.0767416621 * A - 3.3077115913 * B + 0.2309699292 * C) ≤ -(0.002) := by
  linarith

theorem c6ax8 (x y : ℝ) (h1 : (-((3/4:ℝ))) ≤ x) (h2 : x ≤ (-((1/2:ℝ))))
    (h3 : (-((1/2:ℝ))) ≤ y) (h4 : y ≤ (0:ℝ)) (h5 : (1:ℝ) ≤ x ^ 2 + y ^ 2) : False := by
  nlinarith [h5, mul_nonneg (sub_nonneg.2 h1) (sub_nonneg.2 h2),
    mul_nonneg (sub_nonneg.2 h3) (sub_nonneg.2 h4),
    sq_nonneg (x - (-((3/4:ℝ)))), sq_nonneg (x - (-((1/2:ℝ)))),
    sq_nonneg (y - (-((1/2:ℝ)))), sq_nonneg (y - (0:ℝ))]

theorem c6ac9 (A B C : ℝ) (e0 : (-(0.4140:ℝ)) ^ 3 ≤ A) (e1 : B ≤ (0.1167:ℝ) ^ 3)
    (e2 : (0.6681:ℝ) ^ 3 ≤ C) :
    (-(1.2684380046 * A) + 2.6097574011 * B - 0.3413193965 * C) ≤ -(0.002) := by
  linarith

theorem c6ac10 (A B C : ℝ) (e0 : (-(0.3149:ℝ)) ^ 3 ≤ A) (e1 : B ≤ (0.0903:ℝ) ^ 3)
    (e2 : (0.6457:ℝ) ^ 3 ≤ C) :
    (-(1.2684380046 * A) + 2.6097574011 * B - 0.3413193965 * C) ≤ -(0.002) := by
  linarith

theorem c6ax11 (x y : ℝ) (h1 : (-((1/2:ℝ))) ≤ x) (h2 : x ≤ (0:ℝ))
    (h3 : (-((1/2:ℝ))) ≤ y) (h4 : y ≤ (0:ℝ)) (h5 : (1:ℝ) ≤ x ^ 2 + y ^ 2) : False := by
  nlinarith [h5, mul_nonneg (sub_nonneg.2 h1) (sub_nonneg.2 h2),
    mul_nonneg (sub_nonneg.2 h3) (sub_nonneg.2 h4),
    sq_nonneg (x - (-((1/2:ℝ)))), sq_nonneg (x - (0:ℝ)),
    sq_nonneg (y - (-((1/2:ℝ)))), sq_nonneg (y - (0:ℝ))]

theorem c6ac12 (A B C : ℝ) (e0 : A ≤ (-(0.0902:ℝ)) ^ 3) (e1 : (0.0208:ℝ) ^ 3 ≤ B)
    (e2 : C ≤ (0.0895:ℝ) ^ 3) :
    (4.0767416621 * A - 3.3077115913 * B + 0.2309699292 * C) ≤ -(0.002) := by
  linarith

theorem c6ac13 (A B C : ℝ) (e0 : A ≤ (0.0177:ℝ) ^ 3) (e1 : (-(0.0111:ℝ)) ^ 3 ≤ B)
    (e2 : C ≤ (-(0.5562:ℝ)) ^ 3) :
    (4.0767416621 * A - 3.3077115913 * B + 0.2309699292 * C) ≤ -(0.002) := by
  linarith

theorem c6ax14 (x y : ℝ) (h1 : (-((1/2:ℝ))) ≤ x) (h2 : x ≤ (0:ℝ))
    (h3 : (0:ℝ) ≤ y) (h4 : y ≤ (1/2:ℝ)) (h5 : (1:ℝ) ≤ x ^ 2 + y ^ 2) : False := by
  nlinarith [h5, mul_nonneg (sub_nonneg.2 h1) (sub_nonneg.2 h2),
    mul_nonneg (sub_nonneg.2 h3) (sub_nonneg.2 h4),
    sq_nonneg (x - (-((1/2:ℝ)))), sq_nonneg (x - (0:ℝ)),
    sq_nonneg (y - (0:ℝ)), sq_nonneg (y - (1/2:ℝ))]

theorem c6ac15 (A B C : ℝ) (e0 : A ≤ (0.2159:ℝ) ^ 3) (e1 : (-(0.0639:ℝ)) ^ 3 ≤ B)
    (e2 : C ≤ (-(0.6010:ℝ)) ^ 3) :
    (4.0767416621 * A - 3.3077115913 * B + 0.2309699292 * C) ≤ -(0.002) := by
  linarith

theorem c6ac16 (A B C : ℝ) (e0 : (-(0.2159:ℝ)) ^ 3 ≤ A) (e1 : B ≤ (0.0639:ℝ) ^ 3)
    (e2 : (0.6010:ℝ) ^ 3 ≤ C) :
    (-(1.2684380046 * A) + 2.6097574011 * B - 0.3413193965 * C) ≤ -(0.002) := by
  linarith

theorem c6ax17 (x y : ℝ) (h1 : (0:ℝ) ≤ x) (h2 : x ≤ (1/2:ℝ))
    (h3 : (-((1/2:ℝ))) ≤ y) (h4 : y ≤ (0:ℝ)) (h5 : (1:ℝ) ≤ x ^ 2 + y ^ 2) : False := by
  nlinarith [h5, mul_nonneg (sub_nonneg.2 h1) (sub_nonneg.2 h2),
    mul_nonneg (sub_nonneg.2 h3) (sub_nonneg.2 h4),
    sq_nonneg (x - (0:ℝ)), sq_nonneg (x - (1/2:ℝ)),
    sq_nonneg (y - (-((1/2:ℝ)))), sq_nonneg (y - (0:ℝ))]

theorem c6ac18 (A B C : ℝ) (e0 : (-(0.0177:ℝ)) ^ 3 ≤ A) (e1 : B ≤ (0.0111:ℝ) ^ 3)
    (e2 : (0.5562:ℝ) ^ 3 ≤ C) :
    (-(1.2684380046 * A) + 2.6097574011 * B - 0.3413193965 * C) ≤ -(0.002) := by
  linarith

theorem c6ax19 (x y : ℝ) (h1 : (1/2:ℝ) ≤ x) (h2 : x ≤ (3/4:ℝ))
    (h3 : (-((1/2:ℝ))) ≤ y) (h4 : y ≤ (0:ℝ)) (h5 : (1:ℝ) ≤ x ^ 2 + y ^ 2) : False := by
  nlinarith [h5, mul_nonneg (sub_nonneg.2 h1) (sub_nonneg.2 h2),
    mul_nonneg (sub_nonneg.2 h3) (sub_nonneg.2 h4),
    sq_nonneg (x - (1/2:ℝ)), sq_nonneg (x - (3/4:ℝ)),
    sq_nonneg (y - (-((1/2:ℝ)))), sq_nonneg (y - (0:ℝ))]

theorem c6ac20 (A B C : ℝ) (e0 : (0.1893:ℝ) ^ 3 ≤ A) (e1 : B ≤ (-(0.0472:ℝ)) ^ 3)
    (e2 : (-(0.0895:ℝ)) ^ 3 ≤ C) :
    (-(1.2684380046 * A) + 2.6097574011 * B - 0.3413193965 * C) ≤ -(0.002) := by
  linarith

theorem c6ax21 (x y : ℝ) (h1 : (0:ℝ) ≤ x) (h2 : x ≤ (1/2:ℝ))
    (h3 : (0:ℝ) ≤ y) (h4 : y ≤ (1/2:ℝ)) (h5 : (1:ℝ) ≤ x ^ 2 + y ^ 2) : False := by
  nlinarith [h5, mul_nonneg (sub_nonneg.2 h1) (sub_nonneg.2 h2),
    mul_nonneg (sub_nonneg.2 h3) (sub_nonneg.2 h4),
    sq_nonneg (x - (0:ℝ)), sq_nonneg (x - (1/2:ℝ)),
    sq_nonneg (y - (0:ℝ)), sq_nonneg (y - (1/2:ℝ))]

theorem c6ac22 (A B C : ℝ) (e0 : (0.1079:ℝ) ^ 3 ≤ A) (e1 : (-(0.1167:ℝ)) ^ 3 ≤ B)
    (e2 : C ≤ (-(0.6457:ℝ)) ^ 3) :
    (-(0.0041960863 * A) - 0.7034186147 * B + 1.7076147010 * C) ≤ -(0.002) := by
  linarith

theorem c6ax23 (x y : ℝ) (h1 : (1/2:ℝ) ≤ x) (h2 : x ≤ (3/4:ℝ))
    (h3 : (0:ℝ) ≤ y) (h4 : y ≤ (1/2:ℝ)) (h5 : (1:ℝ) ≤ x ^ 2 + y ^ 2) : False := by
  nlinarith [h5, mul_nonneg (sub_nonneg.2 h1) (sub_nonneg.2 h2),
    mul_nonneg (sub_nonneg.2 h3) (sub_nonneg.2 h4),
    sq_nonneg (x - (1/2:ℝ)), sq_nonneg (x - (3/4:ℝ)),
    sq_nonneg (y - (0:ℝ)), sq_nonneg (y - (1/2:ℝ))]

theorem c6ac24 (A B C : ℝ) (e0 : (0.2972:ℝ) ^ 3 ≤ A) (e1 : B ≤ (-(0.0791:ℝ)) ^ 3)
    (e2 : (-(0.4124:ℝ)) ^ 3 ≤ C) :
    (-(1.2684380046 * A) + 2.6097574011 * B - 0.3413193965 * C) ≤ -(0.002) := by
  linarith

theorem c6ac25 (A B C : ℝ) (e0 : (0.3512:ℝ) ^ 3 ≤ A) (e1 : (-(0.1375:ℝ)) ^ 3 ≤ B)
    (e2 : C ≤ (-(0.3899:ℝ)) ^ 3) :
    (-(0.0041960863 * A) - 0.7034186147 * B + 1.7076147010 * C) ≤ -(0.002) := by
  linarith

theorem c6ac26 (A B C : ℝ) (e0 : (0.3060:ℝ) ^ 3 ≤ A) (e1 : (-(0.1695:ℝ)) ^ 3 ≤ B)
    (e2 : C ≤ (-(0.6904:ℝ)) ^ 3) :
    (-(0.0041960863 * A) - 0.7034186147 * B + 1.7076147010 * C) ≤ -(0.002) := by
  linarith

set_option maxHeartbeats 4000000 in
/-- Certified cover of the unit circle: at L = 0 some linear sRGB channel per
unit chroma cubed is at most -0.002. -/
theorem c6_circle_cover (x y : ℝ) (hc : x ^ 2 + y ^ 2 = 1) :
    (4.0767416621 * (0 + 0.3963377774 * x + 0.2158037573 * y) ^ 3 - 3.3077115913 * (0 - 0.1055613458 * x - 0.0638541728 * y) ^ 3 + 0.2309699292 * (0 - 0.0894841775 * x - 1.2914855480 * y) ^ 3) ≤ -(0.002) ∨
    (-(1.2684380046 * (0 + 0.3963377774 * x + 0.2158037573 * y) ^ 3) + 2.6097574011 * (0 - 0.1055613458 * x - 0.0638541728 * y) ^ 3 - 0.3413193965 * (0 - 0.0894841775 * x - 1.2914855480 * y) ^ 3) ≤ -(0.002) ∨
    (-(0.0041960863 * (0 + 0.3963377774 * x + 0.2158037573 * y) ^ 3) - 0.7034186147 * (0 - 0.1055613458 * x - 0.0638541728 * y) ^ 3 + 1.7076147010 * (0 - 0.0894841775 * x - 1.2914855480 * y) ^ 3) ≤ -(0.002) := by
  have hr1 : (1:ℝ) ≤ x ^ 2 + y ^ 2 := le_of_eq hc.symm
  have hr2 : x ^ 2 + y ^ 2 ≤ (1:ℝ) := le_of_eq hc
  have hx1 : -(1:ℝ) ≤ x := by nlinarith [sq_nonneg y]
  have hx2 : x ≤ (1:ℝ) := by nlinarith [sq_nonneg y]
  have hy1 : -(1:ℝ) ≤ y := by nlinarith [sq_nonneg x]
  have hy2 : y ≤ (1:ℝ) := by nlinarith [sq_nonneg x]
  rcases le_or_lt x (0:ℝ) with hs1 | hs1
  · 
    rcases le_or_lt y (0:ℝ) with hs2 | hs2
    · 
      rcases le_or_lt x (-((1/2:ℝ))) with hs3 | hs3
      · 
        rcases le_or_lt y (-((1/2:ℝ))) with hs4 | hs4
        · 
          rcases le_or_lt x (-((3/4:ℝ))) with hs5 | hs5
          · 
            rcases le_or_lt y (-((3/4:ℝ))) with hs6 | hs6
            · 
              exact (c6ax0 x y hx1 hs5 hy1 hs6 hr2).elim
            · 
              rcases le_or_lt x (-((7/8:ℝ))) with hs7 | hs7
              · 
                exact (c6ax1 x y hx1 hs7 (le_of_lt hs6) hs4 hr2).elim
              · 
                exact Or.inl (c6ac2 _ _ _ (cube_le_cube _ _ (by linarith only [hs5, hs4])) (cube_le_cube _ _ (by linarith only [hs5, hs4])) (cube_le_cube _ _ (by linarith only [(le_of_lt hs7), (le_of_lt hs6)])))
          · 
            rcases le_or_lt y (-((3/4:ℝ))) with hs8 | hs8
            · 
              exact Or.inr (Or.inl (c6ac3 _ _ _ (cube_le_cube _ _ (by linarith only [(le_of_lt hs5), hy1])) (cube_le_cube _ _ (by linarith only [(le_of_lt hs5), hy1])) (cube_le_cube _ _ (by linarith only [hs3, hs8]))))
            · 
              rcases le_or_lt x (-((5/8:ℝ))) with hs9 | hs9
              · 
                rcases le_or_lt y (-((5/8:ℝ))) with hs10 | hs10
                · 
                  exact Or.inr (Or.inl (c6ac4 _ _ _ (cube_le_cube _ _ (by linarith only [(le_of_lt hs5), (le_of_lt hs8)])) (cube_le_cube _ _ (by linarith only [(le_of_lt hs5), (le_of_lt hs8)])) (cube_le_cube _ _ (by linarith only [hs9, hs10]))))
                · 
                  exact (c6ax5 x y (le_of_lt hs5) hs9 (le_of_lt hs10) hs4 hr1).elim
              · 
                exact (c6ax6 x y (le_of_lt hs9) hs3 (le_of_lt hs8) hs4 hr1).elim
        · 
          rcases le_or_lt x (-((3/4:ℝ))) with hs11 | hs11
          · 
            exact Or.inl (c6ac7 _ _ _ (cube_le_cube _ _ (by linarith only [hs11, hs2])) (cube_le_cube _ _ (by linarith only [hs11, hs2])) (cube_le_cube _ _ (by linarith only [hx1, (le_of_lt hs4)])))
          · 
            exact (c6ax8 x y (le_of_lt hs11) hs3 (le_of_lt hs4) hs2 hr1).elim
      · 
        rcases le_or_lt y (-((1/2:ℝ))) with hs12 | hs12
        · 
          rcases le_or_lt x (-((1/4:ℝ))) with hs13 | hs13
          · 
            exact Or.inr (Or.inl (c6ac9 _ _ _ (cube_le_cube _ _ (by linarith only [(le_of_lt hs3), hy1])) (cube_le_cube _ _ (by linarith only [(le_of_lt hs3), hy1])) (cube_le_cube _ _ (by linarith only [hs13, hs12]))))
          · 
            exact Or.inr (Or.inl (c6ac10 _ _ _ (cube_le_cube _ _ (by linarith only [(le_of_lt hs13), hy1])) (cube_le_cube _ _ (by linarith only [(le_of_lt hs13), hy1])) (cube_le_cube _ _ (by linarith only [hs1, hs12]))))
        · 
          exact (c6ax11 x y (le_of_lt hs3) hs1 (le_of_lt hs12) hs2 hr1).elim
    · 
      rcases le_or_lt x (-((1/2:ℝ))) with hs14 | hs14
      · 
        rcases le_or_lt y (1/2:ℝ) with hs15 | hs15
        · 
          exact Or.inl (c6ac12 _ _ _ (cube_le_cube _ _ (by linarith only [hs14, hs15])) (cube_le_cube _ _ (by linarith only [hs14, hs15])) (cube_le_cube _ _ (by linarith only [hx1, (le_of_lt hs2)])))
        · 
          exact Or.inl (c6ac13 _ _ _ (cube_le_cube _ _ (by linarith only [hs14, hy2])) (cube_le_cube _ _ (by linarith only [hs14, hy2])) (cube_le_cube _ _ (by linarith only [hx1, (le_of_lt hs15)])))
      · 
        rcases le_or_lt y (1/2:ℝ) with hs16 | hs16
        · 
          exact (c6ax14 x y (le_of_lt hs14) hs1 (le_of_lt hs2) hs16 hr1).elim
        · 
          exact Or.inl (c6ac15 _ _ _ (cube_le_cube _ _ (by linarith only [hs1, hy2])) (cube_le_cube _ _ (by linarith only [hs1, hy2])) (cube_le_cube _ _ (by linarith only [(le_of_lt hs14), (le_of_lt hs16)])))
  · 
    rcases le_or_lt y (0:ℝ) with hs17 | hs17
    · 
      rcases le_or_lt x (1/2:ℝ) with hs18 | hs18
      · 
        rcases le_or_lt y (-((1/2:ℝ))) with hs19 | hs19
        · 
          exact Or.inr (Or.inl (c6ac16 _ _ _ (cube_le_cube _ _ (by linarith only [(le_of_lt hs1), hy1])) (cube_le_cube _ _ (by linarith only [(le_of_lt hs1), hy1])) (cube_le_cube _ _ (by linarith only [hs18, hs19]))))
        · 
          exact (c6ax17 x y (le_of_lt hs1) hs18 (le_of_lt hs19) hs17 hr1).elim
      · 
        rcases le_or_lt y (-((1/2:ℝ))) with hs20 | hs20
        · 
          exact Or.inr (Or.inl (c6ac18 _ _ _ (cube_le_cube _ _ (by linarith only [(le_of_lt hs18), hy1])) (cube_le_cube _ _ (by linarith only [(le_of_lt hs18), hy1])) (cube_le_cube _ _ (by linarith only [hx2, hs20]))))
        · 
          rcases le_or_lt x (3/4:ℝ) with hs21 | hs21
          · 
            exact (c6ax19 x y (le_of_lt hs18) hs21 (le_of_lt hs20) hs17 hr1).elim
          · 
            exact Or.inr (Or.inl (c6ac20 _ _ _ (cube_le_cube _ _ (by linarith only [(le_of_lt hs21), (le_of_lt hs20)])) (cube_le_cube _ _ (by linarith only [(le_of_lt hs21), (le_of_lt hs20)])) (cube_le_cube _ _ (by linarith only [hx2, hs17]))))
    · 
      rcases le_or_lt x (1/2:ℝ) with hs22 | hs22
      · 
        rcases le_or_lt y (1/2:ℝ) with hs23 | hs23
        · 
          exact (c6ax21 x y (le_of_lt hs1) hs22 (le_of_lt hs17) hs23 hr1).elim
        · 
          exact Or.inr (Or.inr (c6ac22 _ _ _ (cube_le_cube _ _ (by linarith only [(le_of_lt hs1), (le_of_lt hs23)])) (cube_le_cube _ _ (by linarith only [hs22, hy2])) (cube_le_cube _ _ (by linarith only [(le_of_lt hs1), (le_of_lt hs23)]))))
      · 
        rcases le_or_lt y (1/2:ℝ) with hs24 | hs24
        · 
          rcases le_or_lt x (3/4:ℝ) with hs25 | hs25
          · 
            exact (c6ax23 x y (le_of_lt hs22) hs25 (le_of_lt hs17) hs24 hr1).elim
          · 
            rcases le_or_lt y (1/4:ℝ) with hs26 | hs26
            · 
              exact Or.inr (Or.inl (c6ac24 _ _ _ (cube_le_cube _ _ (by linarith only [(le_of_lt hs25), (le_of_lt hs17)])) (cube_le_cube _ _ (by linarith only [(le_of_lt hs25), (le_of_lt hs17)])) (cube_le_cube _ _ (by linarith only [hx2, hs26]))))
            · 
              exact Or.inr (Or.inr (c6ac25 _ _ _ (cube_le_cube _ _ (by linarith only [(le_of_lt hs25), (le_of_lt hs26)])) (cube_le_cube _ _ (by linarith only [hx2, hs24])) (cube_le_cube _ _ (by linarith only [(le_of_lt hs25), (le_of_lt hs26)]))))
        · 
          exact Or.inr (Or.inr (c6ac26 _ _ _ (cube_le_cube _ _ (by linarith only [(le_of_lt hs22), (le_of_lt hs24)])) (cube_le_cube _ _ (by linarith only [hx2, hy2])) (cube_le_cube _ _ (by linarith only [(le_of_lt hs22), (le_of_lt hs24)]))))

theorem c6bc0 (A B C : ℝ) (e0 : A ≤ (0.8470:ℝ) ^ 3) (e1 : (1.0423:ℝ) ^ 3 ≤ B)
    (e2 : C ≤ (1.6905:ℝ) ^ 3) :
    (4.0767416621 * A - 3.3077115913 * B + 0.2309699292 * C) < -(1e-9) := by
  linarith

theorem c6bc1 (A B C : ℝ) (e0 : A ≤ (0.9010:ℝ) ^ 3) (e1 : (1.0263:ℝ) ^ 3 ≤ B)
    (e2 : C ≤ (1.3677:ℝ) ^ 3) :
    (4.0767416621 * A - 3.3077115913 * B + 0.2309699292 * C) < -(1e-9) := by
  linarith

theorem c6bc2 (A B C : ℝ) (e0 : A ≤ (0.9461:ℝ) ^ 3) (e1 : B ≤ (1.0584:ℝ) ^ 3)
    (e2 : (1.3228:ℝ) ^ 3 ≤ C) :
    1 + 1e-9 < (-(0.0041960863 * A) - 0.7034186147 * B + 1.7076147010 * C) := by
  linarith

theorem c6bc3 (A B C : ℝ) (e0 : A ≤ (0.9235:ℝ) ^ 3) (e1 : B ≤ (1.0424:ℝ) ^ 3)
    (e2 : (1.1726:ℝ) ^ 3 ≤ C) :
    1 + 1e-9 < (-(0.0041960863 * A) - 0.7034186147 * B + 1.7076147010 * C) := by
  linarith

theorem c6bc4 (A B C : ℝ) (e0 : A ≤ (0.9505:ℝ) ^ 3) (e1 : (1.0131:ℝ) ^ 3 ≤ B)
    (e2 : C ≤ (1.1839:ℝ) ^ 3) :
    1 + 1e-9 < (-(1.2684380046 * A) + 2.6097574011 * B - 0.3413193965 * C) := by
  linarith

theorem c6bc5 (A B C : ℝ) (e0 : A ≤ (0.9731:ℝ) ^ 3) (e1 : B ≤ (1.0292:ℝ) ^ 3)
    (e2 : (1.1614:ℝ) ^ 3 ≤ C) :
    1 + 1e-9 < (-(0.0041960863 * A) - 0.7034186147 * B + 1.7076147010 * C) := by
  linarith

theorem c6bc6 (A B C : ℝ) (e0 : A ≤ (0.9618:ℝ) ^ 3) (e1 : (1.0105:ℝ) ^ 3 ≤ B)
    (e2 : C ≤ (1.1727:ℝ) ^ 3) :
    1 + 1e-9 < (-(1.2684380046 * A) + 2.6097574011 * B - 0.3413193965 * C) := by
  linarith

theorem c6bc7 (A B C : ℝ) (e0 : A ≤ (0.9753:ℝ) ^ 3) (e1 : (1.0065:ℝ) ^ 3 ≤ B)
    (e2 : C ≤ (1.0920:ℝ) ^ 3) :
    1 + 1e-9 < (-(1.2684380046 * A) + 2.6097574011 * B - 0.3413193965 * C) := by
  linarith

theorem c6bc8 (A B C : ℝ) (e0 : A ≤ (0.9866:ℝ) ^ 3) (e1 : B ≤ (1.0146:ℝ) ^ 3)
    (e2 : (1.0807:ℝ) ^ 3 ≤ C) :
    1 + 1e-9 < (-(0.0041960863 * A) - 0.7034186147 * B + 1.7076147010 * C) := by
  linarith

theorem c6bc9 (A B C : ℝ) (e0 : A ≤ (0.9809:ℝ) ^ 3) (e1 : (1.0052:ℝ) ^ 3 ≤ B)
    (e2 : C ≤ (1.0864:ℝ) ^ 3) :
    1 + 1e-9 < (-(1.2684380046 * A) + 2.6097574011 * B - 0.3413193965 * C) := by
  linarith

theorem c6bc10 (A B C : ℝ) (e0 : A ≤ (0.9877:ℝ) ^ 3) (e1 : (1.0032:ℝ) ^ 3 ≤ B)
    (e2 : C ≤ (1.0460:ℝ) ^ 3) :
    1 + 1e-9 < (-(1.2684380046 * A) + 2.6097574011 * B - 0.3413193965 * C) := by
  linarith

theorem c6bc11 (A B C : ℝ) (e0 : A ≤ (0.9933:ℝ) ^ 3) (e1 : B ≤ (1.0073:ℝ) ^ 3)
    (e2 : (1.0403:ℝ) ^ 3 ≤ C) :
    1 + 1e-9 < (-(0.0041960863 * A) - 0.7034186147 * B + 1.7076147010 * C) := by
  linarith

theorem c6bc12 (A B C : ℝ) (e0 : A ≤ (0.9905:ℝ) ^ 3) (e1 : (1.0026:ℝ) ^ 3 ≤ B)
    (e2 : C ≤ (1.0432:ℝ) ^ 3) :
    1 + 1e-9 < (-(1.2684380046 * A) + 2.6097574011 * B - 0.3413193965 * C) := by
  linarith

theorem c6bc13 (A B C : ℝ) (e0 : A ≤ (0.9939:ℝ) ^ 3) (e1 : (1.0016:ℝ) ^ 3 ≤ B)
    (e2 : C ≤ (1.0230:ℝ) ^ 3) :
    1 + 1e-9 < (-(1.2684380046 * A) + 2.6097574011 * B - 0.3413193965 * C) := by
  linarith

theorem c6bc14 (A B C : ℝ) (e0 : A ≤ (0.9967:ℝ) ^ 3) (e1 : B ≤ (1.0037:ℝ) ^ 3)
    (e2 : (1.0201:ℝ) ^ 3 ≤ C) :
    1 + 1e-9 < (-(0.0041960863 * A) - 0.7034186147 * B + 1.7076147010 * C) := by
  linarith

theorem c6bc15 (A B C : ℝ) (e0 : A ≤ (0.9953:ℝ) ^ 3) (e1 : (1.0013:ℝ) ^ 3 ≤ B)
    (e2 : C ≤ (1.0216:ℝ) ^ 3) :
    1 + 1e-9 < (-(1.2684380046 * A) + 2.6097574011 * B - 0.3413193965 * C) := by
  linarith

theorem c6bc16 (A B C : ℝ) (e0 : A ≤ (0.9970:ℝ) ^ 3) (e1 : (1.0008:ℝ) ^ 3 ≤ B)
    (e2 : C ≤ (1.0115:ℝ) ^ 3) :
    1 + 1e-9 < (-(1.2684380046 * A) + 2.6097574011 * B - 0.3413193965 * C) := by
  linarith

theorem c6bc17 (A B C : ℝ) (e0 : A ≤ (0.9984:ℝ) ^ 3) (e1 : B ≤ (1.0019:ℝ) ^ 3)
    (e2 : (1.0100:ℝ) ^ 3 ≤ C) :
    1 + 1e-9 < (-(0.0041960863 * A) - 0.7034186147 * B + 1.7076147010 * C) := by
  linarith

theorem c6bc18 (A B C : ℝ) (e0 : A ≤ (0.9977:ℝ) ^ 3) (e1 : (1.0006:ℝ) ^ 3 ≤ B)
    (e2 : C ≤ (1.0108:ℝ) ^ 3) :
    1 + 1e-9 < (-(1.2684380046 * A) + 2.6097574011 * B - 0.3413193965 * C) := by
  linarith

theorem c6bx19 (a b : ℝ) (h1 : (-((1/128:ℝ))) ≤ a) (h2 : a ≤ (-((1/256:ℝ))))
    (h3 : (-((1/256:ℝ))) ≤ b) (h4 : b ≤ (0:ℝ)) (h5 : (1/10000:ℝ) ≤ a ^ 2 + b ^ 2) : False := by
  nlinarith [h5, mul_nonneg (sub_nonneg.2 h1) (sub_nonneg.2 h2),
    mul_nonneg (sub_nonneg.2 h3) (sub_nonneg.2 h4),
    sq_nonneg (a - (-((1/128:ℝ)))), sq_nonneg (a - (-((1/256:ℝ)))),
    sq_nonneg (b - (-((1/256:ℝ)))), sq_nonneg (b - (0:ℝ))]

theorem c6bx20 (a b : ℝ) (h1 : (-((1/256:ℝ))) ≤ a) (h2 : a ≤ (0:ℝ))
    (h3 : (-((1/128:ℝ))) ≤ b) (h4 : b ≤ (0:ℝ)) (h5 : (1/10000:ℝ) ≤ a ^ 2 + b ^ 2) : False := by
  nlinarith [h5, mul_nonneg (sub_nonneg.2 h1) (sub_nonneg.2 h2),
    mul_nonneg (sub_nonneg.2 h3) (sub_nonneg.2 h4),
    sq_nonneg (a - (-((1/256:ℝ)))), sq_nonneg (a - (0:ℝ)),
    sq_nonneg (b - (-((1/128:ℝ)))), sq_nonneg (b - (0:ℝ))]

theorem c6bc21 (A B C : ℝ) (e0 : A ≤ (0.9549:ℝ) ^ 3) (e1 : (1.0104:ℝ) ^ 3 ≤ B)
    (e2 : C ≤ (1.0448:ℝ) ^ 3) :
    1 + 1e-9 < (-(1.2684380046 * A) + 2.6097574011 * B - 0.3413193965 * C) := by
  linarith

theorem c6bc22 (A B C : ℝ) (e0 : A ≤ (1.0089:ℝ) ^ 3) (e1 : (0.9944:ℝ) ^ 3 ≤ B)
    (e2 : C ≤ (0.7219:ℝ) ^ 3) :
    1 + 1e-9 < (-(1.2684380046 * A) + 2.6097574011 * B - 0.3413193965 * C) := by
  linarith

theorem c6bc23 (A B C : ℝ) (e0 : A ≤ (0.9775:ℝ) ^ 3) (e1 : (1.0052:ℝ) ^ 3 ≤ B)
    (e2 : C ≤ (1.0224:ℝ) ^ 3) :
    1 + 1e-9 < (-(1.2684380046 * A) + 2.6097574011 * B - 0.3413193965 * C) := by
  linarith

theorem c6bc24 (A B C : ℝ) (e0 : A ≤ (1.0045:ℝ) ^ 3) (e1 : (0.9972:ℝ) ^ 3 ≤ B)
    (e2 : C ≤ (0.8610:ℝ) ^ 3) :
    1 + 1e-9 < (-(1.2684380046 * A) + 2.6097574011 * B - 0.3413193965 * C) := by
  linarith

theorem c6bc25 (A B C : ℝ) (e0 : A ≤ (0.9888:ℝ) ^ 3) (e1 : (1.0026:ℝ) ^ 3 ≤ B)
    (e2 : C ≤ (1.0112:ℝ) ^ 3) :
    1 + 1e-9 < (-(1.2684380046 * A) + 2.6097574011 * B - 0.3413193965 * C) := by
  linarith

theorem c6bc26 (A B C : ℝ) (e0 : A ≤ (1.0023:ℝ) ^ 3) (e1 : (0.9986:ℝ) ^ 3 ≤ B)
    (e2 : C ≤ (0.9305:ℝ) ^ 3) :
    1 + 1e-9 < (-(1.2684380046 * A) + 2.6097574011 * B - 0.3413193965 * C) := by
  linarith

theorem c6bc27 (A B C : ℝ) (e0 : A ≤ (0.9944:ℝ) ^ 3) (e1 : (1.0013:ℝ) ^ 3 ≤ B)
    (e2 : C ≤ (1.0056:ℝ) ^ 3) :
    1 + 1e-9 < (-(1.2684380046 * A) + 2.6097574011 * B - 0.3413193965 * C) := by
  linarith

theorem c6bc28 (A B C : ℝ) (e0 : A ≤ (1.0012:ℝ) ^ 3) (e1 : (0.9993:ℝ) ^ 3 ≤ B)
    (e2 : C ≤ (0.9653:ℝ) ^ 3) :
    1 + 1e-9 < (-(1.2684380046 * A) + 2.6097574011 * B - 0.3413193965 * C) := by
  linarith

theorem c6bc29 (A B C : ℝ) (e0 : A ≤ (0.9972:ℝ) ^ 3) (e1 : (1.0006:ℝ) ^ 3 ≤ B)
    (e2 : C ≤ (1.0028:ℝ) ^ 3) :
    1 + 1e-9 < (-(1.2684380046 * A) + 2.6097574011 * B - 0.3413193965 * C) := by
  linarith

theorem c6bc30 (A B C : ℝ) (e0 : A ≤ (1.0006:ℝ) ^ 3) (e1 : (0.9996:ℝ) ^ 3 ≤ B)
    (e2 : C ≤ (0.9827:ℝ) ^ 3) :
    1 + 1e-9 < (-(1.2684380046 * A) + 2.6097574011 * B - 0.3413193965 * C) := by
  linarith

theorem c6bc31 (A B C : ℝ) (e0 : A ≤ (0.9986:ℝ) ^ 3) (e1 : (1.0003:ℝ) ^ 3 ≤ B)
    (e2 : C ≤ (1.0014:ℝ) ^ 3) :
    1 + 1e-9 < (-(1.2684380046 * A) + 2.6097574011 * B - 0.3413193965 * C) := by
  linarith

theorem c6bc32 (A B C : ℝ) (e0 : A ≤ (1.0003:ℝ) ^ 3) (e1 : (0.9998:ℝ) ^ 3 ≤ B)
    (e2 : C ≤ (0.9914:ℝ) ^ 3) :
    1 + 1e-9 < (-(1.2684380046 * A) + 2.6097574011 * B - 0.3413193965 * C) := by
  linarith

theorem c6bx33 (a b : ℝ) (h1 : (-((1/128:ℝ))) ≤ a) (h2 : a ≤ (-((1/256:ℝ))))
    (h3 : (0:ℝ) ≤ b) (h4 : b ≤ (1/256:ℝ)) (h5 : (1/10000:ℝ) ≤ a ^ 2 + b ^ 2) : False := by
  nlinarith [h5, mul_nonneg (sub_nonneg.2 h1) (sub_nonneg.2 h2),
    mul_nonneg (sub_nonneg.2 h3) (sub_nonneg.2 h4),
    sq_nonneg (a - (-((1/128:ℝ)))), sq_nonneg (a - (-((1/256:ℝ)))),
    sq_nonneg (b - (0:ℝ)), sq_nonneg (b - (1/256:ℝ))]

theorem c6bc34 (A B C : ℝ) (e0 : A ≤ (1.0002:ℝ) ^ 3) (e1 : (0.9999:ℝ) ^ 3 ≤ B)
    (e2 : C ≤ (0.9957:ℝ) ^ 3) :
    1 + 1e-9 < (-(1.2684380046 * A) + 2.6097574011 * B - 0.3413193965 * C) := by
  linarith

theorem c6bx35 (a b : ℝ) (h1 : (-((1/256:ℝ))) ≤ a) (h2 : a ≤ (0:ℝ))
    (h3 : (0:ℝ) ≤ b) (h4 : b ≤ (1/128:ℝ)) (h5 : (1/10000:ℝ) ≤ a ^ 2 + b ^ 2) : False := by
  nlinarith [h5, mul_nonneg (sub_nonneg.2 h1) (sub_nonneg.2 h2),
    mul_nonneg (sub_nonneg.2 h3) (sub_nonneg.2 h4),
    sq_nonneg (a - (-((1/256:ℝ)))), sq_nonneg (a - (0:ℝ)),
    sq_nonneg (b - (0:ℝ)), sq_nonneg (b - (1/128:ℝ))]

theorem c6bc36 (A B C : ℝ) (e0 : A ≤ (1.0010:ℝ) ^ 3) (e1 : (0.9996:ℝ) ^ 3 ≤ B)
    (e2 : C ≤ (0.9907:ℝ) ^ 3) :
    1 + 1e-9 < (-(1.2684380046 * A) + 2.6097574011 * B - 0.3413193965 * C) := by
  linarith

theorem c6bc37 (A B C : ℝ) (e0 : A ≤ (1.0019:ℝ) ^ 3) (e1 : (0.9994:ℝ) ^ 3 ≤ B)
    (e2 : C ≤ (0.9856:ℝ) ^ 3) :
    1 + 1e-9 < (-(1.2684380046 * A) + 2.6097574011 * B - 0.3413193965 * C) := by
  linarith

theorem c6bc38 (A B C : ℝ) (e0 : A ≤ (1.0014:ℝ) ^ 3) (e1 : (0.9995:ℝ) ^ 3 ≤ B)
    (e2 : C ≤ (0.9903:ℝ) ^ 3) :
    1 + 1e-9 < (-(1.2684380046 * A) + 2.6097574011 * B - 0.3413193965 * C) := by
  linarith

theorem c6bc39 (A B C : ℝ) (e0 : A ≤ (1.0018:ℝ) ^ 3) (e1 : (0.9994:ℝ) ^ 3 ≤ B)
    (e2 : C ≤ (0.9878:ℝ) ^ 3) :
    1 + 1e-9 < (-(1.2684380046 * A) + 2.6097574011 * B - 0.3413193965 * C) := by
  linarith

theorem c6bc40 (A B C : ℝ) (e0 : (1.0009:ℝ) ^ 3 ≤ A) (e1 : B ≤ (0.9998:ℝ) ^ 3)
    (e2 : (0.9848:ℝ) ^ 3 ≤ C) :
    1 + 1e-9 < (4.0767416621 * A - 3.3077115913 * B + 0.2309699292 * C) := by
  linarith

theorem c6bc41 (A B C : ℝ) (e0 : (1.0009:ℝ) ^ 3 ≤ A) (e1 : B ≤ (0.9997:ℝ) ^ 3)
    (e2 : (0.9798:ℝ) ^ 3 ≤ C) :
    1 + 1e-9 < (4.0767416621 * A - 3.3077115913 * B + 0.2309699292 * C) := by
  linarith

theorem c6bc42 (A B C : ℝ) (e0 : A ≤ (1.0020:ℝ) ^ 3) (e1 : (0.9993:ℝ) ^ 3 ≤ B)
    (e2 : C ≤ (0.9813:ℝ) ^ 3) :
    1 + 1e-9 < (-(1.2684380046 * A) + 2.6097574011 * B - 0.3413193965 * C) := by
  linarith

theorem c6bc43 (A B C : ℝ) (e0 : A ≤ (1.0037:ℝ) ^ 3) (e1 : (0.9988:ℝ) ^ 3 ≤ B)
    (e2 : C ≤ (0.9712:ℝ) ^ 3) :
    1 + 1e-9 < (-(1.2684380046 * A) + 2.6097574011 * B - 0.3413193965 * C) := by
  linarith

theorem c6bc44 (A B C : ℝ) (e0 : A ≤ (1.0027:ℝ) ^ 3) (e1 : (0.9991:ℝ) ^ 3 ≤ B)
    (e2 : C ≤ (0.9806:ℝ) ^ 3) :
    1 + 1e-9 < (-(1.2684380046 * A) + 2.6097574011 * B - 0.3413193965 * C) := by
  linarith

theorem c6bc45 (A B C : ℝ) (e0 : A ≤ (1.0036:ℝ) ^ 3) (e1 : (0.9989:ℝ) ^ 3 ≤ B)
    (e2 : C ≤ (0.9755:ℝ) ^ 3) :
    1 + 1e-9 < (-(1.2684380046 * A) + 2.6097574011 * B - 0.3413193965 * C) := by
  linarith

theorem c6bc46 (A B C : ℝ) (e0 : (1.0018:ℝ) ^ 3 ≤ A) (e1 : B ≤ (0.9995:ℝ) ^ 3)
    (e2 : (0.9697:ℝ) ^ 3 ≤ C) :
    1 + 1e-9 < (4.0767416621 * A - 3.3077115913 * B + 0.2309699292 * C) := by
  linarith

theorem c6bc47 (A B C : ℝ) (e0 : (1.0019:ℝ) ^ 3 ≤ A) (e1 : B ≤ (0.9994:ℝ) ^ 3)
    (e2 : (0.9596:ℝ) ^ 3 ≤ C) :
    1 + 1e-9 < (4.0767416621 * A - 3.3077115913 * B + 0.2309699292 * C) := by
  linarith

theorem c6bc48 (A B C : ℝ) (e0 : A ≤ (1.0040:ℝ) ^ 3) (e1 : (0.9986:ℝ) ^ 3 ≤ B)
    (e2 : C ≤ (0.9625:ℝ) ^ 3) :
    1 + 1e-9 < (-(1.2684380046 * A) + 2.6097574011 * B - 0.3413193965 * C) := by
  linarith

theorem c6bc49 (A B C : ℝ) (e0 : A ≤ (1.0073:ℝ) ^ 3) (e1 : (0.9976:ℝ) ^ 3 ≤ B)
    (e2 : C ≤ (0.9423:ℝ) ^ 3) :
    1 + 1e-9 < (-(1.2684380046 * A) + 2.6097574011 * B - 0.3413193965 * C) := by
  linarith

theorem c6bc50 (A B C : ℝ) (e0 : A ≤ (1.0054:ℝ) ^ 3) (e1 : (0.9983:ℝ) ^ 3 ≤ B)
    (e2 : C ≤ (0.9611:ℝ) ^ 3) :
    1 + 1e-9 < (-(1.2684380046 * A) + 2.6097574011 * B - 0.3413193965 * C) := by
  linarith

theorem c6bc51 (A B C : ℝ) (e0 : A ≤ (1.0071:ℝ) ^ 3) (e1 : (0.9978:ℝ) ^ 3 ≤ B)
    (e2 : C ≤ (0.9510:ℝ) ^ 3) :
    1 + 1e-9 < (-(1.2684380046 * A) + 2.6097574011 * B - 0.3413193965 * C) := by
  linarith

theorem c6bc52 (A B C : ℝ) (e0 : (1.0036:ℝ) ^ 3 ≤ A) (e1 : B ≤ (0.9989:ℝ) ^ 3)
    (e2 : (0.9394:ℝ) ^ 3 ≤ C) :
    1 + 1e-9 < (4.0767416621 * A - 3.3077115913 * B + 0.2309699292 * C) := by
  linarith

theorem c6bc53 (A B C : ℝ) (e0 : (1.0039:ℝ) ^ 3 ≤ A) (e1 : B ≤ (0.9987:ℝ) ^ 3)
    (e2 : (0.9192:ℝ) ^ 3 ≤ C) :
    1 + 1e-9 < (4.0767416621 * A - 3.3077115913 * B + 0.2309699292 * C) := by
  linarith

theorem c6bc54 (A B C : ℝ) (e0 : A ≤ (1.0079:ℝ) ^ 3) (e1 : (0.9973:ℝ) ^ 3 ≤ B)
    (e2 : C ≤ (0.9249:ℝ) ^ 3) :
    1 + 1e-9 < (-(1.2684380046 * A) + 2.6097574011 * B - 0.3413193965 * C) := by
  linarith

theorem c6bc55 (A B C : ℝ) (e0 : A ≤ (1.0146:ℝ) ^ 3) (e1 : (0.9953:ℝ) ^ 3 ≤ B)
    (e2 : C ≤ (0.8846:ℝ) ^ 3) :
    1 + 1e-9 < (-(1.2684380046 * A) + 2.6097574011 * B - 0.3413193965 * C) := by
  linarith

theorem c6bc56 (A B C : ℝ) (e0 : A ≤ (1.0107:ℝ) ^ 3) (e1 : (0.9966:ℝ) ^ 3 ≤ B)
    (e2 : C ≤ (0.9221:ℝ) ^ 3) :
    1 + 1e-9 < (-(1.2684380046 * A) + 2.6097574011 * B - 0.3413193965 * C) := by
  linarith

theorem c6bc57 (A B C : ℝ) (e0 : A ≤ (1.0141:ℝ) ^ 3) (e1 : (0.9956:ℝ) ^ 3 ≤ B)
    (e2 : C ≤ (0.9019:ℝ) ^ 3) :
    1 + 1e-9 < (-(1.2684380046 * A) + 2.6097574011 * B - 0.3413193965 * C) := by
  linarith

theorem c6bc58 (A B C : ℝ) (e0 : (1.0072:ℝ) ^ 3 ≤ A) (e1 : B ≤ (0.9977:ℝ) ^ 3)
    (e2 : (0.8789:ℝ) ^ 3 ≤ C) :
    1 + 1e-9 < (4.0767416621 * A - 3.3077115913 * B + 0.2309699292 * C) := by
  linarith

theorem c6bc59 (A B C : ℝ) (e0 : (1.0078:ℝ) ^ 3 ≤ A) (e1 : B ≤ (0.9974:ℝ) ^ 3)
    (e2 : (0.8385:ℝ) ^ 3 ≤ C) :
    1 + 1e-9 < (4.0767416621 * A - 3.3077115913 * B + 0.2309699292 * C) := by
  linarith

theorem c6bc60 (A B C : ℝ) (e0 : A ≤ (1.0157:ℝ) ^ 3) (e1 : (0.9946:ℝ) ^ 3 ≤ B)
    (e2 : C ≤ (0.8498:ℝ) ^ 3) :
    1 + 1e-9 < (-(1.2684380046 * A) + 2.6097574011 * B - 0.3413193965 * C) := by
  linarith

theorem c6bc61 (A B C : ℝ) (e0 : A ≤ (1.0168:ℝ) ^ 3) (e1 : (0.9939:ℝ) ^ 3 ≤ B)
    (e2 : C ≤ (0.7691:ℝ) ^ 3) :
    1 + 1e-9 < (-(1.2684380046 * A) + 2.6097574011 * B - 0.3413193965 * C) := by
  linarith

theorem c6bc62 (A B C : ℝ) (e0 : A ≤ (1.0292:ℝ) ^ 3) (e1 : (0.9906:ℝ) ^ 3 ≤ B)
    (e2 : C ≤ (0.7663:ℝ) ^ 3) :
    1 + 1e-9 < (-(1.2684380046 * A) + 2.6097574011 * B - 0.3413193965 * C) := by
  linarith

theorem c6bc63 (A B C : ℝ) (e0 : A ≤ (1.0214:ℝ) ^ 3) (e1 : (0.9933:ℝ) ^ 3 ≤ B)
    (e2 : C ≤ (0.8442:ℝ) ^ 3) :
    1 + 1e-9 < (-(1.2684380046 * A) + 2.6097574011 * B - 0.3413193965 * C) := by
  linarith

theorem c6bc64 (A B C : ℝ) (e0 : (1.0089:ℝ) ^ 3 ≤ A) (e1 : B ≤ (0.9967:ℝ) ^ 3)
    (e2 : (0.7606:ℝ) ^ 3 ≤ C) :
    1 + 1e-9 < (4.0767416621 * A - 3.3077115913 * B + 0.2309699292 * C) := by
  linarith

theorem c6bc65 (A B C : ℝ) (e0 : (1.0145:ℝ) ^ 3 ≤ A) (e1 : B ≤ (0.9954:ℝ) ^ 3)
    (e2 : (0.7578:ℝ) ^ 3 ≤ C) :
    1 + 1e-9 < (4.0767416621 * A - 3.3077115913 * B + 0.2309699292 * C) := by
  linarith

theorem c6bc66 (A B C : ℝ) (e0 : (1.0156:ℝ) ^ 3 ≤ A) (e1 : B ≤ (0.9947:ℝ) ^ 3)
    (e2 : (0.6771:ℝ) ^ 3 ≤ C) :
    1 + 1e-9 < (4.0767416621 * A - 3.3077115913 * B + 0.2309699292 * C) := by
  linarith

theorem c6bc67 (A B C : ℝ) (e0 : (0.9548:ℝ) ^ 3 ≤ A) (e1 : (0.9680:ℝ) ^ 3 ≤ B)
    (e2 : C ≤ (0.6995:ℝ) ^ 3) :
    (-(0.0041960863 * A) - 0.7034186147 * B + 1.7076147010 * C) < -(1e-9) := by
  linarith

theorem c6bc68 (A B C : ℝ) (e0 : A ≤ (1.0452:ℝ) ^ 3) (e1 : B ≤ (1.0320:ℝ) ^ 3)
    (e2 : (1.3005:ℝ) ^ 3 ≤ C) :
    1 + 1e-9 < (-(0.0041960863 * A) - 0.7034186147 * B + 1.7076147010 * C) := by
  linarith

theorem c6bc69 (A B C : ℝ) (e0 : A ≤ (1.0226:ℝ) ^ 3) (e1 : B ≤ (1.0160:ℝ) ^ 3)
    (e2 : (1.1502:ℝ) ^ 3 ≤ C) :
    1 + 1e-9 < (-(0.0041960863 * A) - 0.7034186147 * B + 1.7076147010 * C) := by
  linarith

theorem c6bc70 (A B C : ℝ) (e0 : A ≤ (1.0113:ℝ) ^ 3) (e1 : B ≤ (1.0080:ℝ) ^ 3)
    (e2 : (1.0751:ℝ) ^ 3 ≤ C) :
    1 + 1e-9 < (-(0.0041960863 * A) - 0.7034186147 * B + 1.7076147010 * C) := by
  linarith

theorem c6bc71 (A B C : ℝ) (e0 : A ≤ (1.0057:ℝ) ^ 3) (e1 : B ≤ (1.0040:ℝ) ^ 3)
    (e2 : (1.0375:ℝ) ^ 3 ≤ C) :
    1 + 1e-9 < (-(0.0041960863 * A) - 0.7034186147 * B + 1.7076147010 * C) := by
  linarith

theorem c6bc72 (A B C : ℝ) (e0 : A ≤ (1.0029:ℝ) ^ 3) (e1 : B ≤ (1.0020:ℝ) ^ 3)
    (e2 : (1.0187:ℝ) ^ 3 ≤ C) :
    1 + 1e-9 < (-(0.0041960863 * A) - 0.7034186147 * B + 1.7076147010 * C) := by
  linarith

theorem c6bc73 (A B C : ℝ) (e0 : A ≤ (1.0015:ℝ) ^ 3) (e1 : B ≤ (1.0010:ℝ) ^ 3)
    (e2 : (1.0093:ℝ) ^ 3 ≤ C) :
    1 + 1e-9 < (-(0.0041960863 * A) - 0.7034186147 * B + 1.7076147010 * C) := by
  linarith

theorem c6bx74 (a b : ℝ) (h1 : (0:ℝ) ≤ a) (h2 : a ≤ (1/256:ℝ))
    (h3 : (-((1/128:ℝ))) ≤ b) (h4 : b ≤ (0:ℝ)) (h5 : (1/10000:ℝ) ≤ a ^ 2 + b ^ 2) : False := by
  nlinarith [h5, mul_nonneg (sub_nonneg.2 h1) (sub_nonneg.2 h2),
    mul_nonneg (sub_nonneg.2 h3) (sub_nonneg.2 h4),
    sq_nonneg (a - (0:ℝ)), sq_nonneg (a - (1/256:ℝ)),
    sq_nonneg (b - (-((1/128:ℝ)))), sq_nonneg (b - (0:ℝ))]

theorem c6bc75 (A B C : ℝ) (e0 : A ≤ (1.0023:ℝ) ^ 3) (e1 : B ≤ (1.0001:ℝ) ^ 3)
    (e2 : (1.0043:ℝ) ^ 3 ≤ C) :
    1 + 1e-9 < (-(0.0041960863 * A) - 0.7034186147 * B + 1.7076147010 * C) := by
  linarith

theorem c6bx76 (a b : ℝ) (h1 : (1/256:ℝ) ≤ a) (h2 : a ≤ (1/128:ℝ))
    (h3 : (-((1/256:ℝ))) ≤ b) (h4 : b ≤ (0:ℝ)) (h5 : (1/10000:ℝ) ≤ a ^ 2 + b ^ 2) : False := by
  nlinarith [h5, mul_nonneg (sub_nonneg.2 h1) (sub_nonneg.2 h2),
    mul_nonneg (sub_nonneg.2 h3) (sub_nonneg.2 h4),
    sq_nonneg (a - (1/256:ℝ)), sq_nonneg (a - (1/128:ℝ)),
    sq_nonneg (b - (-((1/256:ℝ)))), sq_nonneg (b - (0:ℝ))]

theorem c6bc77 (A B C : ℝ) (e0 : (0.9997:ℝ) ^ 3 ≤ A) (e1 : B ≤ (1.0002:ℝ) ^ 3)
    (e2 : (1.0086:ℝ) ^ 3 ≤ C) :
    1 + 1e-9 < (4.0767416621 * A - 3.3077115913 * B + 0.2309699292 * C) := by
  linarith

theorem c6bc78 (A B C : ℝ) (e0 : (1.0014:ℝ) ^ 3 ≤ A) (e1 : B ≤ (0.9997:ℝ) ^ 3)
    (e2 : (0.9986:ℝ) ^ 3 ≤ C) :
    1 + 1e-9 < (4.0767416621 * A - 3.3077115913 * B + 0.2309699292 * C) := by
  linarith

theorem c6bc79 (A B C : ℝ) (e0 : (0.9994:ℝ) ^ 3 ≤ A) (e1 : B ≤ (1.0004:ℝ) ^ 3)
    (e2 : (1.0173:ℝ) ^ 3 ≤ C) :
    1 + 1e-9 < (4.0767416621 * A - 3.3077115913 * B + 0.2309699292 * C) := by
  linarith

theorem c6bc80 (A B C : ℝ) (e0 : (1.0028:ℝ) ^ 3 ≤ A) (e1 : B ≤ (0.9994:ℝ) ^ 3)
    (e2 : (0.9972:ℝ) ^ 3 ≤ C) :
    1 + 1e-9 < (4.0767416621 * A - 3.3077115913 * B + 0.2309699292 * C) := by
  linarith

theorem c6bc81 (A B C : ℝ) (e0 : (0.9988:ℝ) ^ 3 ≤ A) (e1 : B ≤ (1.0007:ℝ) ^ 3)
    (e2 : (1.0347:ℝ) ^ 3 ≤ C) :
    1 + 1e-9 < (4.0767416621 * A - 3.3077115913 * B + 0.2309699292 * C) := by
  linarith

theorem c6bc82 (A B C : ℝ) (e0 : (1.0056:ℝ) ^ 3 ≤ A) (e1 : B ≤ (0.9987:ℝ) ^ 3)
    (e2 : (0.9944:ℝ) ^ 3 ≤ C) :
    1 + 1e-9 < (4.0767416621 * A - 3.3077115913 * B + 0.2309699292 * C) := by
  linarith

theorem c6bc83 (A B C : ℝ) (e0 : (0.9977:ℝ) ^ 3 ≤ A) (e1 : B ≤ (1.0014:ℝ) ^ 3)
    (e2 : (1.0695:ℝ) ^ 3 ≤ C) :
    1 + 1e-9 < (4.0767416621 * A - 3.3077115913 * B + 0.2309699292 * C) := by
  linarith

theorem c6bc84 (A B C : ℝ) (e0 : (1.0112:ℝ) ^ 3 ≤ A) (e1 : B ≤ (0.9974:ℝ) ^ 3)
    (e2 : (0.9888:ℝ) ^ 3 ≤ C) :
    1 + 1e-9 < (4.0767416621 * A - 3.3077115913 * B + 0.2309699292 * C) := by
  linarith

theorem c6bc85 (A B C : ℝ) (e0 : (0.9955:ℝ) ^ 3 ≤ A) (e1 : B ≤ (1.0028:ℝ) ^ 3)
    (e2 : (1.1390:ℝ) ^ 3 ≤ C) :
    1 + 1e-9 < (4.0767416621 * A - 3.3077115913 * B + 0.2309699292 * C) := by
  linarith

theorem c6bc86 (A B C : ℝ) (e0 : (1.0225:ℝ) ^ 3 ≤ A) (e1 : B ≤ (0.9948:ℝ) ^ 3)
    (e2 : (0.9776:ℝ) ^ 3 ≤ C) :
    1 + 1e-9 < (4.0767416621 * A - 3.3077115913 * B + 0.2309699292 * C) := by
  linarith

theorem c6bc87 (A B C : ℝ) (e0 : (0.9911:ℝ) ^ 3 ≤ A) (e1 : B ≤ (1.0056:ℝ) ^ 3)
    (e2 : (1.2781:ℝ) ^ 3 ≤ C) :
    1 + 1e-9 < (4.0767416621 * A - 3.3077115913 * B + 0.2309699292 * C) := by
  linarith

theorem c6bc88 (A B C : ℝ) (e0 : (1.0451:ℝ) ^ 3 ≤ A) (e1 : B ≤ (0.9896:ℝ) ^ 3)
    (e2 : (0.9552:ℝ) ^ 3 ≤ C) :
    1 + 1e-9 < (4.0767416621 * A - 3.3077115913 * B + 0.2309699292 * C) := by
  linarith

theorem c6bx89 (a b : ℝ) (h1 : (0:ℝ) ≤ a) (h2 : a ≤ (1/256:ℝ))
    (h3 : (0:ℝ) ≤ b) (h4 : b ≤ (1/128:ℝ)) (h5 : (1/10000:ℝ) ≤ a ^ 2 + b ^ 2) : False := by
  nlinarith [h5, mul_nonneg (sub_nonneg.2 h1) (sub_nonneg.2 h2),
    mul_nonneg (sub_nonneg.2 h3) (sub_nonneg.2 h4),
    sq_nonneg (a - (0:ℝ)), sq_nonneg (a - (1/256:ℝ)),
    sq_nonneg (b - (0:ℝ)), sq_nonneg (b - (1/128:ℝ))]

theorem c6bc90 (A B C : ℝ) (e0 : (1.0015:ℝ) ^ 3 ≤ A) (e1 : B ≤ (0.9996:ℝ) ^ 3)
    (e2 : (0.9892:ℝ) ^ 3 ≤ C) :
    1 + 1e-9 < (4.0767416621 * A - 3.3077115913 * B + 0.2309699292 * C) := by
  linarith

theorem c6bc91 (A B C : ℝ) (e0 : (1.0016:ℝ) ^ 3 ≤ A) (e1 : B ≤ (0.9996:ℝ) ^ 3)
    (e2 : (0.9791:ℝ) ^ 3 ≤ C) :
    1 + 1e-9 < (4.0767416621 * A - 3.3077115913 * B + 0.2309699292 * C) := by
  linarith

theorem c6bc92 (A B C : ℝ) (e0 : (1.0030:ℝ) ^ 3 ≤ A) (e1 : B ≤ (0.9992:ℝ) ^ 3)
    (e2 : (0.9784:ℝ) ^ 3 ≤ C) :
    1 + 1e-9 < (4.0767416621 * A - 3.3077115913 * B + 0.2309699292 * C) := by
  linarith

theorem c6bc93 (A B C : ℝ) (e0 : (1.0033:ℝ) ^ 3 ≤ A) (e1 : B ≤ (0.9991:ℝ) ^ 3)
    (e2 : (0.9582:ℝ) ^ 3 ≤ C) :
    1 + 1e-9 < (4.0767416621 * A - 3.3077115913 * B + 0.2309699292 * C) := by
  linarith

theorem c6bc94 (A B C : ℝ) (e0 : (1.0061:ℝ) ^ 3 ≤ A) (e1 : B ≤ (0.9984:ℝ) ^ 3)
    (e2 : (0.9568:ℝ) ^ 3 ≤ C) :
    1 + 1e-9 < (4.0767416621 * A - 3.3077115913 * B + 0.2309699292 * C) := by
  linarith

theorem c6bc95 (A B C : ℝ) (e0 : (1.0067:ℝ) ^ 3 ≤ A) (e1 : B ≤ (0.9981:ℝ) ^ 3)
    (e2 : (0.9164:ℝ) ^ 3 ≤ C) :
    1 + 1e-9 < (4.0767416621 * A - 3.3077115913 * B + 0.2309699292 * C) := by
  linarith

theorem c6bc96 (A B C : ℝ) (e0 : (1.0123:ℝ) ^ 3 ≤ A) (e1 : B ≤ (0.9968:ℝ) ^ 3)
    (e2 : (0.9136:ℝ) ^ 3 ≤ C) :
    1 + 1e-9 < (4.0767416621 * A - 3.3077115913 * B + 0.2309699292 * C) := by
  linarith

theorem c6bc97 (A B C : ℝ) (e0 : (1.0134:ℝ) ^ 3 ≤ A) (e1 : B ≤ (0.9961:ℝ) ^ 3)
    (e2 : (0.8329:ℝ) ^ 3 ≤ C) :
    1 + 1e-9 < (4.0767416621 * A - 3.3077115913 * B + 0.2309699292 * C) := by
  linarith

theorem c6bc98 (A B C : ℝ) (e0 : (1.0247:ℝ) ^ 3 ≤ A) (e1 : B ≤ (0.9935:ℝ) ^ 3)
    (e2 : (0.8273:ℝ) ^ 3 ≤ C) :
    1 + 1e-9 < (4.0767416621 * A - 3.3077115913 * B + 0.2309699292 * C) := by
  linarith

theorem c6bc99 (A B C : ℝ) (e0 : (1.0269:ℝ) ^ 3 ≤ A) (e1 : B ≤ (0.9921:ℝ) ^ 3)
    (e2 : (0.6659:ℝ) ^ 3 ≤ C) :
    1 + 1e-9 < (4.0767416621 * A - 3.3077115913 * B + 0.2309699292 * C) := by
  linarith

theorem c6bc100 (A B C : ℝ) (e0 : (1.0495:ℝ) ^ 3 ≤ A) (e1 : B ≤ (0.9869:ℝ) ^ 3)
    (e2 : (0.6547:ℝ) ^ 3 ≤ C) :
    1 + 1e-9 < (4.0767416621 * A - 3.3077115913 * B + 0.2309699292 * C) := by
  linarith

theorem c6bc101 (A B C : ℝ) (e0 : (1.0539:ℝ) ^ 3 ≤ A) (e1 : B ≤ (0.9841:ℝ) ^ 3)
    (e2 : (0.3318:ℝ) ^ 3 ≤ C) :
    1 + 1e-9 < (4.0767416621 * A - 3.3077115913 * B + 0.2309699292 * C) := by
  linarith

theorem c6bc102 (A B C : ℝ) (e0 : (1.0990:ℝ) ^ 3 ≤ A) (e1 : B ≤ (0.9737:ℝ) ^ 3)
    (e2 : (0.3095:ℝ) ^ 3 ≤ C) :
    1 + 1e-9 < (4.0767416621 * A - 3.3077115913 * B + 0.2309699292 * C) := by
  linarith

set_option maxHeartbeats 4000000 in
/-- Certified cover of the chroma annulus 0.01 ≤ C ≤ 0.5 at L = 1: some
linear sRGB channel violates the gamut bounds with eps = 1e-9. -/
theorem c6_annulus_cover (a b : ℝ) (hr1 : 1/10000 ≤ a ^ 2 + b ^ 2)
    (hr2 : a ^ 2 + b ^ 2 ≤ 1/4) :
    1 + 1e-9 < (4.0767416621 * (1 + 0.3963377774 * a + 0.2158037573 * b) ^ 3 - 3.3077115913 * (1 - 0.1055613458 * a - 0.0638541728 * b) ^ 3 + 0.2309699292 * (1 - 0.0894841775 * a - 1.2914855480 * b) ^ 3) ∨
    1 + 1e-9 < (-(1.2684380046 * (1 + 0.3963377774 * a + 0.2158037573 * b) ^ 3) + 2.6097574011 * (1 - 0.1055613458 * a - 0.0638541728 * b) ^ 3 - 0.3413193965 * (1 - 0.0894841775 * a - 1.2914855480 * b) ^ 3) ∨
    1 + 1e-9 < (-(0.0041960863 * (1 + 0.3963377774 * a + 0.2158037573 * b) ^ 3) - 0.7034186147 * (1 - 0.1055613458 * a - 0.0638541728 * b) ^ 3 + 1.7076147010 * (1 - 0.0894841775 * a - 1.2914855480 * b) ^ 3) ∨
    (4.0767416621 * (1 + 0.3963377774 * a + 0.2158037573 * b) ^ 3 - 3.3077115913 * (1 - 0.1055613458 * a - 0.0638541728 * b) ^ 3 + 0.2309699292 * (1 - 0.0894841775 * a - 1.2914855480 * b) ^ 3) < -(1e-9) ∨
    (-(1.2684380046 * (1 + 0.3963377774 * a + 0.2158037573 * b) ^ 3) + 2.6097574011 * (1 - 0.1055613458 * a - 0.0638541728 * b) ^ 3 - 0.3413193965 * (1 - 0.0894841775 * a - 1.2914855480 * b) ^ 3) < -(1e-9) ∨
    (-(0.0041960863 * (1 + 0.3963377774 * a + 0.2158037573 * b) ^ 3) - 0.7034186147 * (1 - 0.1055613458 * a - 0.0638541728 * b) ^ 3 + 1.7076147010 * (1 - 0.0894841775 * a - 1.2914855480 * b) ^ 3) < -(1e-9) := by
  have hx1 : -(1/2:ℝ) ≤ a := by nlinarith [sq_nonneg b]
  have hx2 : a ≤ (1/2:ℝ) := by nlinarith [sq_nonneg b]
  have hy1 : -(1/2:ℝ) ≤ b := by nlinarith [sq_nonneg a]
  have hy2 : b ≤ (1/2:ℝ) := by nlinarith [sq_nonneg a]
  rcases le_or_lt a (0:ℝ) with hs1 | hs1
  · 
    rcases le_or_lt b (0:ℝ) with hs2 | hs2
    · 
      rcases le_or_lt a (-((1/4:ℝ))) with hs3 | hs3
      · 
        rcases le_or_lt b (-((1/4:ℝ))) with hs4 | hs4
        · 
          exact Or.inr (Or.inr (Or.inr (Or.inl (c6bc0 _ _ _ (cube_le_cube _ _ (by linarith only [hs3, hs4])) (cube_le_cube _ _ (by linarith only [hs3, hs4])) (cube_le_cube _ _ (by linarith only [hx1, hy1]))))))
        · 
          exact Or.inr (Or.inr (Or.inr (Or.inl (c6bc1 _ _ _ (cube_le_cube _ _ (by linarith only [hs3, hs2])) (cube_le_cube _ _ (by linarith only [hs3, hs2])) (cube_le_cube _ _ (by linarith only [hx1, (le_of_lt hs4)]))))))
      · 
        rcases le_or_lt b (-((1/4:ℝ))) with hs5 | hs5
        · 
          exact Or.inr (Or.inr (Or.inl (c6bc2 _ _ _ (cube_le_cube _ _ (by linarith only [hs1, hs5])) (cube_le_cube _ _ (by linarith only [(le_of_lt hs3), hy1])) (cube_le_cube _ _ (by linarith only [hs1, hs5])))))
        · 
          rcases le_or_lt a (-((1/8:ℝ))) with hs6 | hs6
          · 
            rcases le_or_lt b (-((1/8:ℝ))) with hs7 | hs7
            · 
              exact Or.inr (Or.inr (Or.inl (c6bc3 _ _ _ (cube_le_cube _ _ (by linarith only [hs6, hs7])) (cube_le_cube _ _ (by linarith only [(le_of_lt hs3), (le_of_lt hs5)])) (cube_le_cube _ _ (by linarith only [hs6, hs7])))))
            · 
              exact Or.inr (Or.inl (c6bc4 _ _ _ (cube_le_cube _ _ (by linarith only [hs6, hs2])) (cube_le_cube _ _ (by linarith only [hs6, hs2])) (cube_le_cube _ _ (by linarith only [(le_of_lt hs3), (le_of_lt hs7)]))))
          · 
            rcases le_or_lt b (-((1/8:ℝ))) with hs8 | hs8
            · 
              exact Or.inr (Or.inr (Or.inl (c6bc5 _ _ _ (cube_le_cube _ _ (by linarith only [hs1, hs8])) (cube_le_cube _ _ (by linarith only [(le_of_lt hs6), (le_of_lt hs5)])) (cube_le_cube _ _ (by linarith only [hs1, hs8])))))
            · 
              rcases le_or_lt a (-((1/16:ℝ))) with hs9 | hs9
              · 
                rcases le_or_lt b (-((1/16:ℝ))) with hs10 | hs10
                · 
                  exact Or.inr (Or.inl (c6bc6 _ _ _ (cube_le_cube _ _ (by linarith only [hs9, hs10])) (cube_le_cube _ _ (by linarith only [hs9, hs10])) (cube_le_cube _ _ (by linarith only [(le_of_lt hs6), (le_of_lt hs8)]))))
                · 
                  exact Or.inr (Or.inl (c6bc7 _ _ _ (cube_le_cube _ _ (by linarith only [hs9, hs2])) (cube_le_cube _ _ (by linarith only [hs9, hs2])) (cube_le_cube _ _ (by linarith only [(le_of_lt hs6), (le_of_lt hs10)]))))
              · 
                rcases le_or_lt b (-((1/16:ℝ))) with hs11 | hs11
                · 
                  exact Or.inr (Or.inr (Or.inl (c6bc8 _ _ _ (cube_le_cube _ _ (by linarith only [hs1, hs11])) (cube_le_cube _ _ (by linarith only [(le_of_lt hs9), (le_of_lt hs8)])) (cube_le_cube _ _ (by linarith only [hs1, hs11])))))
                · 
                  rcases le_or_lt a (-((1/32:ℝ))) with hs12 | hs12
                  · 
                    rcases le_or_lt b (-((1/32:ℝ))) with hs13 | hs13
                    · 
                      exact Or.inr (Or.inl (c6bc9 _ _ _ (cube_le_cube _ _ (by linarith only [hs12, hs13])) (cube_le_cube _ _ (by linarith only [hs12, hs13])) (cube_le_cube _ _ (by linarith only [(le_of_lt hs9), (le_of_lt hs11)]))))
                    · 
                      exact Or.inr (Or.inl (c6bc10 _ _ _ (cube_le_cube _ _ (by linarith only [hs12, hs2])) (cube_le_cube _ _ (by linarith only [hs12, hs2])) (cube_le_cube _ _ (by linarith only [(le_of_lt hs9), (le_of_lt hs13)]))))
                  · 
                    rcases le_or_lt b (-((1/32:ℝ))) with hs14 | hs14
                    · 
                      exact Or.inr (Or.inr (Or.inl (c6bc11 _ _ _ (cube_le_cube _ _ (by linarith only [hs1, hs14])) (cube_le_cube _ _ (by linarith only [(le_of_lt hs12), (le_of_lt hs11)])) (cube_le_cube _ _ (by linarith only [hs1, hs14])))))
                    · 
                      rcases le_or_lt a (-((1/64:ℝ))) with hs15 | hs15
                      · 
                        rcases le_or_lt b (-((1/64:ℝ))) with hs16 | hs16
                        · 
                          exact Or.inr (Or.inl (c6bc12 _ _ _ (cube_le_cube _ _ (by linarith only [hs15, hs16])) (cube_le_cube _ _ (by linarith only [hs15, hs16])) (cube_le_cube _ _ (by linarith only [(le_of_lt hs12), (le_of_lt hs14)]))))
                        · 
                          exact Or.inr (Or.inl (c6bc13 _ _ _ (cube_le_cube _ _ (by linarith only [hs15, hs2])) (cube_le_cube _ _ (by linarith only [hs15, hs2])) (cube_le_cube _ _ (by linarith only [(le_of_lt hs12), (le_of_lt hs16)]))))
                      · 
                        rcases le_or_lt b (-((1/64:ℝ))) with hs17 | hs17
                        · 
                          exact Or.inr (Or.inr (Or.inl (c6bc14 _ _ _ (cube_le_cube _ _ (by linarith only [hs1, hs17])) (cube_le_cube _ _ (by linarith only [(le_of_lt hs15), (le_of_lt hs14)])) (cube_le_cube _ _ (by linarith only [hs1, hs17])))))
                        · 
                          rcases le_or_lt a (-((1/128:ℝ))) with hs18 | hs18
                          · 
                            rcases le_or_lt b (-((1/128:ℝ))) with hs19 | hs19
                            · 
                              exact Or.inr (Or.inl (c6bc15 _ _ _ (cube_le_cube _ _ (by linarith only [hs18, hs19])) (cube_le_cube _ _ (by linarith only [hs18, hs19])) (cube_le_cube _ _ (by linarith only [(le_of_lt hs15), (le_of_lt hs17)]))))
                            · 
                              exact Or.inr (Or.inl (c6bc16 _ _ _ (cube_le_cube _ _ (by linarith only [hs18, hs2])) (cube_le_cube _ _ (by linarith only [hs18, hs2])) (cube_le_cube _ _ (by linarith only [(le_of_lt hs15), (le_of_lt hs19)]))))
                          · 
                            rcases le_or_lt b (-((1/128:ℝ))) with hs20 | hs20
                            · 
                              exact Or.inr (Or.inr (Or.inl (c6bc17 _ _ _ (cube_le_cube _ _ (by linarith only [hs1, hs20])) (cube_le_cube _ _ (by linarith only [(le_of_lt hs18), (le_of_lt hs17)])) (cube_le_cube _ _ (by linarith only [hs1, hs20])))))
                            · 
                              rcases le_or_lt a (-((1/256:ℝ))) with hs21 | hs21
                              · 
                                rcases le_or_lt b (-((1/256:ℝ))) with hs22 | hs22
                                · 
                                  exact Or.inr (Or.inl (c6bc18 _ _ _ (cube_le_cube _ _ (by linarith only [hs21, hs22])) (cube_le_cube _ _ (by linarith only [hs21, hs22])) (cube_le_cube _ _ (by linarith only [(le_of_lt hs18), (le_of_lt hs20)]))))
                                · 
                                  exact (c6bx19 a b (le_of_lt hs18) hs21 (le_of_lt hs22) hs2 hr1).elim
                              · 
                                exact (c6bx20 a b (le_of_lt hs21) hs1 (le_of_lt hs20) hs2 hr1).elim
    · 
      rcases le_or_lt a (-((1/4:ℝ))) with hs23 | hs23
      · 
        rcases le_or_lt b (1/4:ℝ) with hs24 | hs24
        · 
          exact Or.inr (Or.inl (c6bc21 _ _ _ (cube_le_cube _ _ (by linarith only [hs23, hs24])) (cube_le_cube _ _ (by linarith only [hs23, hs24])) (cube_le_cube _ _ (by linarith only [hx1, (le_of_lt hs2)]))))
        · 
          exact Or.inr (Or.inl (c6bc22 _ _ _ (cube_le_cube _ _ (by linarith only [hs23, hy2])) (cube_le_cube _ _ (by linarith only [hs23, hy2])) (cube_le_cube _ _ (by linarith only [hx1, (le_of_lt hs24)]))))
      · 
        rcases le_or_lt b (1/4:ℝ) with hs25 | hs25
        · 
          rcases le_or_lt a (-((1/8:ℝ))) with hs26 | hs26
          · 
            rcases le_or_lt b (1/8:ℝ) with hs27 | hs27
            · 
              exact Or.inr (Or.inl (c6bc23 _ _ _ (cube_le_cube _ _ (by linarith only [hs26, hs27])) (cube_le_cube _ _ (by linarith only [hs26, hs27])) (cube_le_cube _ _ (by linarith only [(le_of_lt hs23), (le_of_lt hs2)]))))
            · 
              exact Or.inr (Or.inl (c6bc24 _ _ _ (cube_le_cube _ _ (by linarith only [hs26, hs25])) (cube_le_cube _ _ (by linarith only [hs26, hs25])) (cube_le_cube _ _ (by linarith only [(le_of_lt hs23), (le_of_lt hs27)]))))
          · 
            rcases le_or_lt b (1/8:ℝ) with hs28 | hs28
            · 
              rcases le_or_lt a (-((1/16:ℝ))) with hs29 | hs29
              · 
                rcases le_or_lt b (1/16:ℝ) with hs30 | hs30
                · 
                  exact Or.inr (Or.inl (c6bc25 _ _ _ (cube_le_cube _ _ (by linarith only [hs29, hs30])) (cube_le_cube _ _ (by linarith only [hs29, hs30])) (cube_le_cube _ _ (by linarith only [(le_of_lt hs26), (le_of_lt hs2)]))))
                · 
                  exact Or.inr (Or.inl (c6bc26 _ _ _ (cube_le_cube _ _ (by linarith only [hs29, hs28])) (cube_le_cube _ _ (by linarith only [hs29, hs28])) (cube_le_cube _ _ (by linarith only [(le_of_lt hs26), (le_of_lt hs30)]))))
              · 
                rcases le_or_lt b (1/16:ℝ) with hs31 | hs31
                · 
                  rcases le_or_lt a (-((1/32:ℝ))) with hs32 | hs32
                  · 
                    rcases le_or_lt b (1/32:ℝ) with hs33 | hs33
                    · 
                      exact Or.inr (Or.inl (c6bc27 _ _ _ (cube_le_cube _ _ (by linarith only [hs32, hs33])) (cube_le_cube _ _ (by linarith only [hs32, hs33])) (cube_le_cube _ _ (by linarith only [(le_of_lt hs29), (le_of_lt hs2)]))))
                    · 
                      exact Or.inr (Or.inl (c6bc28 _ _ _ (cube_le_cube _ _ (by linarith only [hs32, hs31])) (cube_le_cube _ _ (by linarith only [hs32, hs31])) (cube_le_cube _ _ (by linarith only [(le_of_lt hs29), (le_of_lt hs33)]))))
                  · 
                    rcases le_or_lt b (1/32:ℝ) with hs34 | hs34
                    · 
                      rcases le_or_lt a (-((1/64:ℝ))) with hs35 | hs35
                      · 
                        rcases le_or_lt b (1/64:ℝ) with hs36 | hs36
                        · 
                          exact Or.inr (Or.inl (c6bc29 _ _ _ (cube_le_cube _ _ (by linarith only [hs35, hs36])) (cube_le_cube _ _ (by linarith only [hs35, hs36])) (cube_le_cube _ _ (by linarith only [(le_of_lt hs32), (le_of_lt hs2)]))))
                        · 
                          exact Or.inr (Or.inl (c6bc30 _ _ _ (cube_le_cube _ _ (by linarith only [hs35, hs34])) (cube_le_cube _ _ (by linarith only [hs35, hs34])) (cube_le_cube _ _ (by linarith only [(le_of_lt hs32), (le_of_lt hs36)]))))
                      · 
                        rcases le_or_lt b (1/64:ℝ) with hs37 | hs37
                        · 
                          rcases le_or_lt a (-((1/128:ℝ))) with hs38 | hs38
                          · 
                            rcases le_or_lt b (1/128:ℝ) with hs39 | hs39
                            · 
                              exact Or.inr (Or.inl (c6bc31 _ _ _ (cube_le_cube _ _ (by linarith only [hs38, hs39])) (cube_le_cube _ _ (by linarith only [hs38, hs39])) (cube_le_cube _ _ (by linarith only [(le_of_lt hs35), (le_of_lt hs2)]))))
                            · 
                              exact Or.inr (Or.inl (c6bc32 _ _ _ (cube_le_cube _ _ (by linarith only [hs38, hs37])) (cube_le_cube _ _ (by linarith only [hs38, hs37])) (cube_le_cube _ _ (by linarith only [(le_of_lt hs35), (le_of_lt hs39)]))))
                          · 
                            rcases le_or_lt b (1/128:ℝ) with hs40 | hs40
                            · 
                              rcases le_or_lt a (-((1/256:ℝ))) with hs41 | hs41
                              · 
                                rcases le_or_lt b (1/256:ℝ) with hs42 | hs42
                                · 
                                  exact (c6bx33 a b (le_of_lt hs38) hs41 (le_of_lt hs2) hs42 hr1).elim
                                · 
                                  exact Or.inr (Or.inl (c6bc34 _ _ _ (cube_le_cube _ _ (by linarith only [hs41, hs40])) (cube_le_cube _ _ (by linarith only [hs41, hs40])) (cube_le_cube _ _ (by linarith only [(le_of_lt hs38), (le_of_lt hs42)]))))
                              · 
                                exact (c6bx35 a b (le_of_lt hs41) hs1 (le_of_lt hs2) hs40 hr1).elim
                            · 
                              rcases le_or_lt a (-((1/256:ℝ))) with hs43 | hs43
                              · 
                                rcases le_or_lt b (3/256:ℝ) with hs44 | hs44
                                · 
                                  exact Or.inr (Or.inl (c6bc36 _ _ _ (cube_le_cube _ _ (by linarith only [hs43, hs44])) (cube_le_cube _ _ (by linarith only [hs43, hs44])) (cube_le_cube _ _ (by linarith only [(le_of_lt hs38), (le_of_lt hs40)]))))
                                · 
                                  exact Or.inr (Or.inl (c6bc37 _ _ _ (cube_le_cube _ _ (by linarith only [hs43, hs37])) (cube_le_cube _ _ (by linarith only [hs43, hs37])) (cube_le_cube _ _ (by linarith only [(le_of_lt hs38), (le_of_lt hs44)]))))
                              · 
                                rcases le_or_lt b (3/256:ℝ) with hs45 | hs45
                                · 
                                  rcases le_or_lt a (-((1/512:ℝ))) with hs46 | hs46
                                  · 
                                    rcases le_or_lt b (5/512:ℝ) with hs47 | hs47
                                    · 
                                      exact Or.inr (Or.inl (c6bc38 _ _ _ (cube_le_cube _ _ (by linarith only [hs46, hs47])) (cube_le_cube _ _ (by linarith only [hs46, hs47])) (cube_le_cube _ _ (by linarith only [(le_of_lt hs43), (le_of_lt hs40)]))))
                                    · 
                                      exact Or.inr (Or.inl (c6bc39 _ _ _ (cube_le_cube _ _ (by linarith only [hs46, hs45])) (cube_le_cube _ _ (by linarith only [hs46, hs45])) (cube_le_cube _ _ (by linarith only [(le_of_lt hs43), (le_of_lt hs47)]))))
                                  · 
                                    exact Or.inl (c6bc40 _ _ _ (cube_le_cube _ _ (by linarith only [(le_of_lt hs46), (le_of_lt hs40)])) (cube_le_cube _ _ (by linarith only [(le_of_lt hs46), (le_of_lt hs40)])) (cube_le_cube _ _ (by linarith only [hs1, hs45])))
                                · 
                                  exact Or.inl (c6bc41 _ _ _ (cube_le_cube _ _ (by linarith only [(le_of_lt hs43), (le_of_lt hs45)])) (cube_le_cube _ _ (by linarith only [(le_of_lt hs43), (le_of_lt hs45)])) (cube_le_cube _ _ (by linarith only [hs1, hs37])))
                        · 
                          rcases le_or_lt a (-((1/128:ℝ))) with hs48 | hs48
                          · 
                            rcases le_or_lt b (3/128:ℝ) with hs49 | hs49
                            · 
                              exact Or.inr (Or.inl (c6bc42 _ _ _ (cube_le_cube _ _ (by linarith only [hs48, hs49])) (cube_le_cube _ _ (by linarith only [hs48, hs49])) (cube_le_cube _ _ (by linarith only [(le_of_lt hs35), (le_of_lt hs37)]))))
                            · 
                              exact Or.inr (Or.inl (c6bc43 _ _ _ (cube_le_cube _ _ (by linarith only [hs48, hs34])) (cube_le_cube _ _ (by linarith only [hs48, hs34])) (cube_le_cube _ _ (by linarith only [(le_of_lt hs35), (le_of_lt hs49)]))))
                          · 
                            rcases le_or_lt b (3/128:ℝ) with hs50 | hs50
                            · 
                              rcases le_or_lt a (-((1/256:ℝ))) with hs51 | hs51
                              · 
                                rcases le_or_lt b (5/256:ℝ) with hs52 | hs52
                                · 
                                  exact Or.inr (Or.inl (c6bc44 _ _ _ (cube_le_cube _ _ (by linarith only [hs51, hs52])) (cube_le_cube _ _ (by linarith only [hs51, hs52])) (cube_le_cube _ _ (by linarith only [(le_of_lt hs48), (le_of_lt hs37)]))))
                                · 
                                  exact Or.inr (Or.inl (c6bc45 _ _ _ (cube_le_cube _ _ (by linarith only [hs51, hs50])) (cube_le_cube _ _ (by linarith only [hs51, hs50])) (cube_le_cube _ _ (by linarith only [(le_of_lt hs48), (le_of_lt hs52)]))))
                              · 
                                exact Or.inl (c6bc46 _ _ _ (cube_le_cube _ _ (by linarith only [(le_of_lt hs51), (le_of_lt hs37)])) (cube_le_cube _ _ (by linarith only [(le_of_lt hs51), (le_of_lt hs37)])) (cube_le_cube _ _ (by linarith only [hs1, hs50])))
                            · 
                              exact Or.inl (c6bc47 _ _ _ (cube_le_cube _ _ (by linarith only [(le_of_lt hs48), (le_of_lt hs50)])) (cube_le_cube _ _ (by linarith only [(le_of_lt hs48), (le_of_lt hs50)])) (cube_le_cube _ _ (by linarith only [hs1, hs34])))
                    · 
                      rcases le_or_lt a (-((1/64:ℝ))) with hs53 | hs53
                      · 
                        rcases le_or_lt b (3/64:ℝ) with hs54 | hs54
                        · 
                          exact Or.inr (Or.inl (c6bc48 _ _ _ (cube_le_cube _ _ (by linarith only [hs53, hs54])) (cube_le_cube _ _ (by linarith only [hs53, hs54])) (cube_le_cube _ _ (by linarith only [(le_of_lt hs32), (le_of_lt hs34)]))))
                        · 
                          exact Or.inr (Or.inl (c6bc49 _ _ _ (cube_le_cube _ _ (by linarith only [hs53, hs31])) (cube_le_cube _ _ (by linarith only [hs53, hs31])) (cube_le_cube _ _ (by linarith only [(le_of_lt hs32), (le_of_lt hs54)]))))
                      · 
                        rcases le_or_lt b (3/64:ℝ) with hs55 | hs55
                        · 
                          rcases le_or_lt a (-((1/128:ℝ))) with hs56 | hs56
                          · 
                            rcases le_or_lt b (5/128:ℝ) with hs57 | hs57
                            · 
                              exact Or.inr (Or.inl (c6bc50 _ _ _ (cube_le_cube _ _ (by linarith only [hs56, hs57])) (cube_le_cube _ _ (by linarith only [hs56, hs57])) (cube_le_cube _ _ (by linarith only [(le_of_lt hs53), (le_of_lt hs34)]))))
                            · 
                              exact Or.inr (Or.inl (c6bc51 _ _ _ (cube_le_cube _ _ (by linarith only [hs56, hs55])) (cube_le_cube _ _ (by linarith only [hs56, hs55])) (cube_le_cube _ _ (by linarith only [(le_of_lt hs53), (le_of_lt hs57)]))))
                          · 
                            exact Or.inl (c6bc52 _ _ _ (cube_le_cube _ _ (by linarith only [(le_of_lt hs56), (le_of_lt hs34)])) (cube_le_cube _ _ (by linarith only [(le_of_lt hs56), (le_of_lt hs34)])) (cube_le_cube _ _ (by linarith only [hs1, hs55])))
                        · 
                          exact Or.inl (c6bc53 _ _ _ (cube_le_cube _ _ (by linarith only [(le_of_lt hs53), (le_of_lt hs55)])) (cube_le_cube _ _ (by linarith only [(le_of_lt hs53), (le_of_lt hs55)])) (cube_le_cube _ _ (by linarith only [hs1, hs31])))
                · 
                  rcases le_or_lt a (-((1/32:ℝ))) with hs58 | hs58
                  · 
                    rcases le_or_lt b (3/32:ℝ) with hs59 | hs59
                    · 
                      exact Or.inr (Or.inl (c6bc54 _ _ _ (cube_le_cube _ _ (by linarith only [hs58, hs59])) (cube_le_cube _ _ (by linarith only [hs58, hs59])) (cube_le_cube _ _ (by linarith only [(le_of_lt hs29), (le_of_lt hs31)]))))
                    · 
                      exact Or.inr (Or.inl (c6bc55 _ _ _ (cube_le_cube _ _ (by linarith only [hs58, hs28])) (cube_le_cube _ _ (by linarith only [hs58, hs28])) (cube_le_cube _ _ (by linarith only [(le_of_lt hs29), (le_of_lt hs59)]))))
                  · 
                    rcases le_or_lt b (3/32:ℝ) with hs60 | hs60
                    · 
                      rcases le_or_lt a (-((1/64:ℝ))) with hs61 | hs61
                      · 
                        rcases le_or_lt b (5/64:ℝ) with hs62 | hs62
                        · 
                          exact Or.inr (Or.inl (c6bc56 _ _ _ (cube_le_cube _ _ (by linarith only [hs61, hs62])) (cube_le_cube _ _ (by linarith only [hs61, hs62])) (cube_le_cube _ _ (by linarith only [(le_of_lt hs58), (le_of_lt hs31)]))))
                        · 
                          exact Or.inr (Or.inl (c6bc57 _ _ _ (cube_le_cube _ _ (by linarith only [hs61, hs60])) (cube_le_cube _ _ (by linarith only [hs61, hs60])) (cube_le_cube _ _ (by linarith only [(le_of_lt hs58), (le_of_lt hs62)]))))
                      · 
                        exact Or.inl (c6bc58 _ _ _ (cube_le_cube _ _ (by linarith only [(le_of_lt hs61), (le_of_lt hs31)])) (cube_le_cube _ _ (by linarith only [(le_of_lt hs61), (le_of_lt hs31)])) (cube_le_cube _ _ (by linarith only [hs1, hs60])))
                    · 
                      exact Or.inl (c6bc59 _ _ _ (cube_le_cube _ _ (by linarith only [(le_of_lt hs58), (le_of_lt hs60)])) (cube_le_cube _ _ (by linarith only [(le_of_lt hs58), (le_of_lt hs60)])) (cube_le_cube _ _ (by linarith only [hs1, hs28])))
            · 
              rcases le_or_lt a (-((1/16:ℝ))) with hs63 | hs63
              · 
                rcases le_or_lt b (3/16:ℝ) with hs64 | hs64
                · 
                  exact Or.inr (Or.inl (c6bc60 _ _ _ (cube_le_cube _ _ (by linarith only [hs63, hs64])) (cube_le_cube _ _ (by linarith only [hs63, hs64])) (cube_le_cube _ _ (by linarith only [(le_of_lt hs26), (le_of_lt hs28)]))))
                · 
                  rcases le_or_lt a (-((3/32:ℝ))) with hs65 | hs65
                  · 
                    exact Or.inr (Or.inl (c6bc61 _ _ _ (cube_le_cube _ _ (by linarith only [hs65, hs25])) (cube_le_cube _ _ (by linarith only [hs65, hs25])) (cube_le_cube _ _ (by linarith only [(le_of_lt hs26), (le_of_lt hs64)]))))
                  · 
                    exact Or.inr (Or.inl (c6bc62 _ _ _ (cube_le_cube _ _ (by linarith only [hs63, hs25])) (cube_le_cube _ _ (by linarith only [hs63, hs25])) (cube_le_cube _ _ (by linarith only [(le_of_lt hs65), (le_of_lt hs64)]))))
              · 
                rcases le_or_lt b (3/16:ℝ) with hs66 | hs66
                · 
                  rcases le_or_lt a (-((1/32:ℝ))) with hs67 | hs67
                  · 
                    rcases le_or_lt b (5/32:ℝ) with hs68 | hs68
                    · 
                      exact Or.inr (Or.inl (c6bc63 _ _ _ (cube_le_cube _ _ (by linarith only [hs67, hs68])) (cube_le_cube _ _ (by linarith only [hs67, hs68])) (cube_le_cube _ _ (by linarith only [(le_of_lt hs63), (le_of_lt hs28)]))))
                    · 
                      exact Or.inl (c6bc64 _ _ _ (cube_le_cube _ _ (by linarith only [(le_of_lt hs63), (le_of_lt hs68)])) (cube_le_cube _ _ (by linarith only [(le_of_lt hs63), (le_of_lt hs68)])) (cube_le_cube _ _ (by linarith only [hs67, hs66])))
                  · 
                    exact Or.inl (c6bc65 _ _ _ (cube_le_cube _ _ (by linarith only [(le_of_lt hs67), (le_of_lt hs28)])) (cube_le_cube _ _ (by linarith only [(le_of_lt hs67), (le_of_lt hs28)])) (cube_le_cube _ _ (by linarith only [hs1, hs66])))
                · 
                  exact Or.inl (c6bc66 _ _ _ (cube_le_cube _ _ (by linarith only [(le_of_lt hs63), (le_of_lt hs66)])) (cube_le_cube _ _ (by linarith only [(le_of_lt hs63), (le_of_lt hs66)])) (cube_le_cube _ _ (by linarith only [hs1, hs25])))
        · 
          exact Or.inr (Or.inr (Or.inr (Or.inr (Or.inr (c6bc67 _ _ _ (cube_le_cube _ _ (by linarith only [(le_of_lt hs23), (le_of_lt hs25)])) (cube_le_cube _ _ (by linarith only [hs1, hy2])) (cube_le_cube _ _ (by linarith only [(le_of_lt hs23), (le_of_lt hs25)])))))))
  · 
    rcases le_or_lt b (0:ℝ) with hs69 | hs69
    · 
      rcases le_or_lt a (1/4:ℝ) with hs70 | hs70
      · 
        rcases le_or_lt b (-((1/4:ℝ))) with hs71 | hs71
        · 
          exact Or.inr (Or.inr (Or.inl (c6bc68 _ _ _ (cube_le_cube _ _ (by linarith only [hs70, hs71])) (cube_le_cube _ _ (by linarith only [(le_of_lt hs1), hy1])) (cube_le_cube _ _ (by linarith only [hs70, hs71])))))
        · 
          rcases le_or_lt a (1/8:ℝ) with hs72 | hs72
          · 
            rcases le_or_lt b (-((1/8:ℝ))) with hs73 | hs73
            · 
              exact Or.inr (Or.inr (Or.inl (c6bc69 _ _ _ (cube_le_cube _ _ (by linarith only [hs72, hs73])) (cube_le_cube _ _ (by linarith only [(le_of_lt hs1), (le_of_lt hs71)])) (cube_le_cube _ _ (by linarith only [hs72, hs73])))))
            · 
              rcases le_or_lt a (1/16:ℝ) with hs74 | hs74
              · 
                rcases le_or_lt b (-((1/16:ℝ))) with hs75 | hs75
                · 
                  exact Or.inr (Or.inr (Or.inl (c6bc70 _ _ _ (cube_le_cube _ _ (by linarith only [hs74, hs75])) (cube_le_cube _ _ (by linarith only [(le_of_lt hs1), (le_of_lt hs73)])) (cube_le_cube _ _ (by linarith only [hs74, hs75])))))
                · 
                  rcases le_or_lt a (1/32:ℝ) with hs76 | hs76
                  · 
                    rcases le_or_lt b (-((1/32:ℝ))) with hs77 | hs77
                    · 
                      exact Or.inr (Or.inr (Or.inl (c6bc71 _ _ _ (cube_le_cube _ _ (by linarith only [hs76, hs77])) (cube_le_cube _ _ (by linarith only [(le_of_lt hs1), (le_of_lt hs75)])) (cube_le_cube _ _ (by linarith only [hs76, hs77])))))
                    · 
                      rcases le_or_lt a (1/64:ℝ) with hs78 | hs78
                      · 
                        rcases le_or_lt b (-((1/64:ℝ))) with hs79 | hs79
                        · 
                          exact Or.inr (Or.inr (Or.inl (c6bc72 _ _ _ (cube_le_cube _ _ (by linarith only [hs78, hs79])) (cube_le_cube _ _ (by linarith only [(le_of_lt hs1), (le_of_lt hs77)])) (cube_le_cube _ _ (by linarith only [hs78, hs79])))))
                        · 
                          rcases le_or_lt a (1/128:ℝ) with hs80 | hs80
                          · 
                            rcases le_or_lt b (-((1/128:ℝ))) with hs81 | hs81
                            · 
                              exact Or.inr (Or.inr (Or.inl (c6bc73 _ _ _ (cube_le_cube _ _ (by linarith only [hs80, hs81])) (cube_le_cube _ _ (by linarith only [(le_of_lt hs1), (le_of_lt hs79)])) (cube_le_cube _ _ (by linarith only [hs80, hs81])))))
                            · 
                              rcases le_or_lt a (1/256:ℝ) with hs82 | hs82
                              · 
                                exact (c6bx74 a b (le_of_lt hs1) hs82 (le_of_lt hs81) hs69 hr1).elim
                              · 
                                rcases le_or_lt b (-((1/256:ℝ))) with hs83 | hs83
                                · 
                                  exact Or.inr (Or.inr (Or.inl (c6bc75 _ _ _ (cube_le_cube _ _ (by linarith only [hs80, hs83])) (cube_le_cube _ _ (by linarith only [(le_of_lt hs82), (le_of_lt hs81)])) (cube_le_cube _ _ (by linarith only [hs80, hs83])))))
                                · 
                                  exact (c6bx76 a b (le_of_lt hs82) hs80 (le_of_lt hs83) hs69 hr1).elim
                          · 
                            rcases le_or_lt b (-((1/128:ℝ))) with hs84 | hs84
                            · 
                              exact Or.inl (c6bc77 _ _ _ (cube_le_cube _ _ (by linarith only [(le_of_lt hs80), (le_of_lt hs79)])) (cube_le_cube _ _ (by linarith only [(le_of_lt hs80), (le_of_lt hs79)])) (cube_le_cube _ _ (by linarith only [hs78, hs84])))
                            · 
                              exact Or.inl (c6bc78 _ _ _ (cube_le_cube _ _ (by linarith only [(le_of_lt hs80), (le_of_lt hs84)])) (cube_le_cube _ _ (by linarith only [(le_of_lt hs80), (le_of_lt hs84)])) (cube_le_cube _ _ (by linarith only [hs78, hs69])))
                      · 
                        rcases le_or_lt b (-((1/64:ℝ))) with hs85 | hs85
                        · 
                          exact Or.inl (c6bc79 _ _ _ (cube_le_cube _ _ (by linarith only [(le_of_lt hs78), (le_of_lt hs77)])) (cube_le_cube _ _ (by linarith only [(le_of_lt hs78), (le_of_lt hs77)])) (cube_le_cube _ _ (by linarith only [hs76, hs85])))
                        · 
                          exact Or.inl (c6bc80 _ _ _ (cube_le_cube _ _ (by linarith only [(le_of_lt hs78), (le_of_lt hs85)])) (cube_le_cube _ _ (by linarith only [(le_of_lt hs78), (le_of_lt hs85)])) (cube_le_cube _ _ (by linarith only [hs76, hs69])))
                  · 
                    rcases le_or_lt b (-((1/32:ℝ))) with hs86 | hs86
                    · 
                      exact Or.inl (c6bc81 _ _ _ (cube_le_cube _ _ (by linarith only [(le_of_lt hs76), (le_of_lt hs75)])) (cube_le_cube _ _ (by linarith only [(le_of_lt hs76), (le_of_lt hs75)])) (cube_le_cube _ _ (by linarith only [hs74, hs86])))
                    · 
                      exact Or.inl (c6bc82 _ _ _ (cube_le_cube _ _ (by linarith only [(le_of_lt hs76), (le_of_lt hs86)])) (cube_le_cube _ _ (by linarith only [(le_of_lt hs76), (le_of_lt hs86)])) (cube_le_cube _ _ (by linarith only [hs74, hs69])))
              · 
                rcases le_or_lt b (-((1/16:ℝ))) with hs87 | hs87
                · 
                  exact Or.inl (c6bc83 _ _ _ (cube_le_cube _ _ (by linarith only [(le_of_lt hs74), (le_of_lt hs73)])) (cube_le_cube _ _ (by linarith only [(le_of_lt hs74), (le_of_lt hs73)])) (cube_le_cube _ _ (by linarith only [hs72, hs87])))
                · 
                  exact Or.inl (c6bc84 _ _ _ (cube_le_cube _ _ (by linarith only [(le_of_lt hs74), (le_of_lt hs87)])) (cube_le_cube _ _ (by linarith only [(le_of_lt hs74), (le_of_lt hs87)])) (cube_le_cube _ _ (by linarith only [hs72, hs69])))
          · 
            rcases le_or_lt b (-((1/8:ℝ))) with hs88 | hs88
            · 
              exact Or.inl (c6bc85 _ _ _ (cube_le_cube _ _ (by linarith only [(le_of_lt hs72), (le_of_lt hs71)])) (cube_le_cube _ _ (by linarith only [(le_of_lt hs72), (le_of_lt hs71)])) (cube_le_cube _ _ (by linarith only [hs70, hs88])))
            · 
              exact Or.inl (c6bc86 _ _ _ (cube_le_cube _ _ (by linarith only [(le_of_lt hs72), (le_of_lt hs88)])) (cube_le_cube _ _ (by linarith only [(le_of_lt hs72), (le_of_lt hs88)])) (cube_le_cube _ _ (by linarith only [hs70, hs69])))
      · 
        rcases le_or_lt b (-((1/4:ℝ))) with hs89 | hs89
        · 
          exact Or.inl (c6bc87 _ _ _ (cube_le_cube _ _ (by linarith only [(le_of_lt hs70), hy1])) (cube_le_cube _ _ (by linarith only [(le_of_lt hs70), hy1])) (cube_le_cube _ _ (by linarith only [hx2, hs89])))
        · 
          exact Or.inl (c6bc88 _ _ _ (cube_le_cube _ _ (by linarith only [(le_of_lt hs70), (le_of_lt hs89)])) (cube_le_cube _ _ (by linarith only [(le_of_lt hs70), (le_of_lt hs89)])) (cube_le_cube _ _ (by linarith only [hx2, hs69])))
    · 
      rcases le_or_lt a (1/4:ℝ) with hs90 | hs90
      · 
        rcases le_or_lt b (1/4:ℝ) with hs91 | hs91
        · 
          rcases le_or_lt a (1/8:ℝ) with hs92 | hs92
          · 
            rcases le_or_lt b (1/8:ℝ) with hs93 | hs93
            · 
              rcases le_or_lt a (1/16:ℝ) with hs94 | hs94
              · 
                rcases le_or_lt b (1/16:ℝ) with hs95 | hs95
                · 
                  rcases le_or_lt a (1/32:ℝ) with hs96 | hs96
                  · 
                    rcases le_or_lt b (1/32:ℝ) with hs97 | hs97
                    · 
                      rcases le_or_lt a (1/64:ℝ) with hs98 | hs98
                      · 
                        rcases le_or_lt b (1/64:ℝ) with hs99 | hs99
                        · 
                          rcases le_or_lt a (1/128:ℝ) with hs100 | hs100
                          · 
                            rcases le_or_lt b (1/128:ℝ) with hs101 | hs101
                            · 
                              rcases le_or_lt a (1/256:ℝ) with hs102 | hs102
                              · 
                                exact (c6bx89 a b (le_of_lt hs1) hs102 (le_of_lt hs69) hs101 hr1).elim
                              · 
                                exact Or.inl (c6bc90 _ _ _ (cube_le_cube _ _ (by linarith only [(le_of_lt hs102), (le_of_lt hs69)])) (cube_le_cube _ _ (by linarith only [(le_of_lt hs102), (le_of_lt hs69)])) (cube_le_cube _ _ (by linarith only [hs100, hs101])))
                            · 
                              exact Or.inl (c6bc91 _ _ _ (cube_le_cube _ _ (by linarith only [(le_of_lt hs1), (le_of_lt hs101)])) (cube_le_cube _ _ (by linarith only [(le_of_lt hs1), (le_of_lt hs101)])) (cube_le_cube _ _ (by linarith only [hs100, hs99])))
                          · 
                            exact Or.inl (c6bc92 _ _ _ (cube_le_cube _ _ (by linarith only [(le_of_lt hs100), (le_of_lt hs69)])) (cube_le_cube _ _ (by linarith only [(le_of_lt hs100), (le_of_lt hs69)])) (cube_le_cube _ _ (by linarith only [hs98, hs99])))
                        · 
                          exact Or.inl (c6bc93 _ _ _ (cube_le_cube _ _ (by linarith only [(le_of_lt hs1), (le_of_lt hs99)])) (cube_le_cube _ _ (by linarith only [(le_of_lt hs1), (le_of_lt hs99)])) (cube_le_cube _ _ (by linarith only [hs98, hs97])))
                      · 
                        exact Or.inl (c6bc94 _ _ _ (cube_le_cube _ _ (by linarith only [(le_of_lt hs98), (le_of_lt hs69)])) (cube_le_cube _ _ (by linarith only [(le_of_lt hs98), (le_of_lt hs69)])) (cube_le_cube _ _ (by linarith only [hs96, hs97])))
                    · 
                      exact Or.inl (c6bc95 _ _ _ (cube_le_cube _ _ (by linarith only [(le_of_lt hs1), (le_of_lt hs97)])) (cube_le_cube _ _ (by linarith only [(le_of_lt hs1), (le_of_lt hs97)])) (cube_le_cube _ _ (by linarith only [hs96, hs95])))
                  · 
                    exact Or.inl (c6bc96 _ _ _ (cube_le_cube _ _ (by linarith only [(le_of_lt hs96), (le_of_lt hs69)])) (cube_le_cube _ _ (by linarith only [(le_of_lt hs96), (le_of_lt hs69)])) (cube_le_cube _ _ (by linarith only [hs94, hs95])))
                · 
                  exact Or.inl (c6bc97 _ _ _ (cube_le_cube _ _ (by linarith only [(le_of_lt hs1), (le_of_lt hs95)])) (cube_le_cube _ _ (by linarith only [(le_of_lt hs1), (le_of_lt hs95)])) (cube_le_cube _ _ (by linarith only [hs94, hs93])))
              · 
                exact Or.inl (c6bc98 _ _ _ (cube_le_cube _ _ (by linarith only [(le_of_lt hs94), (le_of_lt hs69)])) (cube_le_cube _ _ (by linarith only [(le_of_lt hs94), (le_of_lt hs69)])) (cube_le_cube _ _ (by linarith only [hs92, hs93])))
            · 
              exact Or.inl (c6bc99 _ _ _ (cube_le_cube _ _ (by linarith only [(le_of_lt hs1), (le_of_lt hs93)])) (cube_le_cube _ _ (by linarith only [(le_of_lt hs1), (le_of_lt hs93)])) (cube_le_cube _ _ (by linarith only [hs92, hs91])))
          · 
            exact Or.inl (c6bc100 _ _ _ (cube_le_cube _ _ (by linarith only [(le_of_lt hs92), (le_of_lt hs69)])) (cube_le_cube _ _ (by linarith only [(le_of_lt hs92), (le_of_lt hs69)])) (cube_le_cube _ _ (by linarith only [hs90, hs91])))
        · 
          exact Or.inl (c6bc101 _ _ _ (cube_le_cube _ _ (by linarith only [(le_of_lt hs1), (le_of_lt hs91)])) (cube_le_cube _ _ (by linarith only [(le_of_lt hs1), (le_of_lt hs91)])) (cube_le_cube _ _ (by linarith only [hs90, hy2])))
      · 
        exact Or.inl (c6bc102 _ _ _ (cube_le_cube _ _ (by linarith only [(le_of_lt hs90), (le_of_lt hs69)])) (cube_le_cube _ _ (by linarith only [(le_of_lt hs90), (le_of_lt hs69)])) (cube_le_cube _ _ (by linarith only [hx2, hy2])))

theorem cmax_bisect_lt (g : Gamut) (L h c : ℝ)
    (hfail : ∀ C, c ≤ C → cmax_in_gamut g L C h = false) :
    ∀ (n : ℕ) (lo hi : ℝ), lo < c → (cmax_bisect g L h n (lo, hi)).1 < c := by
  intro n
  induction n with
  | zero => intro lo hi hlo; exact hlo
  | succ m ih =>
      intro lo hi hlo
      unfold cmax_bisect
      dsimp only
      cases htest : cmax_in_gamut g L (0.5 * (lo + hi)) h with
      | true =>
          rw [if_pos rfl]
          apply ih
          by_contra hcon
          push_neg at hcon
          rw [hfail _ hcon] at htest
          exact Bool.false_ne_true htest
      | false =>
          rw [if_neg Bool.false_ne_true]
          exact ih _ _ hlo

theorem cmax_bisect_lt_bounded (g : Gamut) (L h c H0 : ℝ)
    (hfail : ∀ C, c ≤ C → C ≤ H0 → cmax_in_gamut g L C h = false) :
    ∀ (n : ℕ) (lo hi : ℝ), 0 ≤ lo → lo ≤ hi → hi ≤ H0 → lo < c →
      (cmax_bisect g L h n (lo, hi)).1 < c := by
  intro n
  induction n with
  | zero => intro lo hi _ _ _ hlo; exact hlo
  | succ m ih =>
      intro lo hi hlo0 hlohi hhi hlo
      unfold cmax_bisect
      dsimp only
      cases htest : cmax_in_gamut g L (0.5 * (lo + hi)) h with
      | true =>
          rw [if_pos rfl]
          apply ih _ _ (by linarith) (by linarith) hhi
          by_contra hcon
          push_neg at hcon
          rw [hfail _ hcon (by linarith)] at htest
          exact Bool.false_ne_true htest
      | false =>
          rw [if_neg Bool.false_ne_true]
          exact ih _ _ hlo0 (by linarith) (by linarith) hlo

set_option maxHeartbeats 2000000 in
theorem c6_L0_fail
    (hcov : ∀ x y : ℝ, x ^ 2 + y ^ 2 = 1 →
      (4.0767416621 * (0 + 0.3963377774 * x + 0.2158037573 * y) ^ 3 -
          3.3077115913 * (0 - 0.1055613458 * x - 0.0638541728 * y) ^ 3 +
          0.2309699292 * (0 - 0.0894841775 * x - 1.2914855480 * y) ^ 3 ≤
        -(0.002)) ∨
      (-(1.2684380046 * (0 + 0.3963377774 * x + 0.2158037573 * y) ^ 3) +
          2.6097574011 * (0 - 0.1055613458 * x - 0.0638541728 * y) ^ 3 -
          0.3413193965 * (0 - 0.0894841775 * x - 1.2914855480 * y) ^ 3 ≤
        -(0.002)) ∨
      (-(0.0041960863 * (0 + 0.3963377774 * x + 0.2158037573 * y) ^ 3) -
          0.7034186147 * (0 - 0.1055613458 * x - 0.0638541728 * y) ^ 3 +
          1.7076147010 * (0 - 0.0894841775 * x - 1.2914855480 * y) ^ 3 ≤
        -(0.002)))
    (H C : ℝ) (hC : 0.01 ≤ C) : cmax_in_gamut Gamut.srgb 0 C H = false := by
  unfold cmax_in_gamut oklch_to_linear_srgb oklch_to_oklab oklab_to_linear_srgb
    linear_rgb_in_gamut
  dsimp only
  rw [decide_eq_false_iff_not]
  intro hmem
  obtain ⟨h1, h2, h3, h4, h5, h6⟩ := hmem
  have hc3 : (0:ℝ) ≤ C ^ 3 := by positivity
  have hC3 : (1e-6:ℝ) ≤ C ^ 3 := by
    have h := cube_le_cube 0.01 C hC
    norm_num at h
    linarith
  rcases hcov (Real.cos (deg_to_rad H)) (Real.sin (deg_to_rad H))
      (Real.cos_sq_add_sin_sq _) with hv | hv | hv
  · nlinarith [h1, mul_le_mul_of_nonneg_left hv hc3, hC3]
  · nlinarith [h3, mul_le_mul_of_nonneg_left hv hc3, hC3]
  · nlinarith [h5, mul_le_mul_of_nonneg_left hv hc3, hC3]

set_option maxHeartbeats 1000000 in
theorem c6_L1_fail
    (hcov : ∀ a b : ℝ, 1/10000 ≤ a ^ 2 + b ^ 2 → a ^ 2 + b ^ 2 ≤ 1/4 →
      1 + 1e-9 < (4.0767416621 * (1 + 0.3963377774 * a + 0.2158037573 * b) ^ 3 - 3.3077115913 * (1 - 0.1055613458 * a - 0.0638541728 * b) ^ 3 + 0.2309699292 * (1 - 0.0894841775 * a - 1.2914855480 * b) ^ 3) ∨
      1 + 1e-9 < (-(1.2684380046 * (1 + 0.3963377774 * a + 0.2158037573 * b) ^ 3) + 2.6097574011 * (1 - 0.1055613458 * a - 0.0638541728 * b) ^ 3 - 0.3413193965 * (1 - 0.0894841775 * a - 1.2914855480 * b) ^ 3) ∨
      1 + 1e-9 < (-(0.0041960863 * (1 + 0.3963377774 * a + 0.2158037573 * b) ^ 3) - 0.7034186147 * (1 - 0.1055613458 * a - 0.0638541728 * b) ^ 3 + 1.7076147010 * (1 - 0.0894841775 * a - 1.2914855480 * b) ^ 3) ∨
      (4.0767416621 * (1 + 0.3963377774 * a + 0.2158037573 * b) ^ 3 - 3.3077115913 * (1 - 0.1055613458 * a - 0.0638541728 * b) ^ 3 + 0.2309699292 * (1 - 0.0894841775 * a - 1.2914855480 * b) ^ 3) < -(1e-9) ∨
      (-(1.2684380046 * (1 + 0.3963377774 * a + 0.2158037573 * b) ^ 3) + 2.6097574011 * (1 - 0.1055613458 * a - 0.0638541728 * b) ^ 3 - 0.3413193965 * (1 - 0.0894841775 * a - 1.2914855480 * b) ^ 3) < -(1e-9) ∨
      (-(0.0041960863 * (1 + 0.3963377774 * a + 0.2158037573 * b) ^ 3) - 0.7034186147 * (1 - 0.1055613458 * a - 0.0638541728 * b) ^ 3 + 1.7076147010 * (1 - 0.0894841775 * a - 1.2914855480 * b) ^ 3) < -(1e-9))
    (H C : ℝ) (hC : 0.01 ≤ C) (hC2 : C ≤ 0.5) :
    cmax_in_gamut Gamut.srgb 1 C H = false := by
  unfold cmax_in_gamut oklch_to_linear_srgb oklch_to_oklab oklab_to_linear_srgb
    linear_rgb_in_gamut
  dsimp only
  rw [decide_eq_false_iff_not]
  intro hmem
  obtain ⟨h1, h2, h3, h4, h5, h6⟩ := hmem
  have hpy := Real.cos_sq_add_sin_sq (deg_to_rad H)
  have hab : (C * Real.cos (deg_to_rad H)) ^ 2 +
      (C * Real.sin (deg_to_rad H)) ^ 2 = C ^ 2 := by
    rw [mul_pow, mul_pow, ← mul_add, hpy, mul_one]
  rcases hcov (C * Real.cos (deg_to_rad H)) (C * Real.sin (deg_to_rad H))
      (by rw [hab]; nlinarith) (by rw [hab]; nlinarith) with
    hv | hv | hv | hv | hv | hv
  · linarith [h2, hv]
  · linarith [h4, hv]
  · linarith [h6, hv]
  · linarith [h1, hv]
  · linarith [h3, hv]
  · linarith [h5, hv]

/-- C6: the maximum-chroma binary search returns a value below 0.01 at both
lightness extremes: `cmax_for_L_h 0 H srgb < 0.01` and
`cmax_for_L_h 1 H srgb < 0.01` for every hue H. -/
theorem c6_cmax_extremes (H : ℝ) :
    cmax_for_L_h 0 H Gamut.srgb < 0.01 ∧ cmax_for_L_h 1 H Gamut.srgb < 0.01 := by
  constructor
  · unfold cmax_for_L_h
    exact cmax_bisect_lt Gamut.srgb 0 H 0.01
      (fun C hC => c6_L0_fail c6_circle_cover H C hC) 28 0 _ (by norm_num)
  · unfold cmax_for_L_h
    rw [show (8:ℕ) = 7 + 1 from rfl,
      cmax_grow_stop Gamut.srgb 1 H 7 0.5
        (c6_L1_fail c6_annulus_cover H 0.5 (by norm_num) (by norm_num))]
    exact cmax_bisect_lt_bounded Gamut.srgb 1 H 0.01 0.5
      (fun C h1 h2 => c6_L1_fail c6_annulus_cover H C h1 h2) 28 0 0.5
      (by norm_num) (by norm_num) le_rfl (by norm_num)

end

end Ripple
